import Mathlib

/-!
# E-commerce API: a shallow embedding of the request handlers

The handlers of `controllers/` are embedded as pure functions

    handler : Faults → (caller identity) → (request inputs) → Store → Response × Store

* `Store` holds the five tables that `db.MigrateDBSchemas` creates, each a list of rows in
  insertion order.  The timestamps `CreatedAt` and `UpdatedAt` are not represented; `LastLogin`
  is a natural number, 0 for Go's zero time.
* A finite `float64` is the rational number it denotes.  The prices of products and of
  requests are finite; the prices of order items and the totals of orders, which
  `CreateOrder` computes, are `F64` values: the product and the sum are rounded to the
  nearest `float64`, ties to even, and overflow to an infinity (`round64`).  Every operation
  is rounded on its own, as in a build without fused multiply-add (the default on amd64).
  The sign of a zero is not represented.
* Every call a handler makes on `db.DB` is numbered, from 0, in execution order within the
  request.  A `Faults` oracle says which of these calls return an error, and with what text;
  this covers lost connections as well as violated table constraints.  `noFaults` is the
  oracle under which every call reaches the table.
* The JSON decoder is outside the repository: a request body is given as `JSONBody`, either
  `malformed` or the decoded DTO (absent fields hold Go zero values).  The `binding` tags of
  the DTOs are embedded as the `validate…` functions.
* Machine integers are mathematical integers, except the offset `(page - 1) * pageSize`,
  which wraps around modulo `2 ^ 64` (`wrapInt64`).
* The `email` rule of the validator, `bcrypt` and the signing of tokens are parameters
  (`Externals`) of the handlers of `user.go`; the parsing of a token is a parameter
  (`JwtParse`) of the middleware.
-/

namespace Ecommerce

/-! ## float64 -/

/-- A `float64` value: a finite one (the rational number it denotes), an infinity, or
not-a-number. -/
inductive F64 where
  | finite (q : ℚ)
  | posInf
  | negInf
  | nan
  deriving DecidableEq, Repr

instance (n : Nat) : OfNat F64 n := ⟨.finite (OfNat.ofNat n)⟩

/-- The quotient `a / b` rounded to the nearest natural number, a tie to the even one. -/
def divRoundHalfEven (a b : Nat) : Nat :=
  let n := a / b
  let r := a % b
  if 2 * r < b then n else if b < 2 * r then n + 1 else if n % 2 = 0 then n else n + 1

/-- The number of halvings that bring `n` below 2, at most `fuel` of them. -/
def log2Fuel : Nat → Nat → Nat
  | 0, _ => 0
  | fuel + 1, n => if n < 2 then 0 else log2Fuel fuel (n / 2) + 1

/-- The integer part of the binary logarithm of a positive natural number. -/
def natLog2 (n : Nat) : Nat := log2Fuel n n

/-- The integer part of the binary logarithm of `a / b`, for positive `a` and `b`. -/
def floorLog2 (a b : Nat) : Int :=
  let k : Int := (natLog2 a : Int) - (natLog2 b : Int)
  if (if 0 ≤ k then b * 2 ^ k.toNat ≤ a else b ≤ a * 2 ^ (-k).toNat) then k else k - 1

/-- The positive rational `a / b` rounded to `float64` (binary64: 53 significant bits,
least exponent `-1074` of the last bit, greatest `971`), to nearest, ties to even; `none`
when the result is the infinity. -/
def roundPos (a b : Nat) : Option ℚ :=
  let k := floorLog2 a b
  if 1024 ≤ k then none
  else
    let e : Int := max (k - 52) (-1074)
    let m :=
      if 0 ≤ e then divRoundHalfEven a (b * 2 ^ e.toNat)
      else divRoundHalfEven (a * 2 ^ (-e).toNat) b
    if e = 971 ∧ m = 2 ^ 53 then none
    else
      some (if 0 ≤ e then ((m * 2 ^ e.toNat : Nat) : ℚ)
        else (m : ℚ) / ((2 ^ (-e).toNat : Nat) : ℚ))

/-- The `float64` nearest to a rational number: the result of a `float64` operation whose
exact result is `q`, and of the conversion `float64(n)` of an integer. -/
def round64 (q : ℚ) : F64 :=
  if q = 0 then .finite 0
  else if 0 < q then
    match roundPos q.num.toNat q.den with
    | some v => .finite v
    | none => .posInf
  else
    match roundPos (-q).num.toNat q.den with
    | some v => .finite (-v)
    | none => .negInf

/-- The `float64` sum. -/
def F64.add : F64 → F64 → F64
  | .nan, _ => .nan
  | _, .nan => .nan
  | .posInf, .negInf => .nan
  | .negInf, .posInf => .nan
  | .posInf, _ => .posInf
  | _, .posInf => .posInf
  | .negInf, _ => .negInf
  | _, .negInf => .negInf
  | .finite a, .finite b => round64 (a + b)

/-- The `float64` product of an infinity, positive or not, and a finite number. -/
def F64.infTimes (positive : Bool) (b : ℚ) : F64 :=
  if b = 0 then .nan
  else if decide (0 < b) == positive then .posInf else .negInf

/-- The `float64` product. -/
def F64.mul : F64 → F64 → F64
  | .nan, _ => .nan
  | _, .nan => .nan
  | .posInf, .posInf => .posInf
  | .posInf, .negInf => .negInf
  | .negInf, .posInf => .negInf
  | .negInf, .negInf => .posInf
  | .posInf, .finite b => F64.infTimes true b
  | .negInf, .finite b => F64.infTimes false b
  | .finite a, .posInf => F64.infTimes true a
  | .finite a, .negInf => F64.infTimes false a
  | .finite a, .finite b => round64 (a * b)

instance : Add F64 := ⟨F64.add⟩
instance : Mul F64 := ⟨F64.mul⟩

/-! ## models -/

/-- The `models.User` row. -/
structure User where
  ID : Nat
  Email : String
  FirstName : String
  LastName : String
  Password : String
  Role : String
  LastLogin : Nat
  deriving DecidableEq, Repr

abbrev RoleCustomer : String := "customer"
abbrev RoleAdmin : String := "admin"

/-- The method `(*User).IsAdmin`. -/
def User.IsAdmin (user : User) : Bool := user.Role == RoleAdmin

/-- The `models.Address` row. -/
structure Address where
  ID : Nat
  FirstName : String
  LastName : String
  City : String
  Country : String
  ZipCode : String
  StreetAddress : String
  UserID : Nat
  deriving DecidableEq, Repr

/-- The `models.Product` row. -/
structure Product where
  ID : Nat
  Name : String
  Category : String
  Description : String
  Price : ℚ
  Stock : Int
  deriving DecidableEq, Repr

/-- The columns of `models.Order` (the association fields `User`, `Address`, `OrderItems`
are filled by `Preload` and appear in `OrderJSON`). -/
structure Order where
  ID : Nat
  UserID : Nat
  AddressID : Nat
  Total : F64
  Status : String
  deriving DecidableEq, Repr

abbrev OrderStatusPending : String := "pending"
abbrev OrderStatusCompleted : String := "completed"
abbrev OrderStatusCancelled : String := "cancelled"

/-- The columns of `models.OrderItem`. -/
structure OrderItem where
  ID : Nat
  OrderID : Nat
  ProductID : Nat
  Price : F64
  Quantity : Int
  deriving DecidableEq, Repr

/-- Go zero value of `models.User`. -/
def User.zero : User := ⟨0, "", "", "", "", "", 0⟩
/-- Go zero value of `models.Address`. -/
def Address.zero : Address := ⟨0, "", "", "", "", "", "", 0⟩
/-- Go zero value of `models.Product`. -/
def Product.zero : Product := ⟨0, "", "", "", 0, 0⟩

/-- What `c.JSON` emits for a `models.Order` value: `UserID` and `AddressID` carry
`json:"-"`, the associations are emitted as loaded (zero values when not preloaded). -/
structure OrderJSON where
  id : Nat
  user : User
  address : Address
  total : F64
  status : String
  order_items : List OrderItem
  deriving DecidableEq, Repr

/-! ## the persistence gateway -/

/-- The tables behind `db.DB`. -/
structure Store where
  users : List User
  addresses : List Address
  products : List Product
  orders : List Order
  orderItems : List OrderItem
  deriving DecidableEq, Repr

/-- Rows with the `BaseModel` primary key. -/
class HasID (α : Type) where
  getID : α → Nat
  setID : α → Nat → α

instance : HasID User := ⟨User.ID, fun r n => { r with ID := n }⟩
instance : HasID Address := ⟨Address.ID, fun r n => { r with ID := n }⟩
instance : HasID Product := ⟨Product.ID, fun r n => { r with ID := n }⟩
instance : HasID Order := ⟨Order.ID, fun r n => { r with ID := n }⟩
instance : HasID OrderItem := ⟨OrderItem.ID, fun r n => { r with ID := n }⟩

/-- For each numbered persistence call of a request: the error it returns, if any. -/
abbrev Faults := Nat → Option String

/-- Every persistence call reaches its table. -/
def noFaults : Faults := fun _ => none

/-- Auto-increment: an identifier above every identifier of the table. -/
def nextID {α : Type} [HasID α] (rows : List α) : Nat :=
  (rows.map HasID.getID).foldr max 0 + 1

/-- The row a primary-key query selects: the first one with that identifier. -/
def findByID {α : Type} [HasID α] (rows : List α) (id : Nat) : Option α :=
  rows.find? (fun r => HasID.getID r == id)

/-- The call `db.DB.First(&row, id)`. -/
def dbFirst {α : Type} [HasID α] (f : Faults) (k : Nat) (rows : List α) (id : Nat) :
    Except String α :=
  match f k with
  | some e => .error e
  | none =>
    match findByID rows id with
    | some r => .ok r
    | none => .error "record not found"

/-- The call `db.DB.Create(&row)`: the row is appended under a fresh identifier, which is
written back into the value. -/
def dbCreate {α : Type} [HasID α] (f : Faults) (k : Nat) (rows : List α) (row : α) :
    Except String (List α × α) :=
  match f k with
  | some e => .error e
  | none =>
    let r := HasID.setID row (nextID rows)
    .ok (rows ++ [r], r)

/-- The call `db.DB.Save(&row)`: all columns of the row with that primary key are
overwritten; a row that is not there is inserted. -/
def dbSave {α : Type} [HasID α] (f : Faults) (k : Nat) (rows : List α) (row : α) :
    Except String (List α) :=
  match f k with
  | some e => .error e
  | none =>
    if rows.any (fun r => HasID.getID r == HasID.getID row) then
      .ok (rows.map (fun r => if HasID.getID r == HasID.getID row then row else r))
    else
      .ok (rows ++ [row])

/-- The call `db.DB.Delete(&row)`. -/
def dbDelete {α : Type} [HasID α] (f : Faults) (k : Nat) (rows : List α) (row : α) :
    Except String (List α) :=
  match f k with
  | some e => .error e
  | none => .ok (rows.filter (fun r => !(HasID.getID r == HasID.getID row)))

/-! ## requests and responses -/

/-- A request body after JSON decoding. -/
inductive JSONBody (α : Type) where
  | malformed
  | parsed (v : α)
  deriving DecidableEq, Repr

/-- One `validator.FieldError`. -/
structure FieldError where
  ns : String
  field : String
  tag : String
  param : String
  deriving DecidableEq, Repr

/-- The method `Error()` of a `validator.FieldError`. -/
def FieldError.Error (e : FieldError) : String :=
  "Key: '" ++ e.ns ++ "' Error:Field validation for '" ++ e.field ++
    "' failed on the '" ++ e.tag ++ "' tag"

/-- The error of `c.ShouldBindJSON`: `validator.ValidationErrors`, or anything else. -/
inductive BindError where
  | validation (errs : List FieldError)
  | other (msg : String)
  deriving DecidableEq, Repr

/-- The call `c.ShouldBindJSON(&req)`: decode, then check the `binding` tags. -/
def ShouldBindJSON {α : Type} (validate : α → List FieldError) (body : JSONBody α) :
    Except BindError α :=
  match body with
  | .malformed => .error (.other "invalid request body")
  | .parsed v =>
    match validate v with
    | [] => .ok v
    | e :: es => .error (.validation (e :: es))

/-- The `dtos.OrderListResponse`. -/
structure OrderListResponse where
  Page : Int
  PageSize : Int
  TotalCount : Int
  TotalPages : Int
  Orders : List OrderJSON
  deriving DecidableEq, Repr

/-- The object written by `ListProducts` (the keys of `dtos.ProductListResponse`). -/
structure ProductListResponse where
  Page : Int
  PageSize : Int
  TotalCount : Int
  TotalPages : Int
  Products : List Product
  deriving DecidableEq, Repr

/-- The `dtos.RegistrationSuccessResponse`. -/
structure RegistrationSuccessResponse where
  Msg : String
  User : User
  AccessToken : String
  RefreshToken : String
  deriving DecidableEq, Repr

/-- The `dtos.LoginSuccessResponse`. -/
structure LoginSuccessResponse where
  User : User
  AccessToken : String
  RefreshToken : String
  Msg : String
  deriving DecidableEq, Repr

/-- The JSON documents the handlers write. -/
inductive Payload where
  | error (msg : String)
  | fieldErrors (errorMessages : List (String × String))
  | order (o : OrderJSON)
  | orderList (r : OrderListResponse)
  | product (p : Product)
  | productList (r : ProductListResponse)
  | address (a : Address)
  | addresses (l : List Address)
  | registration (r : RegistrationSuccessResponse)
  | login (r : LoginSuccessResponse)
  | empty
  deriving DecidableEq, Repr

/-- Status code and body written to the client. -/
structure Response where
  status : Nat
  body : Payload
  deriving DecidableEq, Repr

abbrev StatusOK : Nat := 200
abbrev StatusCreated : Nat := 201
abbrev StatusNoContent : Nat := 204
abbrev StatusBadRequest : Nat := 400
abbrev StatusUnauthorized : Nat := 401
abbrev StatusForbidden : Nat := 403
abbrev StatusNotFound : Nat := 404
abbrev StatusInternalServerError : Nat := 500

/-! ## controllers/utils.go -/

/-- The class `[a-z0-9]` of the regular expression in `handleValidationErrors`. -/
def isLowerOrDigit (c : Char) : Bool :=
  ('a'.toNat ≤ c.toNat && c.toNat ≤ 'z'.toNat) || ('0'.toNat ≤ c.toNat && c.toNat ≤ '9'.toNat)

/-- The class `[A-Z]`. -/
def isUpper (c : Char) : Bool := 'A'.toNat ≤ c.toNat && c.toNat ≤ 'Z'.toNat

/-- The replacement of every match of `([a-z0-9])([A-Z])` by `${1}_${2}`, matches taken
left to right without overlap. -/
def replaceCamel : List Char → List Char
  | [] => []
  | [a] => [a]
  | a :: b :: rest =>
    if isLowerOrDigit a && isUpper b then a :: '_' :: b :: replaceCamel rest
    else a :: replaceCamel (b :: rest)

/-- The key of a field in the error map: the replacement, then `strings.ToLower`, which is
taken on the ASCII letters (the field names of the DTOs hold no other letters). -/
def snakeCase (field : String) : String :=
  String.mk ((replaceCamel field.toList).map Char.toLower)

/-- Assignment `m[key] = value` on a Go map, kept as an association list. -/
def mapSet {β : Type} (m : List (String × β)) (key : String) (value : β) : List (String × β) :=
  if m.any (fun kv => kv.1 == key) then
    m.map (fun kv => if kv.1 == key then (key, value) else kv)
  else m ++ [(key, value)]

/-- The message chosen by the `switch` on `validationErr.Tag()`. -/
def validationMessage (e : FieldError) : String :=
  if e.tag == "gt" then "Value must be greater than " ++ e.param ++ "."
  else if e.tag == "required" then "This field is required."
  else if e.tag == "min" then "Value length must be greater than or equal to " ++ e.param
  else e.Error

/-- The function `handleValidationErrors`. -/
def handleValidationErrors (err : BindError) : Response :=
  match err with
  | .validation validationErrors =>
    ⟨StatusBadRequest, .fieldErrors
      (validationErrors.foldl (fun m e => mapSet m (snakeCase e.field) (validationMessage e)) [])⟩
  | .other _ => ⟨StatusInternalServerError, .error "An error occurred. Please try again."⟩

/-! ## strconv.Atoi -/

/-- Value of a non-empty string of decimal digits. -/
def parseDigits : List Char → Option Nat
  | [] => none
  | cs => cs.foldl (fun acc c =>
      match acc with
      | none => none
      | some n => if c.isDigit then some (10 * n + (c.toNat - '0'.toNat)) else none) (some 0)

/-- The function `strconv.Atoi` on a 64-bit platform: optional sign, decimal digits, and the
value within the range of `int`. -/
def Atoi (s : String) : Option Int :=
  let cs := s.toList
  let neg := cs.head? == some '-'
  let ds := if cs.head? == some '-' || cs.head? == some '+' then cs.tail else cs
  match parseDigits ds with
  | none => none
  | some n =>
    if neg then (if n ≤ 2 ^ 63 then some (-(n : Int)) else none)
    else (if n < 2 ^ 63 then some (n : Int) else none)

/-- Spec wording, "a decimal integer": an optional sign followed by one or more decimal
digits. -/
def decimalInteger (v : String) : Bool :=
  match v.toList with
  | [] => false
  | c :: rest =>
    if c == '-' || c == '+' then !rest.isEmpty && rest.all Char.isDigit
    else (c :: rest).all Char.isDigit

/-! ## dtos -/

/-- The `dtos.OrderItemRequest`. Its `binding` tags are never consulted: the validator
does not descend into the elements of `OrderItems` (the field has no `dive` tag). -/
structure OrderItemRequest where
  ProductID : Nat
  Quantity : Int
  deriving DecidableEq, Repr

/-- The `dtos.CreateOrderRequest`; `OrderItems` is `none` for a nil slice. -/
structure CreateOrderRequest where
  AddressID : Nat
  OrderItems : Option (List OrderItemRequest)
  deriving DecidableEq, Repr

/-- The `dtos.UpdateOrderStatusRequest`. -/
structure UpdateOrderStatusRequest where
  Status : String
  deriving DecidableEq, Repr

/-- The `dtos.CreateProductRequest`. -/
structure CreateProductRequest where
  Name : String
  Description : String
  Price : ℚ
  Stock : Int
  Category : String
  deriving DecidableEq, Repr

/-- The `dtos.PatchProductRequest`. -/
structure PatchProductRequest where
  Name : String
  Description : String
  Price : ℚ
  Stock : Int
  Category : String
  deriving DecidableEq, Repr

/-- The `dtos.CreateAddressRequest`. -/
structure CreateAddressRequest where
  FirstName : String
  LastName : String
  City : String
  Country : String
  ZipCode : String
  StreetAddress : String
  deriving DecidableEq, Repr

/-- A failed tag on a field of struct `st`. -/
def fieldError (st field tag param : String) : FieldError :=
  ⟨st ++ "." ++ field, field, tag, param⟩

/-- Tag `required` on a string field. -/
def requiredString (st field : String) (v : String) : List FieldError :=
  if v == "" then [fieldError st field "required" ""] else []

/-- Tags `binding:"required"` on `AddressID` and `binding:"required,min=1"` on
`OrderItems`. -/
def validateCreateOrderRequest (r : CreateOrderRequest) : List FieldError :=
  (if r.AddressID == 0 then [fieldError "CreateOrderRequest" "AddressID" "required" ""] else [])
  ++ (match r.OrderItems with
      | none => [fieldError "CreateOrderRequest" "OrderItems" "required" ""]
      | some l =>
        if l.length < 1 then [fieldError "CreateOrderRequest" "OrderItems" "min" "1"] else [])

/-- Tag `binding:"required"` on `Status`. -/
def validateUpdateOrderStatusRequest (r : UpdateOrderStatusRequest) : List FieldError :=
  requiredString "UpdateOrderStatusRequest" "Status" r.Status

/-- Tags of `dtos.CreateProductRequest`: `required` on all five fields, `gt=0` on `Price`,
`gt=-1` on `Stock`. -/
def validateCreateProductRequest (r : CreateProductRequest) : List FieldError :=
  requiredString "CreateProductRequest" "Name" r.Name
  ++ requiredString "CreateProductRequest" "Description" r.Description
  ++ (if r.Price = 0 then [fieldError "CreateProductRequest" "Price" "required" ""]
      else if r.Price ≤ 0 then [fieldError "CreateProductRequest" "Price" "gt" "0"] else [])
  ++ (if r.Stock = 0 then [fieldError "CreateProductRequest" "Stock" "required" ""]
      else if r.Stock ≤ -1 then [fieldError "CreateProductRequest" "Stock" "gt" "-1"] else [])
  ++ requiredString "CreateProductRequest" "Category" r.Category

/-- Tags of `dtos.PatchProductRequest`: `omitempty` on all five fields, `gt=0` on `Price`,
`gt=-1` on `Stock`. -/
def validatePatchProductRequest (r : PatchProductRequest) : List FieldError :=
  (if r.Price = 0 then []
   else if r.Price ≤ 0 then [fieldError "PatchProductRequest" "Price" "gt" "0"] else [])
  ++ (if r.Stock = 0 then []
      else if r.Stock ≤ -1 then [fieldError "PatchProductRequest" "Stock" "gt" "-1"] else [])

/-- Tags of `dtos.CreateAddressRequest`: `required` on all six fields. -/
def validateCreateAddressRequest (r : CreateAddressRequest) : List FieldError :=
  requiredString "CreateAddressRequest" "FirstName" r.FirstName
  ++ requiredString "CreateAddressRequest" "LastName" r.LastName
  ++ requiredString "CreateAddressRequest" "City" r.City
  ++ requiredString "CreateAddressRequest" "Country" r.Country
  ++ requiredString "CreateAddressRequest" "ZipCode" r.ZipCode
  ++ requiredString "CreateAddressRequest" "StreetAddress" r.StreetAddress

/-! ## controllers/order.go -/

abbrev unauthenticated : Response :=
  ⟨StatusUnauthorized, .error "Unauthenticated, login is required"⟩

/-- The expression `product.Price * float64(item.Quantity)` of both loops of
`CreateOrder`. -/
def linePrice (price : ℚ) (quantity : Int) : F64 :=
  F64.finite price * round64 (quantity : ℚ)

/-- The first loop of `CreateOrder`: for each line item, from persistence call `k` on, look
the product up, check the quantity, record the product in the map `products` and add to
`orderTotal`.  An `error` is the message of the 400 response. -/
def validateOrderItems (f : Faults) (table : List Product) :
    Nat → List OrderItemRequest → List (Nat × Product) → F64 →
      Except String (List (Nat × Product) × F64)
  | _, [], products, orderTotal => .ok (products, orderTotal)
  | k, item :: rest, products, orderTotal =>
    match dbFirst f k table item.ProductID with
    | .error _ => .error ("Invalid product ID: " ++ toString item.ProductID)
    | .ok product =>
      if item.Quantity ≤ 0 then
        .error ("Quantity must be greater than 0 for product ID: " ++ toString item.ProductID)
      else
        validateOrderItems f table (k + 1) rest ((product.ID, product) :: products)
          (orderTotal + linePrice product.Price item.Quantity)

/-- The product row with identifier `id`, as a primary-key query returns it (the zero
`Product` when there is none). -/
def productIn (table : List Product) (id : Nat) : Product :=
  (findByID table id).getD Product.zero

/-- A line item passes the checks of `CreateOrder`: its product exists and its quantity is
positive. -/
def validItem (table : List Product) (item : OrderItemRequest) : Bool :=
  (findByID table item.ProductID).isSome && decide (0 < item.Quantity)

/-- Price of the item's product times the item's quantity, as `CreateOrder` computes it. -/
def lineTotal (table : List Product) (item : OrderItemRequest) : F64 :=
  linePrice (productIn table item.ProductID).Price item.Quantity

/-- The read `products[id]` of the Go map (zero value for an absent key). -/
def productOf (products : List (Nat × Product)) (id : Nat) : Product :=
  (products.lookup id).getD Product.zero

/-- The columns of an order item apart from its own identifier: order, product, quantity,
price. -/
def OrderItem.columns (r : OrderItem) : Nat × Nat × Int × F64 :=
  (r.OrderID, r.ProductID, r.Quantity, r.Price)

/-- The second loop of `CreateOrder`: one `db.DB.Create(&orderItem)` per line item, from
persistence call `k` on.  Returns the table as left by the loop and the error that stopped
it, if any. -/
def createOrderItems (f : Faults) (orderID : Nat) (products : List (Nat × Product)) :
    Nat → List OrderItemRequest → List OrderItem → List OrderItem × Option String
  | _, [], rows => (rows, none)
  | k, item :: rest, rows =>
    let product := productOf products item.ProductID
    let orderItem : OrderItem :=
      { ID := 0, OrderID := orderID, ProductID := item.ProductID, Quantity := item.Quantity,
        Price := linePrice product.Price item.Quantity }
    match dbCreate f k rows orderItem with
    | .error e => (rows, some e)
    | .ok (rows1, _) => createOrderItems f orderID products (k + 1) rest rows1

/-- An order as emitted after `Preload("User").Preload("Address").Preload("OrderItems")`. -/
def preloadOrder (s : Store) (order : Order) : OrderJSON :=
  { id := order.ID
    user := (findByID s.users order.UserID).getD User.zero
    address := (findByID s.addresses order.AddressID).getD Address.zero
    total := order.Total
    status := order.Status
    order_items := s.orderItems.filter (fun i => i.OrderID == order.ID) }

/-- An order as emitted when its associations were not loaded. -/
def plainOrder (order : Order) : OrderJSON :=
  { id := order.ID, user := User.zero, address := Address.zero, total := order.Total,
    status := order.Status, order_items := [] }

/-- The handler `CreateOrder`. -/
def CreateOrder (f : Faults) (authUser : Option User) (body : JSONBody CreateOrderRequest)
    (s : Store) : Response × Store :=
  match ShouldBindJSON validateCreateOrderRequest body with
  | .error err => (handleValidationErrors err, s)
  | .ok createOrderRequest =>
    match authUser with
    | none => (unauthenticated, s)
    | some user =>
      let items := createOrderRequest.OrderItems.getD []
      let n := items.length
      match validateOrderItems f s.products 0 items [] 0 with
      | .error msg => (⟨StatusBadRequest, .error msg⟩, s)
      | .ok (products, orderTotal) =>
        let order : Order :=
          { ID := 0, UserID := user.ID, AddressID := createOrderRequest.AddressID,
            Total := orderTotal, Status := OrderStatusPending }
        match dbCreate f n s.orders order with
        | .error e => (⟨StatusInternalServerError, .error e⟩, s)
        | .ok (orders1, order) =>
          let s1 := { s with orders := orders1 }
          match createOrderItems f order.ID products (n + 1) items s1.orderItems with
          | (rows, some e) =>
            (⟨StatusInternalServerError, .error e⟩, { s1 with orderItems := rows })
          | (rows, none) =>
            let s2 := { s1 with orderItems := rows }
            match dbSave f (2 * n + 1) s2.orders order with
            | .error e => (⟨StatusInternalServerError, .error e⟩, s2)
            | .ok orders3 =>
              let s3 := { s2 with orders := orders3 }
              match dbFirst f (2 * n + 2) s3.orders order.ID with
              | .error e => (⟨StatusInternalServerError, .error e⟩, s3)
              | .ok order => (⟨StatusCreated, .order (preloadOrder s3 order)⟩, s3)

/-- The path parameter of an identifier: `strconv.Atoi` succeeded with a positive value. -/
def parseID (param : String) : Option Nat :=
  match Atoi param with
  | none => none
  | some n => if n ≤ 0 then none else some n.toNat

/-- The response to a failed `db.DB.First` in the handlers that tell a missing row from
other errors. -/
def firstErrorResponse (what : String) (e : String) : Response :=
  if e == "record not found" then ⟨StatusNotFound, .error (what ++ " not found")⟩
  else ⟨StatusInternalServerError, .error e⟩

/-- The handler `CancelOrder`. -/
def CancelOrder (f : Faults) (authUser : Option User) (id : String) (s : Store) :
    Response × Store :=
  match parseID id with
  | none => (⟨StatusBadRequest, .error "Invalid order ID"⟩, s)
  | some orderID =>
    match authUser with
    | none => (unauthenticated, s)
    | some user =>
      match dbFirst f 0 s.orders orderID with
      | .error e => (firstErrorResponse "Order" e, s)
      | .ok order =>
        if order.UserID != user.ID then
          (⟨StatusForbidden, .error "Unauthorized, you can only cancel your own orders"⟩, s)
        else if order.Status != OrderStatusPending then
          (⟨StatusBadRequest,
            .error "Order cannot be cancelled, it is not in pending state"⟩, s)
        else
          let order := { order with Status := OrderStatusCancelled }
          match dbSave f 1 s.orders order with
          | .error e => (⟨StatusInternalServerError, .error e⟩, s)
          | .ok orders => (⟨StatusOK, .order (plainOrder order)⟩, { s with orders := orders })

/-- The handler `UpdateOrderStatus`. -/
def UpdateOrderStatus (f : Faults) (authUser : Option User) (id : String)
    (body : JSONBody UpdateOrderStatusRequest) (s : Store) : Response × Store :=
  match parseID id with
  | none => (⟨StatusBadRequest, .error "Invalid order ID"⟩, s)
  | some orderID =>
    match authUser with
    | none => (unauthenticated, s)
    | some user =>
      if !user.IsAdmin then
        (⟨StatusForbidden, .error "Unauthorized, only admins can update order status"⟩, s)
      else
        match dbFirst f 0 s.orders orderID with
        | .error e => (firstErrorResponse "Order" e, s)
        | .ok order =>
          match ShouldBindJSON validateUpdateOrderStatusRequest body with
          | .error err => (handleValidationErrors err, s)
          | .ok req =>
            if req.Status != OrderStatusPending && req.Status != OrderStatusCompleted
                && req.Status != OrderStatusCancelled then
              (⟨StatusBadRequest, .error "Invalid order status"⟩, s)
            else
              let order := { order with Status := req.Status }
              match dbSave f 1 s.orders order with
              | .error e => (⟨StatusInternalServerError, .error e⟩, s)
              | .ok orders =>
                (⟨StatusOK, .order (plainOrder order)⟩, { s with orders := orders })

/-- Conversion of a mathematical integer to Go's 64-bit `int` (wrap-around). -/
def wrapInt64 (x : Int) : Int := (x + 2 ^ 63) % 2 ^ 64 - 2 ^ 63

/-- A `page` or `pageSize` query parameter, with its default: `strconv.Atoi` succeeded
with a positive value. -/
def parsePositive (param : Option String) (dflt : String) : Option Int :=
  match Atoi (param.getD dflt) with
  | none => none
  | some n => if n ≤ 0 then none else some n

/-- The clause `Limit(pageSize).Offset(offset)`: an `OFFSET` is issued only when it is
positive, a `LIMIT` only when it is not negative. -/
def limitOffset {α : Type} (pageSize offset : Int) (rows : List α) : List α :=
  let rows := if 0 < offset then rows.drop offset.toNat else rows
  if 0 ≤ pageSize then rows.take pageSize.toNat else rows

/-- The expression `int(math.Ceil(float64(total) / float64(pageSize)))`, the quotient read
as an exact rational. -/
def totalPages (total pageSize : Int) : Int := ⌈(total : ℚ) / (pageSize : ℚ)⌉

/-- The handler `ListOrders`. -/
def ListOrders (f : Faults) (authUser : Option User) (user_id : String)
    (page pageSize : Option String) (s : Store) : Response × Store :=
  match parseID user_id with
  | none => (⟨StatusBadRequest, .error "Invalid user ID"⟩, s)
  | some userID =>
    match parsePositive page "1" with
    | none => (⟨StatusBadRequest, .error "Invalid page number"⟩, s)
    | some page =>
      match parsePositive pageSize "10" with
      | none => (⟨StatusBadRequest, .error "Invalid pageSize number"⟩, s)
      | some pageSize =>
        let offset := wrapInt64 ((page - 1) * pageSize)
        match authUser with
        | none => (unauthenticated, s)
        | some user =>
          if !user.IsAdmin && user.ID != userID then
            (⟨StatusForbidden, .error "Unauthorized, you can only view your own orders"⟩, s)
          else
            match f 0 with
            | some e => (⟨StatusInternalServerError, .error e⟩, s)
            | none =>
              let orders := limitOffset pageSize offset
                (s.orders.filter (fun o => o.UserID == userID))
              let totalOrders : Int :=
                match f 1 with
                | some _ => 0
                | none => ((s.orders.filter (fun o => o.UserID == userID)).length : Int)
              (⟨StatusOK, .orderList
                { Page := page, PageSize := pageSize, TotalCount := totalOrders,
                  TotalPages := totalPages totalOrders pageSize,
                  Orders := orders.map (preloadOrder s) }⟩, s)

/-! ## controllers/product.go -/

/-- The handler `ListProducts`. -/
def ListProducts (f : Faults) (page pageSize : Option String) (s : Store) :
    Response × Store :=
  match parsePositive page "1" with
  | none => (⟨StatusBadRequest, .error "Invalid page number"⟩, s)
  | some page =>
    match parsePositive pageSize "10" with
    | none => (⟨StatusBadRequest, .error "Invalid pageSize number"⟩, s)
    | some pageSize =>
      let offset := wrapInt64 ((page - 1) * pageSize)
      match f 0 with
      | some e => (⟨StatusInternalServerError, .error e⟩, s)
      | none =>
        let products := limitOffset pageSize offset s.products
        let totalProducts : Int :=
          match f 1 with
          | some _ => 0
          | none => (s.products.length : Int)
        (⟨StatusOK, .productList
          { Page := page, PageSize := pageSize, TotalCount := totalProducts,
            TotalPages := totalPages totalProducts pageSize,
            Products := products }⟩, s)

/-- The products of a `ListProducts` response (none when the body is not a product
list). -/
def Response.products (r : Response) : List Product :=
  match r.body with
  | .productList l => l.Products
  | _ => []

/-- The handler `GetProductByID`. -/
def GetProductByID (f : Faults) (id : String) (s : Store) : Response × Store :=
  match parseID id with
  | none => (⟨StatusBadRequest, .error "Invalid product ID"⟩, s)
  | some productID =>
    match dbFirst f 0 s.products productID with
    | .error e => (firstErrorResponse "Product" e, s)
    | .ok product => (⟨StatusOK, .product product⟩, s)

/-- The columns written by `Updates(req)`: those whose value in the request struct is not
the zero value of its type. -/
def productUpdates (p : Product) (name description : String) (price : ℚ) (stock : Int)
    (category : String) : Product :=
  { p with
    Name := if name == "" then p.Name else name
    Description := if description == "" then p.Description else description
    Price := if price = 0 then p.Price else price
    Stock := if stock = 0 then p.Stock else stock
    Category := if category == "" then p.Category else category }

/-- The call `db.DB.Model(product).Updates(req)`: an `UPDATE` of the row with the
primary key of `product`. -/
def dbUpdates (f : Faults) (k : Nat) (rows : List Product) (product : Product)
    (name description : String) (price : ℚ) (stock : Int) (category : String) :
    Except String (List Product) :=
  match f k with
  | some e => .error e
  | none =>
    .ok (rows.map (fun r =>
      if r.ID == product.ID then productUpdates r name description price stock category
      else r))

/-- The handler `CreateProduct`. -/
def CreateProduct (f : Faults) (authUser : Option User) (body : JSONBody CreateProductRequest)
    (s : Store) : Response × Store :=
  match ShouldBindJSON validateCreateProductRequest body with
  | .error err => (handleValidationErrors err, s)
  | .ok req =>
    match authUser with
    | none => (unauthenticated, s)
    | some user =>
      if !user.IsAdmin then
        (⟨StatusForbidden, .error "Unauthorized access, only admins can create products"⟩, s)
      else
        let product : Product :=
          { ID := 0, Name := req.Name, Description := req.Description, Price := req.Price,
            Stock := req.Stock, Category := req.Category }
        match dbCreate f 0 s.products product with
        | .error e =>
          (⟨StatusInternalServerError, .error ("Failed to create product: " ++ e)⟩, s)
        | .ok (products, product) =>
          (⟨StatusCreated, .product product⟩, { s with products := products })

/-- The handler `UpdateProduct`.  `Model(product)` receives the struct by value, so the
`product` written to the response is the row as it was read. -/
def UpdateProduct (f : Faults) (authUser : Option User) (id : String)
    (body : JSONBody CreateProductRequest) (s : Store) : Response × Store :=
  match parseID id with
  | none => (⟨StatusBadRequest, .error "Invalid product ID"⟩, s)
  | some productID =>
    match authUser with
    | none => (unauthenticated, s)
    | some user =>
      if !user.IsAdmin then
        (⟨StatusForbidden, .error "Unauthorized access, only admins can update products"⟩, s)
      else
        match dbFirst f 0 s.products productID with
        | .error e => (firstErrorResponse "Product" e, s)
        | .ok product =>
          match ShouldBindJSON validateCreateProductRequest body with
          | .error err => (handleValidationErrors err, s)
          | .ok req =>
            match dbUpdates f 1 s.products product req.Name req.Description req.Price
                req.Stock req.Category with
            | .error _ =>
              (⟨StatusInternalServerError, .error "Failed to update product"⟩, s)
            | .ok products => (⟨StatusOK, .product product⟩, { s with products := products })

/-- The handler `PatchProduct`.  `Model(&product)` receives a pointer, so the updated
columns are also assigned to `product` before it is written to the response. -/
def PatchProduct (f : Faults) (authUser : Option User) (id : String)
    (body : JSONBody PatchProductRequest) (s : Store) : Response × Store :=
  match parseID id with
  | none => (⟨StatusBadRequest, .error "Invalid product ID"⟩, s)
  | some productID =>
    match authUser with
    | none => (unauthenticated, s)
    | some user =>
      if !user.IsAdmin then
        (⟨StatusForbidden, .error "Unauthorized access, only admins can patch products"⟩, s)
      else
        match dbFirst f 0 s.products productID with
        | .error e => (firstErrorResponse "Product" e, s)
        | .ok product =>
          match ShouldBindJSON validatePatchProductRequest body with
          | .error err => (handleValidationErrors err, s)
          | .ok req =>
            match dbUpdates f 1 s.products product req.Name req.Description req.Price
                req.Stock req.Category with
            | .error e => (⟨StatusInternalServerError, .error e⟩, s)
            | .ok products =>
              (⟨StatusOK, .product
                (productUpdates product req.Name req.Description req.Price req.Stock
                  req.Category)⟩, { s with products := products })

/-- The handler `DeleteProduct`. -/
def DeleteProduct (f : Faults) (authUser : Option User) (id : String) (s : Store) :
    Response × Store :=
  match parseID id with
  | none => (⟨StatusBadRequest, .error "Invalid product ID"⟩, s)
  | some productID =>
    match authUser with
    | none => (unauthenticated, s)
    | some user =>
      if !user.IsAdmin then
        (⟨StatusForbidden, .error "Unauthorized access, only admins can delete products"⟩, s)
      else
        match dbFirst f 0 s.products productID with
        | .error e => (firstErrorResponse "Product" e, s)
        | .ok product =>
          match dbDelete f 1 s.products product with
          | .error e =>
            (⟨StatusInternalServerError, .error ("Failed to delete product: " ++ e)⟩, s)
          | .ok products => (⟨StatusNoContent, .empty⟩, { s with products := products })

/-! ## controllers/address.go -/

/-- The handler `ListAddresses`. -/
def ListAddresses (f : Faults) (authUser : Option User) (s : Store) : Response × Store :=
  match authUser with
  | none => (unauthenticated, s)
  | some user =>
    match f 0 with
    | some _ => (⟨StatusInternalServerError, .error "Failed to retrieve addresses"⟩, s)
    | none => (⟨StatusOK, .addresses (s.addresses.filter (fun a => a.UserID == user.ID))⟩, s)

/-- The handler `CreateAddress`. -/
def CreateAddress (f : Faults) (authUser : Option User) (body : JSONBody CreateAddressRequest)
    (s : Store) : Response × Store :=
  match ShouldBindJSON validateCreateAddressRequest body with
  | .error _ => (⟨StatusBadRequest, .error "Invalid input data"⟩, s)
  | .ok request =>
    match authUser with
    | none => (unauthenticated, s)
    | some user =>
      let address : Address :=
        { ID := 0, FirstName := request.FirstName, LastName := request.LastName,
          City := request.City, Country := request.Country, ZipCode := request.ZipCode,
          StreetAddress := request.StreetAddress, UserID := user.ID }
      match dbCreate f 0 s.addresses address with
      | .error _ => (⟨StatusInternalServerError, .error "Failed to create address"⟩, s)
      | .ok (addresses, address) =>
        (⟨StatusCreated, .address address⟩, { s with addresses := addresses })

/-! ## controllers/user.go -/

/-- What `user.go` takes from outside the repository: the `email` rule of the validator,
`bcrypt` (`none` is an error), and the signing of a token for a user identifier, a role
and a validity in hours (`none` is an error). -/
structure Externals where
  IsEmail : String → Bool
  GenerateFromPassword : String → Option String
  CompareHashAndPassword : String → String → Bool
  SignedString : Nat → String → Nat → Option String

abbrev ADMIN_SECRET_KEY : String := "admin123"

/-- The `dtos.CustomerRegistrationRequest`. -/
structure CustomerRegistrationRequest where
  Email : String
  FirstName : String
  LastName : String
  Password : String
  PasswordConfirm : String
  deriving DecidableEq, Repr

/-- The `dtos.AdminRegistrationRequest`. -/
structure AdminRegistrationRequest where
  Email : String
  FirstName : String
  LastName : String
  Password : String
  PasswordConfirm : String
  SecretKey : String
  deriving DecidableEq, Repr

/-- Tags `required,email` on a string field. -/
def requiredEmail (x : Externals) (st field : String) (v : String) : List FieldError :=
  if v == "" then [fieldError st field "required" ""]
  else if !x.IsEmail v then [fieldError st field "email" ""] else []

/-- Tags `required,min=6` on a string field (`min` counts characters). -/
def requiredMin6 (st field : String) (v : String) : List FieldError :=
  if v == "" then [fieldError st field "required" ""]
  else if v.length < 6 then [fieldError st field "min" "6"] else []

/-- Tags of `dtos.CustomerRegistrationRequest`. -/
def validateCustomerRegistrationRequest (x : Externals) (r : CustomerRegistrationRequest) :
    List FieldError :=
  requiredEmail x "CustomerRegistrationRequest" "Email" r.Email
  ++ requiredString "CustomerRegistrationRequest" "FirstName" r.FirstName
  ++ requiredString "CustomerRegistrationRequest" "LastName" r.LastName
  ++ requiredMin6 "CustomerRegistrationRequest" "Password" r.Password
  ++ requiredMin6 "CustomerRegistrationRequest" "PasswordConfirm" r.PasswordConfirm

/-- Tags of `dtos.AdminRegistrationRequest`. -/
def validateAdminRegistrationRequest (x : Externals) (r : AdminRegistrationRequest) :
    List FieldError :=
  requiredEmail x "AdminRegistrationRequest" "Email" r.Email
  ++ requiredString "AdminRegistrationRequest" "FirstName" r.FirstName
  ++ requiredString "AdminRegistrationRequest" "LastName" r.LastName
  ++ requiredMin6 "AdminRegistrationRequest" "Password" r.Password
  ++ requiredMin6 "AdminRegistrationRequest" "PasswordConfirm" r.PasswordConfirm
  ++ requiredString "AdminRegistrationRequest" "SecretKey" r.SecretKey

/-- The function `models.GenerateJwtTokens`: an access token valid 24 hours and a refresh
token valid 7 days; `none` when a signature fails. -/
def GenerateJwtTokens (x : Externals) (user : User) : Option (String × String) :=
  match x.SignedString user.ID user.Role 24 with
  | none => none
  | some accessTokenString =>
    match x.SignedString user.ID user.Role (24 * 7) with
    | none => none
    | some refreshTokenString => some (accessTokenString, refreshTokenString)

/-- The function `strings.Contains`. -/
def stringsContains (s substr : String) : Bool :=
  s.toList.tails.any (fun t => substr.toList.isPrefixOf t)

/-- The text of the error for a second row with the same `Email` (unique index
`uni_users_email`). -/
def duplicateEmailError : String :=
  "ERROR: duplicate key value violates unique constraint \"uni_users_email\" (SQLSTATE 23505)"

/-- The call `db.DB.Create(&user)` on the users table, with its unique index on `Email`. -/
def dbCreateUser (f : Faults) (k : Nat) (users : List User) (user : User) :
    Except String (List User × User) :=
  match f k with
  | some e => .error e
  | none =>
    if users.any (fun u => u.Email == user.Email) then .error duplicateEmailError
    else dbCreate f k users user

/-- The common tail of `RegisterCustomer` and `RegisterAdmin`, from the hashing of the
password on. -/
def registerUser (x : Externals) (f : Faults) (email firstName lastName password : String)
    (role msg : String) (s : Store) : Response × Store :=
  match x.GenerateFromPassword password with
  | none => (⟨StatusInternalServerError, .error "Failed to hash password"⟩, s)
  | some hashedPassword =>
    let user : User :=
      { ID := 0, Email := email, FirstName := firstName, LastName := lastName,
        Password := hashedPassword, Role := role, LastLogin := 0 }
    match dbCreateUser f 0 s.users user with
    | .error e =>
      if stringsContains e
          "duplicate key value violates unique constraint \"uni_users_email\"" then
        (⟨StatusBadRequest, .error "User with this email already exists."⟩, s)
      else (⟨StatusInternalServerError, .error e⟩, s)
    | .ok (users, user) =>
      let tokens := (GenerateJwtTokens x user).getD ("", "")
      (⟨StatusOK, .registration
        { Msg := msg, User := user, AccessToken := tokens.1, RefreshToken := tokens.2 }⟩,
        { s with users := users })

/-- The handler `RegisterCustomer`. -/
def RegisterCustomer (x : Externals) (f : Faults)
    (body : JSONBody CustomerRegistrationRequest) (s : Store) : Response × Store :=
  match ShouldBindJSON (validateCustomerRegistrationRequest x) body with
  | .error err => (handleValidationErrors err, s)
  | .ok req =>
    if req.Password != req.PasswordConfirm then
      (⟨StatusBadRequest, .error "Passwords do not match"⟩, s)
    else
      registerUser x f req.Email req.FirstName req.LastName req.Password RoleCustomer
        "Account registered successfully" s

/-- The handler `RegisterAdmin`. -/
def RegisterAdmin (x : Externals) (f : Faults)
    (body : JSONBody AdminRegistrationRequest) (s : Store) : Response × Store :=
  match ShouldBindJSON (validateAdminRegistrationRequest x) body with
  | .error err => (handleValidationErrors err, s)
  | .ok req =>
    if req.Password != req.PasswordConfirm then
      (⟨StatusBadRequest, .error "Passwords do not match"⟩, s)
    else if req.SecretKey != ADMIN_SECRET_KEY then
      (⟨StatusForbidden, .error "Invalid secret key for admin registration"⟩, s)
    else
      registerUser x f req.Email req.FirstName req.LastName req.Password RoleAdmin
        "Registration successful" s

/-- The `dtos.LoginRequest`. -/
structure LoginRequest where
  Email : String
  Password : String
  deriving DecidableEq, Repr

/-- Tags of `dtos.LoginRequest`. -/
def validateLoginRequest (x : Externals) (r : LoginRequest) : List FieldError :=
  requiredEmail x "LoginRequest" "Email" r.Email
  ++ requiredString "LoginRequest" "Password" r.Password

/-- The call `db.DB.Where("email = ?", email).First(&user)`. -/
def dbFirstByEmail (f : Faults) (k : Nat) (users : List User) (email : String) :
    Except String User :=
  match f k with
  | some e => .error e
  | none =>
    match users.find? (fun u => u.Email == email) with
    | some u => .ok u
    | none => .error "record not found"

/-- The method `(*User).IsValidPassword`: `true` when `bcrypt` returns no error. -/
def User.IsValidPassword (x : Externals) (user : User) (password : String) : Bool :=
  x.CompareHashAndPassword user.Password password

/-- The handler `LoginUser`; `now` is the reading of `time.Now()`.  The response value is
built before `LastLogin` is set, and an error of `Save` is only logged. -/
def LoginUser (x : Externals) (f : Faults) (now : Nat) (body : JSONBody LoginRequest)
    (s : Store) : Response × Store :=
  match ShouldBindJSON (validateLoginRequest x) body with
  | .error err => (handleValidationErrors err, s)
  | .ok req =>
    match dbFirstByEmail f 0 s.users req.Email with
    | .error _ => (⟨StatusUnauthorized, .error "Invalid credentials"⟩, s)
    | .ok user =>
      if !user.IsValidPassword x req.Password then
        (⟨StatusUnauthorized, .error "Invalid credentials"⟩, s)
      else
        let tokens := (GenerateJwtTokens x user).getD ("", "")
        let response : LoginSuccessResponse :=
          { Msg := "Login successful", User := user, AccessToken := tokens.1,
            RefreshToken := tokens.2 }
        let user := { user with LastLogin := now }
        match dbSave f 1 s.users user with
        | .error _ => (⟨StatusOK, .login response⟩, s)
        | .ok users => (⟨StatusOK, .login response⟩, { s with users := users })

/-! ## middleware/auth.go -/

/-- What a middleware reads and writes of a `gin.Context`: the `Authorization` header,
the value under the key `"user"`, the number of calls of `c.Next()` made so far, whether
the chain was aborted, and the response written so far. -/
structure Context where
  Authorization : String
  user : Option User
  nextCalls : Nat
  aborted : Bool
  written : Option Response
  deriving DecidableEq, Repr

/-- The context of a request that arrives with the given `Authorization` header. -/
def newContext (authHeader : String) : Context := ⟨authHeader, none, 0, false, none⟩

/-- The call `c.Set("user", user)`. -/
def Context.Set (c : Context) (user : User) : Context := { c with user := some user }

/-- The call `c.Next()`, recorded; the handlers it runs are not part of the middleware. -/
def Context.Next (c : Context) : Context := { c with nextCalls := c.nextCalls + 1 }

/-- The function `strings.TrimPrefix`. -/
def stringsTrimPrefix (s pre : String) : String :=
  if pre.toList.isPrefixOf s.toList then String.mk (s.toList.drop pre.length) else s

/-- The library call `jwt.Parse` with the key function of `GetUserIDFromJWT`, together
with the reading of the claim: `none` when parsing fails or the token is not valid,
`some none` when the claims hold no number under `userID`, `some (some n)` when they do
and `n` is `uint(userID)`. -/
abbrev JwtParse := String → Option (Option Nat)

/-- The function `GetUserIDFromJWT`. -/
def GetUserIDFromJWT (jwtParse : JwtParse) (c : Context) : Except String Nat :=
  let authHeader := c.Authorization
  if authHeader == "" then .error "authorization header is missing"
  else
    let tokenString := stringsTrimPrefix authHeader "Bearer "
    match jwtParse tokenString with
    | none => .error "invalid token"
    | some (some userID) => .ok userID
    | some none => .error "userID not found in token"

/-- The function `GetAuthenticatedUser`; its `db.DB.First` is persistence call 0. -/
def GetAuthenticatedUser (jwtParse : JwtParse) (f : Faults) (s : Store) (c : Context) :
    Except String User :=
  match GetUserIDFromJWT jwtParse c with
  | .error err => .error err
  | .ok userID =>
    match dbFirst f 0 s.users userID with
    | .error _ => .error "user not found"
    | .ok user => .ok user

/-- The handler returned by `LoadAuthUserMiddleware`. -/
def LoadAuthUserMiddleware (jwtParse : JwtParse) (f : Faults) (s : Store) (c : Context) :
    Context :=
  match GetAuthenticatedUser jwtParse f s c with
  | .error _ => c.Next
  | .ok user => (c.Set user).Next

/-! ## the request DTOs of `dtos/` -/

/-- Every field of every request DTO: the struct, the Go field name, and the name in its
`json` tag. -/
def requestDTOFields : List (String × String × String) :=
  [ ("LoginRequest", "Email", "email"),
    ("LoginRequest", "Password", "password"),
    ("CustomerRegistrationRequest", "Email", "email"),
    ("CustomerRegistrationRequest", "FirstName", "first_name"),
    ("CustomerRegistrationRequest", "LastName", "last_name"),
    ("CustomerRegistrationRequest", "Password", "password"),
    ("CustomerRegistrationRequest", "PasswordConfirm", "password_confirm"),
    ("AdminRegistrationRequest", "Email", "email"),
    ("AdminRegistrationRequest", "FirstName", "first_name"),
    ("AdminRegistrationRequest", "LastName", "last_name"),
    ("AdminRegistrationRequest", "Password", "password"),
    ("AdminRegistrationRequest", "PasswordConfirm", "password_confirm"),
    ("AdminRegistrationRequest", "SecretKey", "secret_key"),
    ("CreateAddressRequest", "FirstName", "first_name"),
    ("CreateAddressRequest", "LastName", "last_name"),
    ("CreateAddressRequest", "City", "city"),
    ("CreateAddressRequest", "Country", "country"),
    ("CreateAddressRequest", "ZipCode", "zip_code"),
    ("CreateAddressRequest", "StreetAddress", "street_address"),
    ("CreateProductRequest", "Name", "name"),
    ("CreateProductRequest", "Description", "description"),
    ("CreateProductRequest", "Price", "price"),
    ("CreateProductRequest", "Stock", "stock"),
    ("CreateProductRequest", "Category", "category"),
    ("PatchProductRequest", "Name", "name"),
    ("PatchProductRequest", "Description", "description"),
    ("PatchProductRequest", "Price", "price"),
    ("PatchProductRequest", "Stock", "stock"),
    ("PatchProductRequest", "Category", "category"),
    ("OrderItemRequest", "ProductID", "product_id"),
    ("OrderItemRequest", "Quantity", "quantity"),
    ("CreateOrderRequest", "AddressID", "address_id"),
    ("CreateOrderRequest", "OrderItems", "order_items"),
    ("UpdateOrderStatusRequest", "Status", "status") ]

/-! ## sample data -/

/-- A customer. -/
def sampleCustomer : User := ⟨1, "test@example.com", "John", "Doe", "hash", RoleCustomer, 0⟩

/-- An administrator. -/
def sampleAdmin : User := ⟨2, "admin@example.com", "Admin", "User", "hash", RoleAdmin, 0⟩

/-- The fixture of `TestCreateOrder`: one customer (and an administrator), one address,
one product priced 10. -/
def sampleStore : Store :=
  { users := [sampleCustomer, sampleAdmin]
    addresses := [⟨1, "John", "Doe", "CityA", "CountryA", "12345", "Street 1", 1⟩]
    products := [⟨1, "Product A", "Category A", "Description of Product A", 10, 100⟩]
    orders := []
    orderItems := [] }

/-- The fixture after one order of the customer was completed. -/
def sampleStoreCompleted : Store :=
  { sampleStore with
    orders := [⟨1, 1, 1, 20, OrderStatusCompleted⟩]
    orderItems := [⟨1, 1, 1, 20, 2⟩] }

/-- The fixture with one pending order of the customer. -/
def sampleStorePending : Store :=
  { sampleStore with
    orders := [⟨1, 1, 1, 20, OrderStatusPending⟩]
    orderItems := [⟨1, 1, 1, 20, 2⟩] }

/-- The `float64` nearest to 0.1. -/
def float64Tenth : ℚ := 3602879701896397 / 36028797018963968

/-- The fixture with the product priced 0.1. -/
def sampleStoreTenth : Store :=
  { sampleStore with
    products := [⟨1, "Product A", "Category A", "Description of Product A", float64Tenth, 100⟩] }

/-- The request of `TestCreateOrder`: two units of product 1, to address 1. -/
def sampleOrderRequest : CreateOrderRequest := ⟨1, some [⟨1, 2⟩]⟩

/-- A fault oracle under which exactly the persistence call number `k` fails. -/
def failAt (k : Nat) (e : String) : Faults := fun i => if i = k then some e else none

/-- Twelve products, identifiers 1 to 12. -/
def sampleProducts12 : List Product :=
  (List.range 12).map (fun i => ⟨i + 1, "Product", "Category", "Description", 10, 100⟩)

/-- The fixture with twelve products. -/
def sampleStore12 : Store := { sampleStore with products := sampleProducts12 }

/-- Stand-ins for the external providers: every address with an `@` counts as an email,
hashing and signing tag their input. -/
def sampleExternals : Externals :=
  { IsEmail := fun v => v.toList.contains '@'
    GenerateFromPassword := fun p => some ("bcrypt:" ++ p)
    CompareHashAndPassword := fun h p => h == "bcrypt:" ++ p
    SignedString := fun id role hours =>
      some ("jwt:" ++ toString id ++ ":" ++ role ++ ":" ++ toString hours) }

/-- The request of `TestRegisterCustomer`. -/
def sampleCustomerRegistration : CustomerRegistrationRequest :=
  ⟨"customer@example.com", "John", "Doe", "password", "password"⟩

/-- The request of `TestRegisterAdmin`. -/
def sampleAdminRegistration : AdminRegistrationRequest :=
  ⟨"admin2@example.com", "Admin", "User", "password", "password", ADMIN_SECRET_KEY⟩

/-- A user as `RegisterCustomer` stores it under `sampleExternals`. -/
def sampleRegistered : User :=
  ⟨3, "customer@example.com", "John", "Doe", "bcrypt:password", RoleCustomer, 0⟩

/-- The fixture with the registered customer. -/
def sampleStoreRegistered : Store :=
  { sampleStore with users := [sampleCustomer, sampleAdmin, sampleRegistered] }

/-- A token parser that accepts exactly the access token of `sampleCustomer`. -/
def sampleJwtParse : JwtParse :=
  fun tokenString => if tokenString == "jwt:1:customer:24" then some (some 1) else none

/-- The request of `TestRegisterAdmin/Fails with incorrect secret key`. -/
def sampleAdminRegistrationWrongKey : AdminRegistrationRequest :=
  ⟨"admin@example.com", "Admin", "User", "password", "password", "wrongsecret#$%"⟩

/-! # Theorems -/

/-! ## facts about the persistence gateway -/

theorem getID_le_foldr_max {α : Type} [HasID α] (rows : List α) (r : α) (h : r ∈ rows) :
    HasID.getID r ≤ (rows.map HasID.getID).foldr max 0 := by
  induction rows with
  | nil => cases h
  | cons a tl ih =>
    simp only [List.map_cons, List.foldr_cons]
    rcases List.mem_cons.mp h with h1 | h1
    · subst h1; exact le_max_left _ _
    · exact le_trans (ih h1) (le_max_right _ _)

theorem getID_lt_nextID {α : Type} [HasID α] (rows : List α) (r : α) (h : r ∈ rows) :
    HasID.getID r < nextID rows :=
  Nat.lt_succ_of_le (getID_le_foldr_max rows r h)

theorem dbFirst_ok {α : Type} [HasID α] {f : Faults} {k : Nat} {rows : List α} {id : Nat}
    {r : α} (h : dbFirst f k rows id = .ok r) :
    f k = none ∧ findByID rows id = some r := by
  unfold dbFirst at h
  cases hk : f k with
  | some e => rw [hk] at h; cases h
  | none =>
    rw [hk] at h
    cases hr : findByID rows id with
    | none => rw [hr] at h; cases h
    | some r1 => rw [hr] at h; cases h; exact ⟨rfl, rfl⟩

theorem dbCreate_ok {α : Type} [HasID α] {f : Faults} {k : Nat} {rows rows1 : List α}
    {row r : α} (h : dbCreate f k rows row = .ok (rows1, r)) :
    f k = none ∧ r = HasID.setID row (nextID rows) ∧ rows1 = rows ++ [r] := by
  unfold dbCreate at h
  split at h
  · cases h
  · next hk => cases h; exact ⟨hk, rfl, rfl⟩

theorem dbCreate_error {α : Type} [HasID α] {f : Faults} {k : Nat} {rows : List α}
    {row : α} {e : String} (h : dbCreate f k rows row = .error e) : f k = some e := by
  unfold dbCreate at h
  split at h
  · next e1 hk => cases h; exact hk
  · cases h

theorem dbSave_ok {α : Type} [HasID α] {f : Faults} {k : Nat} {rows rows1 : List α}
    {row : α} (h : dbSave f k rows row = .ok rows1) :
    f k = none ∧
    rows1 = if rows.any (fun r => HasID.getID r == HasID.getID row) then
        rows.map (fun r => if HasID.getID r == HasID.getID row then row else r)
      else rows ++ [row] := by
  unfold dbSave at h
  split at h
  · cases h
  · next hk =>
    refine ⟨hk, ?_⟩
    split at h <;> rename_i hc <;> cases h <;> simp [hc]

theorem findByID_append_fresh {α : Type} [HasID α] (rows : List α) (r : α)
    (hfresh : ∀ x ∈ rows, HasID.getID x ≠ HasID.getID r) :
    findByID (rows ++ [r]) (HasID.getID r) = some r := by
  unfold findByID
  rw [List.find?_append]
  have : rows.find? (fun x => HasID.getID x == HasID.getID r) = none := by
    rw [List.find?_eq_none]
    intro x hx
    simpa using hfresh x hx
  rw [this]
  simp

theorem save_append_fresh {α : Type} [HasID α] (rows : List α) (r : α)
    (hfresh : ∀ x ∈ rows, HasID.getID x ≠ HasID.getID r) :
    (rows ++ [r]).map (fun x => if HasID.getID x == HasID.getID r then r else x)
      = rows ++ [r] := by
  rw [List.map_append]
  congr 1
  · conv_rhs => rw [← List.map_id rows]
    apply List.map_congr_left
    intro x hx
    have := hfresh x hx
    simp [this]
  · simp

theorem findByID_getID {α : Type} [HasID α] {rows : List α} {id : Nat} {r : α}
    (h : findByID rows id = some r) : HasID.getID r = id := by
  unfold findByID at h
  have := List.find?_some h
  simpa using this

theorem findByID_mem {α : Type} [HasID α] {rows : List α} {id : Nat} {r : α}
    (h : findByID rows id = some r) : r ∈ rows := by
  unfold findByID at h
  exact List.mem_of_find?_eq_some h

/-- What the first loop of `CreateOrder` has established when it runs to its end. -/
theorem validateOrderItems_ok (f : Faults) (table : List Product) :
    ∀ (items : List OrderItemRequest) (k : Nat) (products products1 : List (Nat × Product))
      (total total1 : F64),
      validateOrderItems f table k items products total = .ok (products1, total1) →
      (∀ id p, products.lookup id = some p → findByID table id = some p) →
      (∀ it ∈ items, validItem table it = true) ∧
      total1 = (items.map (lineTotal table)).foldl (· + ·) total ∧
      (∀ id p, products1.lookup id = some p → findByID table id = some p) ∧
      (∀ id p, products.lookup id = some p → products1.lookup id = some p) ∧
      (∀ it ∈ items, productOf products1 it.ProductID = productIn table it.ProductID) := by
  intro items
  induction items with
  | nil =>
    intro k products products1 total total1 h hinv
    simp only [validateOrderItems] at h
    cases h
    refine ⟨by simp, by simp, hinv, fun _ _ h => h, by simp⟩
  | cons item rest ih =>
    intro k products products1 total total1 h hinv
    simp only [validateOrderItems] at h
    cases hf : dbFirst f k table item.ProductID with
    | error e => rw [hf] at h; cases h
    | ok product =>
      rw [hf] at h
      simp only at h
      have hfind := (dbFirst_ok hf).2
      have hid : product.ID = item.ProductID := findByID_getID hfind
      by_cases hq : item.Quantity ≤ 0
      · rw [if_pos hq] at h; cases h
      · rw [if_neg hq] at h
        have hinv1 : ∀ id p, ((product.ID, product) :: products).lookup id = some p →
            findByID table id = some p := by
          intro id p hl
          rw [List.lookup_cons] at hl
          by_cases hc : id = product.ID
          · subst hc
            simp at hl
            subst hl
            rw [hid]; exact hfind
          · have : (id == product.ID) = false := by simpa using hc
            rw [this] at hl
            exact hinv id p hl
        obtain ⟨h1, h2, h3, h4, h5⟩ := ih (k + 1) _ products1 _ total1 h hinv1
        have hhead : products1.lookup item.ProductID = some product := by
          apply h4
          rw [List.lookup_cons, hid]
          simp
        refine ⟨?_, ?_, h3, ?_, ?_⟩
        · intro it hit
          rcases List.mem_cons.mp hit with e | e
          · subst e
            simp [validItem, hfind]
            omega
          · exact h1 it e
        · rw [h2]
          simp [lineTotal, productIn, hfind, add_assoc]
        · intro id p hl
          apply h4
          rw [List.lookup_cons]
          by_cases hc : id = product.ID
          · subst hc
            have e1 := hinv _ p hl
            rw [hid] at e1
            rw [hfind] at e1
            cases e1
            simp
          · have : (id == product.ID) = false := by simpa using hc
            rw [this]
            exact hl
        · intro it hit
          rcases List.mem_cons.mp hit with e | e
          · subst e
            simp [productOf, productIn, hhead, hfind]
          · exact h5 it e

/-- The second loop of `CreateOrder` appends rows for a prefix of the line items: all of
them unless an insert fails, and then those before the failing one. -/
theorem createOrderItems_spec (f : Faults) (orderID : Nat) (products : List (Nat × Product)) :
    ∀ (items : List OrderItemRequest) (k : Nat) (rows : List OrderItem),
      ∃ (created : List OrderItem) (j : Nat),
        j ≤ items.length ∧
        (createOrderItems f orderID products k items rows).1 = rows ++ created ∧
        created.map OrderItem.columns =
          (items.take j).map (fun it => (orderID, it.ProductID, it.Quantity,
            linePrice (productOf products it.ProductID).Price it.Quantity)) ∧
        (∀ i, i < j → f (k + i) = none) ∧
        (((createOrderItems f orderID products k items rows).2 = none ∧ j = items.length) ∨
         (j < items.length ∧ (createOrderItems f orderID products k items rows).2 = f (k + j) ∧
          f (k + j) ≠ none)) := by
  intro items
  induction items with
  | nil =>
    intro k rows
    exact ⟨[], 0, by simp, by simp [createOrderItems], by simp, by simp,
      Or.inl ⟨by simp [createOrderItems], rfl⟩⟩
  | cons item rest ih =>
    intro k rows
    simp only [createOrderItems]
    cases hc : dbCreate f k rows
        { ID := 0, OrderID := orderID, ProductID := item.ProductID, Quantity := item.Quantity,
          Price := linePrice (productOf products item.ProductID).Price item.Quantity } with
    | error e =>
      have hk := dbCreate_error hc
      refine ⟨[], 0, by simp, by simp, by simp, by simp, Or.inr ⟨by simp, ?_, ?_⟩⟩
      · simp [hk]
      · simp [hk]
    | ok res =>
      obtain ⟨rows1, r⟩ := res
      obtain ⟨hk, hr, hrows⟩ := dbCreate_ok hc
      subst hrows
      obtain ⟨created, j, hj, h1, h2, h3, h4⟩ := ih (k + 1) (rows ++ [r])
      refine ⟨r :: created, j + 1, by simpa using hj, ?_, ?_, ?_, ?_⟩
      · simp only [h1, List.append_assoc, List.singleton_append]
      · simp only [List.map_cons, List.take_succ_cons, h2]
        congr 1
        rw [hr]
        rfl
      · intro i hi
        cases i with
        | zero => simpa using hk
        | succ i =>
          have := h3 i (by omega)
          rw [← this]; congr 1; omega
      · have e : k + (j + 1) = k + 1 + j := by omega
        rcases h4 with ⟨ha, hb⟩ | ⟨ha, hb, hc1⟩
        · exact Or.inl ⟨ha, by simp [hb]⟩
        · refine Or.inr ⟨by simpa using ha, ?_, ?_⟩
          · rw [e]; exact hb
          · rw [e]; exact hc1

theorem handleValidationErrors_status (err : BindError) :
    (handleValidationErrors err).status = StatusBadRequest ∨
    (handleValidationErrors err).status = StatusInternalServerError := by
  cases err <;> simp [handleValidationErrors]

theorem ShouldBindJSON_ok {α : Type} {validate : α → List FieldError} {body : JSONBody α}
    {v : α} (h : ShouldBindJSON validate body = .ok v) :
    body = .parsed v ∧ validate v = [] := by
  unfold ShouldBindJSON at h
  cases body with
  | malformed => cases h
  | parsed w =>
    simp only at h
    cases hv : validate w with
    | nil => rw [hv] at h; cases h; exact ⟨rfl, hv⟩
    | cons e es => rw [hv] at h; cases h

theorem validateCreateOrderRequest_nil {r : CreateOrderRequest}
    (h : validateCreateOrderRequest r = []) :
    r.AddressID ≠ 0 ∧ ∃ items, r.OrderItems = some items ∧ items ≠ [] := by
  unfold validateCreateOrderRequest at h
  rw [List.append_eq_nil] at h
  obtain ⟨h1, h2⟩ := h
  constructor
  · intro h0
    simp [h0] at h1
  · cases hi : r.OrderItems with
    | none => rw [hi] at h2; simp at h2
    | some items =>
      refine ⟨items, rfl, ?_⟩
      rw [hi] at h2
      intro hnil
      subst hnil
      simp at h2

/-- A `CreateOrder` request answered with 201: who called, what was asked, and what was
written. -/
theorem CreateOrder_created (f : Faults) (authUser : Option User)
    (body : JSONBody CreateOrderRequest) (s : Store)
    (h : (CreateOrder f authUser body s).1.status = StatusCreated) :
    ∃ (user : User) (req : CreateOrderRequest) (items : List OrderItemRequest)
      (created : List OrderItem),
      authUser = some user ∧ body = .parsed req ∧ req.AddressID ≠ 0 ∧
      req.OrderItems = some items ∧ items ≠ [] ∧
      (∀ it ∈ items, validItem s.products it = true) ∧
      (CreateOrder f authUser body s).2 =
        { s with
          orders := s.orders ++ [⟨nextID s.orders, user.ID, req.AddressID,
            (items.map (lineTotal s.products)).foldl (· + ·) 0, OrderStatusPending⟩]
          orderItems := s.orderItems ++ created } ∧
      created.map OrderItem.columns =
        items.map (fun it => (nextID s.orders, it.ProductID, it.Quantity,
          lineTotal s.products it)) ∧
      (CreateOrder f authUser body s).1.body =
        .order (preloadOrder (CreateOrder f authUser body s).2
          ⟨nextID s.orders, user.ID, req.AddressID,
            (items.map (lineTotal s.products)).foldl (· + ·) 0, OrderStatusPending⟩) := by
  unfold CreateOrder at h ⊢
  cases hb : ShouldBindJSON validateCreateOrderRequest body with
  | error err =>
    rw [hb] at h
    rcases handleValidationErrors_status err with e | e <;> simp [e] at h
  | ok req =>
    obtain ⟨hbody, hval⟩ := ShouldBindJSON_ok hb
    obtain ⟨haddr, items, hitems, hne⟩ := validateCreateOrderRequest_nil hval
    simp only [hb] at h ⊢
    cases authUser with
    | none => simp at h
    | some user =>
      simp only [hitems, Option.getD_some] at h ⊢
      cases hv : validateOrderItems f s.products 0 items [] 0 with
      | error msg => simp [hv] at h
      | ok res =>
        obtain ⟨products, orderTotal⟩ := res
        obtain ⟨v1, v2, v3, v4, v5⟩ := validateOrderItems_ok f s.products items 0 [] products 0
          orderTotal hv (by simp)
        simp only [hv] at h ⊢
        cases hc : dbCreate f items.length s.orders
            { ID := 0, UserID := user.ID, AddressID := req.AddressID, Total := orderTotal,
              Status := OrderStatusPending } with
        | error e => simp [hc] at h
        | ok res =>
          obtain ⟨orders1, order⟩ := res
          obtain ⟨-, horder, horders1⟩ := dbCreate_ok hc
          simp only [hc] at h ⊢
          obtain ⟨created, j, hj, c1, c2, c3, c4⟩ :=
            createOrderItems_spec f order.ID products items (items.length + 1) s.orderItems
          cases hi : createOrderItems f order.ID products (items.length + 1) items s.orderItems with
          | mk rows oerr =>
            rw [hi] at c1 c4
            simp only at c1 c4
            cases oerr with
            | some e => simp [hi] at h
            | none =>
              have hjn : j = items.length := by
                rcases c4 with ⟨-, e⟩ | ⟨-, e1, e2⟩
                · exact e
                · exact absurd e1.symm e2
              subst hjn
              simp only [hi] at h ⊢
              have hfresh : ∀ x ∈ s.orders, HasID.getID x ≠ HasID.getID order := by
                intro x hx
                have := getID_lt_nextID s.orders x hx
                rw [horder]
                show HasID.getID x ≠ nextID s.orders
                omega
              cases hs : dbSave f (2 * items.length + 1) orders1 order with
              | error e => simp [hs] at h
              | ok orders3 =>
                obtain ⟨-, hsave⟩ := dbSave_ok hs
                have hany : orders1.any (fun r => HasID.getID r == HasID.getID order) = true := by
                  rw [horders1]; simp
                rw [hany, if_pos rfl, horders1, save_append_fresh s.orders order hfresh] at hsave
                simp only [hs] at h ⊢
                cases hl : dbFirst f (2 * items.length + 2) orders3 order.ID with
                | error e => simp [hl] at h
                | ok order1 =>
                  obtain ⟨-, hfind⟩ := dbFirst_ok hl
                  rw [hsave] at hfind
                  have := findByID_append_fresh s.orders order hfresh
                  have hid : HasID.getID order = order.ID := rfl
                  rw [hid, hfind] at this
                  cases this
                  simp only [hl]
                  have hord : order = ⟨nextID s.orders, user.ID, req.AddressID,
                      (items.map (lineTotal s.products)).foldl (· + ·) 0, OrderStatusPending⟩ := by
                    rw [horder, v2]; simp [HasID.setID]
                  refine ⟨user, req, items, created, rfl, hbody, haddr, hitems, hne, v1, ?_, ?_, ?_⟩
                  · rw [hsave, c1, hord]
                  · rw [c2, List.take_length]
                    apply List.map_congr_left
                    intro it hit
                    rw [lineTotal, v5 it hit, hord]
                  · rw [hord]

theorem validateOrderItems_succeeds (table : List Product) :
    ∀ (items : List OrderItemRequest) (k : Nat) (products : List (Nat × Product)) (total : F64),
      (∀ it ∈ items, validItem table it = true) →
      ∃ res, validateOrderItems noFaults table k items products total = .ok res := by
  intro items
  induction items with
  | nil => intro k products total _; exact ⟨_, rfl⟩
  | cons item rest ih =>
    intro k products total hv
    have h1 := hv item (List.mem_cons_self _ _)
    simp only [validItem, Bool.and_eq_true, decide_eq_true_eq] at h1
    obtain ⟨hsome, hq⟩ := h1
    obtain ⟨p, hp⟩ := Option.isSome_iff_exists.mp hsome
    simp only [validateOrderItems, dbFirst, noFaults, hp]
    rw [if_neg (by omega)]
    exact ih _ _ _ (fun it hit => hv it (List.mem_cons_of_mem _ hit))

theorem createOrderItems_noFaults (orderID : Nat) (products : List (Nat × Product))
    (items : List OrderItemRequest) (k : Nat) (rows : List OrderItem) :
    (createOrderItems noFaults orderID products k items rows).2 = none := by
  obtain ⟨created, j, -, -, -, -, h⟩ :=
    createOrderItems_spec noFaults orderID products items k rows
  rcases h with ⟨h, -⟩ | ⟨-, -, h⟩
  · exact h
  · exact absurd rfl h

theorem createOrderItems_noFaults_eq (orderID : Nat) (products : List (Nat × Product))
    (items : List OrderItemRequest) (k : Nat) (rows : List OrderItem) :
    createOrderItems noFaults orderID products k items rows =
      ((createOrderItems noFaults orderID products k items rows).1, none) := by
  rw [← createOrderItems_noFaults orderID products items k rows]

theorem dbCreate_noFaults {α : Type} [HasID α] (k : Nat) (rows : List α) (row : α) :
    dbCreate noFaults k rows row =
      .ok (rows ++ [HasID.setID row (nextID rows)], HasID.setID row (nextID rows)) := rfl

theorem order_fresh (rows : List Order) (row : Order) :
    ∀ x ∈ rows, HasID.getID x ≠ HasID.getID (HasID.setID row (nextID rows)) := by
  intro x hx
  have := getID_lt_nextID rows x hx
  show HasID.getID x ≠ nextID rows
  omega

theorem dbSave_created (k : Nat) (rows : List Order) (row : Order) :
    dbSave noFaults k (rows ++ [HasID.setID row (nextID rows)]) (HasID.setID row (nextID rows))
      = .ok (rows ++ [HasID.setID row (nextID rows)]) := by
  have hany : (rows ++ [HasID.setID row (nextID rows)]).any
      (fun r => HasID.getID r == HasID.getID (HasID.setID row (nextID rows))) = true := by
    simp
  unfold dbSave
  simp only [noFaults]
  rw [hany, if_pos rfl, save_append_fresh rows _ (order_fresh rows row)]

theorem dbFirst_created (k : Nat) (rows : List Order) (row : Order) :
    dbFirst noFaults k (rows ++ [HasID.setID row (nextID rows)])
      (HasID.setID row (nextID rows)).ID = .ok (HasID.setID row (nextID rows)) := by
  have := findByID_append_fresh rows _ (order_fresh rows row)
  have hid : HasID.getID (HasID.setID row (nextID rows)) = (HasID.setID row (nextID rows)).ID :=
    rfl
  rw [hid] at this
  unfold dbFirst
  simp only [noFaults, this]

/-- A bound request of an authenticated caller whose line items are all valid is answered
with 201 when no persistence call fails. -/
theorem CreateOrder_succeeds (user : User) (req : CreateOrderRequest)
    (items : List OrderItemRequest) (s : Store)
    (haddr : req.AddressID ≠ 0) (hitems : req.OrderItems = some items) (hne : items ≠ [])
    (hvalid : ∀ it ∈ items, validItem s.products it = true) :
    (CreateOrder noFaults (some user) (.parsed req) s).1.status = StatusCreated := by
  have hval : validateCreateOrderRequest req = [] := by
    unfold validateCreateOrderRequest
    rw [hitems]
    have : ¬ items.length < 1 := by
      cases items with
      | nil => exact absurd rfl hne
      | cons a l => simp
    simp [haddr, this]
  obtain ⟨⟨products, orderTotal⟩, hv⟩ :=
    validateOrderItems_succeeds s.products items 0 [] 0 hvalid
  unfold CreateOrder
  simp only [ShouldBindJSON, hval, hitems, Option.getD_some, hv, dbCreate_noFaults]
  rw [createOrderItems_noFaults_eq]
  simp only [dbSave_created, dbFirst_created]

/-! ## float64: rounding -/

/-- The rounding on known values: 0.1, three times the `float64` 0.1 (a tie, to even),
`2 ^ 53 + 1` (a tie, to even), the largest finite number and the overflow threshold, and
the subnormal range. -/
theorem round64_examples :
    round64 (1 / 10) = .finite (3602879701896397 / 36028797018963968) ∧
    round64 (3 * (3602879701896397 / 36028797018963968)) =
      .finite (5404319552844596 / 18014398509481984) ∧
    round64 (3 / 10) = .finite (5404319552844595 / 18014398509481984) ∧
    round64 (2 ^ 53 + 1) = .finite (2 ^ 53) ∧
    round64 (2 ^ 53 + 3) = .finite (2 ^ 53 + 4) ∧
    round64 (2 ^ 1024 - 2 ^ 971) = .finite (2 ^ 1024 - 2 ^ 971) ∧
    round64 (2 ^ 1024 - 2 ^ 970 - 1) = .finite (2 ^ 1024 - 2 ^ 971) ∧
    round64 (2 ^ 1024 - 2 ^ 970) = .posInf ∧
    round64 (-(2 ^ 1024)) = .negInf ∧
    round64 (3 / 2 ^ 1075) = .finite (1 / 2 ^ 1073) ∧
    round64 (1 / 2 ^ 1075) = .finite 0 ∧
    round64 20 = 20 := by
  decide!

/-! ## float64: numbers that are not rounded -/

theorem divRoundHalfEven_one (a : Nat) : divRoundHalfEven a 1 = a := by
  unfold divRoundHalfEven
  simp [Nat.mod_one]

theorem log2Fuel_spec : ∀ (fuel n : Nat), n ≤ fuel → 0 < n →
    2 ^ log2Fuel fuel n ≤ n ∧ n < 2 ^ (log2Fuel fuel n + 1) := by
  intro fuel
  induction fuel with
  | zero => intro n h1 h2; omega
  | succ fuel ih =>
    intro n h1 h2
    unfold log2Fuel
    by_cases h : n < 2
    · rw [if_pos h]
      have : n = 1 := by omega
      subst this
      simp
    · rw [if_neg h]
      have hdiv : n / 2 ≤ fuel := by omega
      have hpos : 0 < n / 2 := by omega
      obtain ⟨a, b⟩ := ih (n / 2) hdiv hpos
      constructor
      · rw [pow_succ]; omega
      · rw [pow_succ]; omega

theorem natLog2_spec (n : Nat) (h : 0 < n) :
    2 ^ natLog2 n ≤ n ∧ n < 2 ^ (natLog2 n + 1) :=
  log2Fuel_spec n n (Nat.le_refl n) h

theorem natLog2_lt (n k : Nat) (h : 0 < n) (hk : n < 2 ^ k) : natLog2 n < k := by
  have h1 := (natLog2_spec n h).1
  have h2 : 2 ^ natLog2 n < 2 ^ k := Nat.lt_of_le_of_lt h1 hk
  exact (Nat.pow_lt_pow_iff_right (by norm_num)).mp h2

theorem floorLog2_one (n : Nat) (h : 0 < n) : floorLog2 n 1 = (natLog2 n : Int) := by
  unfold floorLog2
  have h1 : natLog2 1 = 0 := by decide
  have h2 := (natLog2_spec n h).1
  simp only [h1, Nat.cast_zero, sub_zero, Int.natCast_nonneg, if_true, Int.toNat_ofNat, one_mul,
    h2]

/-- A natural number below `2 ^ 53` is a `float64`: its conversion is exact. -/
theorem roundPos_nat (n : Nat) (h0 : 0 < n) (h : n < 2 ^ 53) : roundPos n 1 = some (n : ℚ) := by
  have hl := natLog2_lt n 53 h0 h
  unfold roundPos
  rw [floorLog2_one n h0]
  have hk : ¬ (1024 : Int) ≤ (natLog2 n : Int) := by omega
  have he : max ((natLog2 n : Int) - 52) (-1074) = (natLog2 n : Int) - 52 := by omega
  simp only [hk, if_false, he]
  by_cases h52 : natLog2 n = 52
  · have e0 : ((natLog2 n : Int) - 52) = 0 := by omega
    simp only [e0, le_refl, if_true, Int.toNat_zero, pow_zero, mul_one, divRoundHalfEven_one]
    have : ¬ ((0 : Int) = 971 ∧ n = 2 ^ 53) := by omega
    simp only [this, if_false]
  · have eneg : ¬ (0 : Int) ≤ (natLog2 n : Int) - 52 := by omega
    have e971 : ¬ ((natLog2 n : Int) - 52 = 971 ∧
        n * 2 ^ (-((natLog2 n : Int) - 52)).toNat = 2 ^ 53) := fun hh => by
      have := hh.1
      omega
    simp only [eneg, if_false, divRoundHalfEven_one, e971]
    congr 1
    have hp : ((2 ^ (-((natLog2 n : Int) - 52)).toNat : Nat) : ℚ) ≠ 0 := by positivity
    rw [Nat.cast_mul]
    exact mul_div_cancel_right₀ _ hp

theorem round64_natCast (n : Nat) (h : n < 2 ^ 53) : round64 (n : ℚ) = .finite (n : ℚ) := by
  unfold round64
  by_cases h0 : n = 0
  · subst h0
    simp
  · have hq : ¬ ((n : ℚ) = 0) := by exact_mod_cast h0
    have hpos : (0 : ℚ) < (n : ℚ) := by exact_mod_cast Nat.pos_of_ne_zero h0
    simp only [hq, if_false, hpos, if_true, Rat.num_natCast, Int.toNat_ofNat, Rat.den_natCast,
      roundPos_nat n (Nat.pos_of_ne_zero h0) h]

/-- The product of a whole price and a positive quantity is exact when it stays below
`2 ^ 53`. -/
theorem linePrice_exact (n : Nat) (q : Int) (hn : 0 < n) (hq : 0 < q)
    (h : (n : Int) * q < 2 ^ 53) : linePrice (n : ℚ) q = .finite ((n : ℚ) * (q : ℚ)) := by
  obtain ⟨m, rfl⟩ := Int.eq_ofNat_of_zero_le (le_of_lt hq)
  have hnm : n * m < 2 ^ 53 := by
    have : ((n * m : Nat) : Int) < 2 ^ 53 := by
      rw [Nat.cast_mul]
      exact h
    omega
  have hm : m < 2 ^ 53 := by
    have h1 : m ≤ n * m := Nat.le_mul_of_pos_left m hn
    omega
  unfold linePrice
  have e1 : (((m : Nat) : Int) : ℚ) = (m : ℚ) := Int.cast_natCast m
  rw [e1, round64_natCast m hm]
  show round64 ((n : ℚ) * (m : ℚ)) = _
  have e2 : (n : ℚ) * (m : ℚ) = ((n * m : Nat) : ℚ) := (Nat.cast_mul n m).symm
  rw [e2, round64_natCast (n * m) hnm]

theorem F64_add_exact (a b : Nat) (h : a + b < 2 ^ 53) :
    (F64.finite (a : ℚ)) + (F64.finite (b : ℚ)) = .finite ((a : ℚ) + (b : ℚ)) := by
  show round64 ((a : ℚ) + (b : ℚ)) = _
  have e : (a : ℚ) + (b : ℚ) = ((a + b : Nat) : ℚ) := (Nat.cast_add a b).symm
  rw [e, round64_natCast (a + b) h]

/-! ## order placement -/

theorem sum_lineExact_nonneg (table : List Product) (items : List OrderItemRequest)
    (hwhole : ∀ it ∈ items, ∃ n : Nat, 0 < n ∧ (productIn table it.ProductID).Price = (n : ℚ))
    (hq : ∀ it ∈ items, 0 < it.Quantity) :
    0 ≤ (items.map (fun it =>
      (productIn table it.ProductID).Price * (it.Quantity : ℚ))).sum := by
  apply List.sum_nonneg
  intro x hx
  obtain ⟨it, hit, rfl⟩ := List.mem_map.mp hx
  obtain ⟨n, -, hn⟩ := hwhole it hit
  have h1 : (0 : ℚ) ≤ (it.Quantity : ℚ) := by exact_mod_cast le_of_lt (hq it hit)
  rw [hn]
  positivity

/-- With whole prices and an exact total below `2 ^ 53`, no product and no partial sum of
the first loop of `CreateOrder` is rounded. -/
theorem foldl_lineTotal_exact (table : List Product) :
    ∀ (items : List OrderItemRequest) (A : Nat),
      (∀ it ∈ items, ∃ n : Nat, 0 < n ∧ (productIn table it.ProductID).Price = (n : ℚ)) →
      (∀ it ∈ items, 0 < it.Quantity) →
      (A : ℚ) + (items.map (fun it =>
        (productIn table it.ProductID).Price * (it.Quantity : ℚ))).sum < 2 ^ 53 →
      (items.map (lineTotal table)).foldl (· + ·) (F64.finite (A : ℚ)) =
        F64.finite ((A : ℚ) + (items.map (fun it =>
          (productIn table it.ProductID).Price * (it.Quantity : ℚ))).sum) ∧
      ∀ it ∈ items, lineTotal table it =
        F64.finite ((productIn table it.ProductID).Price * (it.Quantity : ℚ)) := by
  intro items
  induction items with
  | nil => intro A _ _ _; simp
  | cons it rest ih =>
    intro A hwhole hq hbound
    obtain ⟨n, hn0, hn⟩ := hwhole it (List.mem_cons_self _ _)
    have hq0 := hq it (List.mem_cons_self _ _)
    obtain ⟨m, hm⟩ := Int.eq_ofNat_of_zero_le (le_of_lt hq0)
    have hrest := sum_lineExact_nonneg table rest
      (fun x hx => hwhole x (List.mem_cons_of_mem _ hx))
      (fun x hx => hq x (List.mem_cons_of_mem _ hx))
    rw [List.map_cons, List.sum_cons, hn, hm] at hbound
    have hcast : (((m : Nat) : Int) : ℚ) = (m : ℚ) := Int.cast_natCast m
    rw [hcast] at hbound
    have hb1 : ((A + n * m : Nat) : ℚ) < 2 ^ 53 := by
      push_cast
      linarith
    have hb2 : A + n * m < 2 ^ 53 := by exact_mod_cast hb1
    have hline : lineTotal table it =
        F64.finite ((productIn table it.ProductID).Price * (it.Quantity : ℚ)) := by
      unfold lineTotal
      rw [hn]
      apply linePrice_exact n it.Quantity hn0 hq0
      rw [hm]
      have : ((n * m : Nat) : Int) < 2 ^ 53 := by
        have : n * m < 2 ^ 53 := by omega
        exact_mod_cast this
      rw [Nat.cast_mul] at this
      exact this
    have hstep : F64.finite (A : ℚ) + lineTotal table it = F64.finite ((A + n * m : Nat) : ℚ) := by
      rw [hline, hn, hm, hcast]
      have e : (n : ℚ) * (m : ℚ) = ((n * m : Nat) : ℚ) := (Nat.cast_mul n m).symm
      rw [e, F64_add_exact A (n * m) hb2, Nat.cast_add]
    obtain ⟨ih1, ih2⟩ := ih (A + n * m)
      (fun x hx => hwhole x (List.mem_cons_of_mem _ hx))
      (fun x hx => hq x (List.mem_cons_of_mem _ hx))
      (by push_cast; linarith)
    constructor
    · rw [List.map_cons, List.foldl_cons, hstep, ih1, List.map_cons, List.sum_cons, hn, hm,
        hcast]
      congr 1
      push_cast
      ring
    · intro x hx
      rcases List.mem_cons.mp hx with e | e
      · subst e; exact hline
      · exact ih2 x e

/-- C1 does not hold with amounts read as exact numbers.  With the product priced 0.1 (the
`float64` nearest to it) and quantity 3, `CreateOrder` answers 201 and stores the total and
the item price 0.30000000000000004, which is neither 3 × the price nor 0.3.  With the
product priced 10 and quantity `2 ^ 53 + 1` it stores 90071992547409920, not
90071992547409930: the quantity itself is rounded. -/
theorem CreateOrder_total_is_rounded :
    (CreateOrder noFaults (some sampleCustomer) (.parsed ⟨1, some [⟨1, 3⟩]⟩)
      sampleStoreTenth).1.status = StatusCreated ∧
    (CreateOrder noFaults (some sampleCustomer) (.parsed ⟨1, some [⟨1, 3⟩]⟩)
      sampleStoreTenth).2.orders =
      [⟨1, 1, 1, .finite (5404319552844596 / 18014398509481984), OrderStatusPending⟩] ∧
    (CreateOrder noFaults (some sampleCustomer) (.parsed ⟨1, some [⟨1, 3⟩]⟩)
      sampleStoreTenth).2.orderItems =
      [⟨1, 1, 1, .finite (5404319552844596 / 18014398509481984), 3⟩] ∧
    (5404319552844596 / 18014398509481984 : ℚ) ≠ float64Tenth * 3 ∧
    (5404319552844596 / 18014398509481984 : ℚ) ≠ 3 / 10 ∧
    (CreateOrder noFaults (some sampleCustomer) (.parsed ⟨1, some [⟨1, 9007199254740993⟩]⟩)
      sampleStore).2.orders =
      [⟨1, 1, 1, .finite 90071992547409920, OrderStatusPending⟩] ∧
    (10 : ℚ) * 9007199254740993 = 90071992547409930 := by
  decide!

/-- C1 (as amended): for every `CreateOrder` request answered with 201 (whatever the
persistence failures allowed by the oracle), the caller is authenticated, the body holds at
least one line item, every line item names an existing product with a positive quantity,
and, in `float64` arithmetic: each stored order item carries the product
`price * float64(quantity)`, rounded to the nearest `float64`; the stored order total and
the returned total are the sum of these products, added in request order from 0 and rounded
after each addition, which is also the `float64` sum of the stored item prices.  When the
prices are whole numbers and the exact total is below `2 ^ 53`, nothing is rounded: the
item prices are price × quantity and the total is their exact sum. -/
theorem CreateOrder_total_is_float64_sum_of_line_prices (f : Faults) (authUser : Option User)
    (body : JSONBody CreateOrderRequest) (s : Store)
    (h : (CreateOrder f authUser body s).1.status = StatusCreated) :
    ∃ (req : CreateOrderRequest) (items : List OrderItemRequest) (order : Order)
      (created : List OrderItem) (returned : OrderJSON),
      authUser.isSome = true ∧ body = .parsed req ∧ req.OrderItems = some items ∧
      items ≠ [] ∧
      (∀ it ∈ items, (findByID s.products it.ProductID).isSome = true ∧ 0 < it.Quantity) ∧
      (CreateOrder f authUser body s).2.orders = s.orders ++ [order] ∧
      (CreateOrder f authUser body s).2.orderItems = s.orderItems ++ created ∧
      (CreateOrder f authUser body s).1.body = .order returned ∧
      order.Total =
        (items.map (fun it =>
          F64.finite (productIn s.products it.ProductID).Price *
            round64 (it.Quantity : ℚ))).foldl (· + ·) 0 ∧
      returned.total = order.Total ∧
      created.map (fun r => (r.ProductID, r.Quantity, r.Price)) =
        items.map (fun it => (it.ProductID, it.Quantity,
          F64.finite (productIn s.products it.ProductID).Price * round64 (it.Quantity : ℚ))) ∧
      order.Total = (created.map OrderItem.Price).foldl (· + ·) 0 ∧
      ((∀ it ∈ items, ∃ n : Nat, 0 < n ∧ (productIn s.products it.ProductID).Price = (n : ℚ)) →
        (items.map (fun it =>
          (productIn s.products it.ProductID).Price * (it.Quantity : ℚ))).sum < 2 ^ 53 →
        order.Total = F64.finite ((items.map (fun it =>
          (productIn s.products it.ProductID).Price * (it.Quantity : ℚ))).sum) ∧
        created.map OrderItem.Price = items.map (fun it =>
          F64.finite ((productIn s.products it.ProductID).Price * (it.Quantity : ℚ)))) := by
  obtain ⟨user, req, items, created, hu, hb, -, hi, hne, hv, hs, hc, hr⟩ :=
    CreateOrder_created f authUser body s h
  have hcols : created.map (fun r => (r.ProductID, r.Quantity, r.Price)) =
      items.map (fun it => (it.ProductID, it.Quantity, lineTotal s.products it)) := by
    have := congrArg (List.map (fun c : Nat × Nat × Int × F64 => c.2)) hc
    simpa [List.map_map, Function.comp_def, OrderItem.columns] using this
  have hprices : created.map OrderItem.Price = items.map (lineTotal s.products) := by
    have := congrArg (List.map (fun c : Nat × Int × F64 => c.2.2)) hcols
    simpa [List.map_map, Function.comp_def] using this
  have hvalid : ∀ it ∈ items,
      (findByID s.products it.ProductID).isSome = true ∧ 0 < it.Quantity := by
    intro it hit
    have := hv it hit
    simpa [validItem] using this
  refine ⟨req, items, ⟨nextID s.orders, user.ID, req.AddressID,
    (items.map (lineTotal s.products)).foldl (· + ·) 0, OrderStatusPending⟩, created, _,
    by simp [hu], hb, hi, hne, hvalid, ?_, ?_, hr, rfl, rfl, hcols, ?_, ?_⟩
  · rw [hs]
  · rw [hs]
  · show (items.map (lineTotal s.products)).foldl (· + ·) 0 = _
    rw [hprices]
  · intro hwhole hbound
    have hb0 : ((0 : Nat) : ℚ) + (items.map (fun it =>
        (productIn s.products it.ProductID).Price * (it.Quantity : ℚ))).sum < 2 ^ 53 := by
      rw [Nat.cast_zero, zero_add]
      exact hbound
    obtain ⟨e1, e2⟩ := foldl_lineTotal_exact s.products items 0 hwhole
      (fun it hit => (hvalid it hit).2) hb0
    constructor
    · show (items.map (lineTotal s.products)).foldl (· + ·) 0 = _
      have e0 : (0 : F64) = F64.finite ((0 : Nat) : ℚ) := by
        show F64.finite (0 : ℚ) = _
        rw [Nat.cast_zero]
      rw [e0, e1, Nat.cast_zero, zero_add]
    · rw [hprices]
      exact List.map_congr_left e2

/-- C1 (as amended), on the fixture of `TestCreateOrder`: product priced 10, quantity 2,
total 20. -/
theorem CreateOrder_total_is_float64_sum_of_line_prices_witness :
    (CreateOrder noFaults (some sampleCustomer) (.parsed sampleOrderRequest)
      sampleStore).1.status = StatusCreated ∧
    (∃ (req : CreateOrderRequest) (items : List OrderItemRequest) (order : Order)
      (created : List OrderItem) (returned : OrderJSON),
      (some sampleCustomer).isSome = true ∧
      JSONBody.parsed sampleOrderRequest = .parsed req ∧ req.OrderItems = some items ∧
      items ≠ [] ∧
      (∀ it ∈ items,
        (findByID sampleStore.products it.ProductID).isSome = true ∧ 0 < it.Quantity) ∧
      (CreateOrder noFaults (some sampleCustomer) (.parsed sampleOrderRequest)
        sampleStore).2.orders = sampleStore.orders ++ [order] ∧
      (CreateOrder noFaults (some sampleCustomer) (.parsed sampleOrderRequest)
        sampleStore).2.orderItems = sampleStore.orderItems ++ created ∧
      (CreateOrder noFaults (some sampleCustomer) (.parsed sampleOrderRequest)
        sampleStore).1.body = .order returned ∧
      order.Total =
        (items.map (fun it =>
          F64.finite (productIn sampleStore.products it.ProductID).Price *
            round64 (it.Quantity : ℚ))).foldl (· + ·) 0 ∧
      returned.total = order.Total ∧
      created.map (fun r => (r.ProductID, r.Quantity, r.Price)) =
        items.map (fun it => (it.ProductID, it.Quantity,
          F64.finite (productIn sampleStore.products it.ProductID).Price *
            round64 (it.Quantity : ℚ))) ∧
      order.Total = (created.map OrderItem.Price).foldl (· + ·) 0 ∧
      ((∀ it ∈ items, ∃ n : Nat,
          0 < n ∧ (productIn sampleStore.products it.ProductID).Price = (n : ℚ)) →
        (items.map (fun it =>
          (productIn sampleStore.products it.ProductID).Price * (it.Quantity : ℚ))).sum
          < 2 ^ 53 →
        order.Total = F64.finite ((items.map (fun it =>
          (productIn sampleStore.products it.ProductID).Price * (it.Quantity : ℚ))).sum) ∧
        created.map OrderItem.Price = items.map (fun it =>
          F64.finite ((productIn sampleStore.products it.ProductID).Price *
            (it.Quantity : ℚ))))) ∧
    (CreateOrder noFaults (some sampleCustomer) (.parsed sampleOrderRequest)
      sampleStore).2.orders = [⟨1, 1, 1, 20, OrderStatusPending⟩] ∧
    (CreateOrder noFaults (some sampleCustomer) (.parsed sampleOrderRequest)
      sampleStore).2.orderItems = [⟨1, 1, 1, 20, 2⟩] :=
  ⟨by decide!, CreateOrder_total_is_float64_sum_of_line_prices noFaults (some sampleCustomer)
    (.parsed sampleOrderRequest) sampleStore (by decide!), by decide!, by decide!⟩

/-- C4: every `CreateOrder` request answered with 201, whatever the persistence failures
allowed by the oracle, comes from an authenticated caller and stores exactly one new order
row (under a fresh identifier), owned by the caller, with the request's address, in status
`pending`, together with exactly one order item row per line item, in input order, each
with the new order's identifier and the line item's product and quantity, nothing else in
the store changing; and a request of an authenticated caller whose body binds and whose
line items are all valid is answered with 201 when no persistence call fails. -/
theorem CreateOrder_stores_order_and_items (f : Faults) (authUser : Option User)
    (body : JSONBody CreateOrderRequest) (s : Store) :
    ((CreateOrder f authUser body s).1.status = StatusCreated →
      ∃ (user : User) (req : CreateOrderRequest) (items : List OrderItemRequest)
        (order : Order) (created : List OrderItem),
        authUser = some user ∧ body = .parsed req ∧ req.OrderItems = some items ∧
        (CreateOrder f authUser body s).2 =
          { s with orders := s.orders ++ [order], orderItems := s.orderItems ++ created } ∧
        (∀ o ∈ s.orders, o.ID ≠ order.ID) ∧
        order.UserID = user.ID ∧ order.AddressID = req.AddressID ∧
        order.Status = OrderStatusPending ∧
        created.map (fun r => (r.OrderID, r.ProductID, r.Quantity)) =
          items.map (fun it => (order.ID, it.ProductID, it.Quantity))) ∧
    (∀ (user : User) (req : CreateOrderRequest) (items : List OrderItemRequest),
      f = noFaults → authUser = some user → body = .parsed req →
      req.AddressID ≠ 0 → req.OrderItems = some items → items ≠ [] →
      (∀ it ∈ items, (findByID s.products it.ProductID).isSome = true ∧ 0 < it.Quantity) →
      (CreateOrder f authUser body s).1.status = StatusCreated) := by
  constructor
  · intro h201
    obtain ⟨user, req, items, created, hu, hb, -, hi, -, -, hs, hc, -⟩ :=
      CreateOrder_created f authUser body s h201
    refine ⟨user, req, items, _, created, hu, hb, hi, hs, ?_, rfl, rfl, rfl, ?_⟩
    · intro o ho
      have := getID_lt_nextID s.orders o ho
      show o.ID ≠ nextID s.orders
      exact Nat.ne_of_lt this
    · have := congrArg (List.map (fun c : Nat × Nat × Int × F64 => (c.1, c.2.1, c.2.2.1))) hc
      simpa [List.map_map, Function.comp_def, OrderItem.columns] using this
  · intro user req items hf hu hb haddr hitems hne hvalid
    subst hf hu hb
    have hv : ∀ it ∈ items, validItem s.products it = true := by
      intro it hit
      have := hvalid it hit
      simpa [validItem] using this
    exact CreateOrder_succeeds user req items s haddr hitems hne hv

/-- C4, on the fixture of `TestCreateOrder`: the request is answered with 201 and the
store gains one order row and one item row. -/
theorem CreateOrder_stores_order_and_items_witness :
    (CreateOrder noFaults (some sampleCustomer) (.parsed sampleOrderRequest)
      sampleStore).1.status = StatusCreated ∧
    ∃ (user : User) (req : CreateOrderRequest) (items : List OrderItemRequest)
      (order : Order) (created : List OrderItem),
      some sampleCustomer = some user ∧
      JSONBody.parsed sampleOrderRequest = .parsed req ∧ req.OrderItems = some items ∧
      (CreateOrder noFaults (some sampleCustomer) (.parsed sampleOrderRequest) sampleStore).2 =
        { sampleStore with
          orders := sampleStore.orders ++ [order]
          orderItems := sampleStore.orderItems ++ created } ∧
      (∀ o ∈ sampleStore.orders, o.ID ≠ order.ID) ∧
      order.UserID = user.ID ∧ order.AddressID = req.AddressID ∧
      order.Status = OrderStatusPending ∧
      created.map (fun r => (r.OrderID, r.ProductID, r.Quantity)) =
        items.map (fun it => (order.ID, it.ProductID, it.Quantity)) :=
  ⟨(CreateOrder_stores_order_and_items noFaults (some sampleCustomer)
      (.parsed sampleOrderRequest) sampleStore).2 sampleCustomer sampleOrderRequest [⟨1, 2⟩]
      rfl rfl rfl (by decide) rfl (by decide) (by decide),
    (CreateOrder_stores_order_and_items noFaults (some sampleCustomer)
      (.parsed sampleOrderRequest) sampleStore).1 (by decide)⟩

theorem validateOrderItems_invalid (f : Faults) (table : List Product) :
    ∀ (items : List OrderItemRequest) (k : Nat) (products : List (Nat × Product)) (total : F64),
      (∃ it ∈ items, validItem table it = false) →
      ∃ msg, validateOrderItems f table k items products total = .error msg := by
  intro items
  induction items with
  | nil => intro k products total h; obtain ⟨it, hit, -⟩ := h; cases hit
  | cons item rest ih =>
    intro k products total h
    simp only [validateOrderItems]
    cases hf : dbFirst f k table item.ProductID with
    | error e => exact ⟨_, rfl⟩
    | ok product =>
      simp only
      by_cases hq : item.Quantity ≤ 0
      · rw [if_pos hq]; exact ⟨_, rfl⟩
      · rw [if_neg hq]
        apply ih
        obtain ⟨it, hit, hbad⟩ := h
        rcases List.mem_cons.mp hit with e | e
        · subst e
          have := (dbFirst_ok hf).2
          simp [validItem, this] at hbad
          omega
        · exact ⟨it, e, hbad⟩

theorem validateOrderItems_first_invalid (table : List Product)
    (bad : OrderItemRequest) (post : List OrderItemRequest)
    (hbad : validItem table bad = false) :
    ∀ (pre : List OrderItemRequest) (k : Nat) (products : List (Nat × Product)) (total : F64),
      (∀ it ∈ pre, validItem table it = true) →
      validateOrderItems noFaults table k (pre ++ bad :: post) products total =
        .error (if (findByID table bad.ProductID).isSome
          then "Quantity must be greater than 0 for product ID: " ++ toString bad.ProductID
          else "Invalid product ID: " ++ toString bad.ProductID) := by
  intro pre
  induction pre with
  | nil =>
    intro k products total _
    simp only [List.nil_append, validateOrderItems, dbFirst, noFaults]
    cases hp : findByID table bad.ProductID with
    | none => simp
    | some p =>
      have : bad.Quantity ≤ 0 := by
        simp [validItem, hp] at hbad
        exact hbad
      simp [this]
  | cons item rest ih =>
    intro k products total hv
    have h1 := hv item (List.mem_cons_self _ _)
    simp only [validItem, Bool.and_eq_true, decide_eq_true_eq] at h1
    obtain ⟨hsome, hq⟩ := h1
    obtain ⟨p, hp⟩ := Option.isSome_iff_exists.mp hsome
    simp only [List.cons_append, validateOrderItems, dbFirst, noFaults, hp]
    rw [if_neg (by omega)]
    exact ih _ _ _ (fun it hit => hv it (List.mem_cons_of_mem _ hit))

/-- C2 (as amended): when some line item of a `CreateOrder` request of an authenticated
caller fails validation, the response is 400 and the store is unchanged, whatever the
persistence failures; and when the body passes binding (non-zero `address_id`) and no
lookup fails, the error is that of the first failing line item: `Invalid product ID: <id>`
when its product does not exist, `Quantity must be greater than 0 for product ID: <id>`
when the product exists and the quantity is not positive. -/
theorem CreateOrder_invalid_item_rejected (user : User) (req : CreateOrderRequest)
    (pre : List OrderItemRequest) (bad : OrderItemRequest) (post : List OrderItemRequest)
    (s : Store)
    (hitems : req.OrderItems = some (pre ++ bad :: post))
    (hpre : ∀ it ∈ pre, (findByID s.products it.ProductID).isSome = true ∧ 0 < it.Quantity)
    (hbad : findByID s.products bad.ProductID = none ∨ bad.Quantity ≤ 0) :
    (∀ f : Faults,
      (CreateOrder f (some user) (.parsed req) s).1.status = StatusBadRequest ∧
      (CreateOrder f (some user) (.parsed req) s).2 = s) ∧
    (req.AddressID ≠ 0 →
      (findByID s.products bad.ProductID = none →
        (CreateOrder noFaults (some user) (.parsed req) s).1.body =
          .error ("Invalid product ID: " ++ toString bad.ProductID)) ∧
      (findByID s.products bad.ProductID ≠ none →
        (CreateOrder noFaults (some user) (.parsed req) s).1.body =
          .error ("Quantity must be greater than 0 for product ID: " ++
            toString bad.ProductID))) := by
  have hbad1 : validItem s.products bad = false := by
    rcases hbad with h | h
    · simp [validItem, h]
    · simp only [validItem, Bool.and_eq_false_iff, decide_eq_false_iff_not]
      right; omega
  have hpre1 : ∀ it ∈ pre, validItem s.products it = true := by
    intro it hit
    have := hpre it hit
    simpa [validItem] using this
  constructor
  · intro f
    unfold CreateOrder
    cases hb : ShouldBindJSON validateCreateOrderRequest (.parsed req) with
    | error err =>
      simp only
      refine ⟨?_, trivial⟩
      cases err with
      | validation errs => rfl
      | other msg =>
        unfold ShouldBindJSON at hb
        simp only at hb
        cases hv : validateCreateOrderRequest req with
        | nil => rw [hv] at hb; cases hb
        | cons e es => rw [hv] at hb; cases hb
    | ok req1 =>
      obtain ⟨hbody, -⟩ := ShouldBindJSON_ok hb
      cases hbody
      simp only [hitems, Option.getD_some]
      obtain ⟨msg, hmsg⟩ := validateOrderItems_invalid f s.products (pre ++ bad :: post) 0 [] 0
        ⟨bad, by simp, hbad1⟩
      simp [hmsg]
  · intro haddr
    have hval : validateCreateOrderRequest req = [] := by
      unfold validateCreateOrderRequest
      rw [hitems]
      simp [haddr]
    have hmsg := validateOrderItems_first_invalid s.products bad post hbad1 pre 0 [] 0 hpre1
    constructor
    · intro hnone
      unfold CreateOrder
      simp only [ShouldBindJSON, hval, hitems, Option.getD_some, hmsg, hnone]
      rfl
    · intro hsome
      have : (findByID s.products bad.ProductID).isSome = true := by
        cases hp : findByID s.products bad.ProductID with
        | none => exact absurd hp hsome
        | some p => rfl
      unfold CreateOrder
      simp only [ShouldBindJSON, hval, hitems, Option.getD_some, hmsg, this]
      rfl

/-- C2, on the fixture of `TestCreateOrder`: a valid line item followed by one with
quantity 0. -/
theorem CreateOrder_invalid_item_rejected_witness :
    (∀ f : Faults,
      (CreateOrder f (some sampleCustomer) (.parsed ⟨1, some ([⟨1, 2⟩] ++ ⟨1, 0⟩ :: [])⟩)
        sampleStore).1.status = StatusBadRequest ∧
      (CreateOrder f (some sampleCustomer) (.parsed ⟨1, some ([⟨1, 2⟩] ++ ⟨1, 0⟩ :: [])⟩)
        sampleStore).2 = sampleStore) ∧
    ((1 : Nat) ≠ 0 →
      (findByID sampleStore.products 1 = none →
        (CreateOrder noFaults (some sampleCustomer)
          (.parsed ⟨1, some ([⟨1, 2⟩] ++ ⟨1, 0⟩ :: [])⟩) sampleStore).1.body =
          .error ("Invalid product ID: " ++ toString 1)) ∧
      (findByID sampleStore.products 1 ≠ none →
        (CreateOrder noFaults (some sampleCustomer)
          (.parsed ⟨1, some ([⟨1, 2⟩] ++ ⟨1, 0⟩ :: [])⟩) sampleStore).1.body =
          .error ("Quantity must be greater than 0 for product ID: " ++ toString 1))) :=
  CreateOrder_invalid_item_rejected sampleCustomer ⟨1, some ([⟨1, 2⟩] ++ ⟨1, 0⟩ :: [])⟩
    [⟨1, 2⟩] ⟨1, 0⟩ [] sampleStore rfl (by decide) (Or.inr (by decide))

/-- C2 fails as stated: a request whose only line item names the missing product 99 and
whose `address_id` is 0 is answered with the field-error map of the binding step, not with
the message naming product 99. -/
theorem CreateOrder_invalid_item_unbound_body :
    (CreateOrder noFaults (some sampleCustomer) (.parsed ⟨0, some [⟨99, 1⟩]⟩) sampleStore).1 =
      ⟨StatusBadRequest, .fieldErrors [("address_id", "This field is required.")]⟩ ∧
    findByID sampleStore.products 99 = none ∧
    (CreateOrder noFaults (some sampleCustomer) (.parsed ⟨0, some [⟨99, 1⟩]⟩)
      sampleStore).1.body ≠ .error "Invalid product ID: 99" := by
  decide

/-- What `CreateOrder` leaves in the store, for every request and every pattern of
persistence failures. -/
theorem CreateOrder_effect (f : Faults) (authUser : Option User)
    (body : JSONBody CreateOrderRequest) (s : Store) :
    (CreateOrder f authUser body s).2 = s ∨
    ∃ (user : User) (req : CreateOrderRequest) (items : List OrderItemRequest)
      (order : Order) (created : List OrderItem) (j : Nat),
      authUser = some user ∧ body = .parsed req ∧ req.OrderItems = some items ∧
      j ≤ items.length ∧
      (CreateOrder f authUser body s).2 =
        { s with orders := s.orders ++ [order], orderItems := s.orderItems ++ created } ∧
      order.ID = nextID s.orders ∧ order.UserID = user.ID ∧
      order.Status = OrderStatusPending ∧
      created.map (fun r => (r.OrderID, r.ProductID, r.Quantity)) =
        (items.take j).map (fun it => (order.ID, it.ProductID, it.Quantity)) ∧
      (j < items.length →
        f (items.length + 1 + j) ≠ none ∧
        (CreateOrder f authUser body s).1.status = StatusInternalServerError) ∧
      ((∀ i, i < items.length → f (items.length + 1 + i) = none) → j = items.length) := by
  unfold CreateOrder
  cases hb : ShouldBindJSON validateCreateOrderRequest body with
  | error err => exact Or.inl rfl
  | ok req =>
    obtain ⟨hbody, hval⟩ := ShouldBindJSON_ok hb
    obtain ⟨-, items, hitems, -⟩ := validateCreateOrderRequest_nil hval
    simp only
    cases authUser with
    | none => exact Or.inl rfl
    | some user =>
      simp only [hitems, Option.getD_some]
      cases hv : validateOrderItems f s.products 0 items [] 0 with
      | error msg => exact Or.inl rfl
      | ok res =>
        obtain ⟨products, orderTotal⟩ := res
        simp only
        cases hc : dbCreate f items.length s.orders
            { ID := 0, UserID := user.ID, AddressID := req.AddressID, Total := orderTotal,
              Status := OrderStatusPending } with
        | error e => exact Or.inl rfl
        | ok res =>
          obtain ⟨orders1, order⟩ := res
          obtain ⟨-, horder, horders1⟩ := dbCreate_ok hc
          simp only
          right
          obtain ⟨created, j, hj, c1, c2, c3, c4⟩ :=
            createOrderItems_spec f order.ID products items (items.length + 1) s.orderItems
          have hcols : created.map (fun r => (r.OrderID, r.ProductID, r.Quantity)) =
              (items.take j).map (fun it => (order.ID, it.ProductID, it.Quantity)) := by
            have := congrArg (List.map (fun c : Nat × Nat × Int × F64 => (c.1, c.2.1, c.2.2.1))) c2
            simpa [List.map_map, Function.comp_def, OrderItem.columns] using this
          have hfull : (∀ i, i < items.length → f (items.length + 1 + i) = none) →
              j = items.length := by
            intro hno
            rcases c4 with ⟨-, e⟩ | ⟨e1, -, e2⟩
            · exact e
            · exact absurd (hno j e1) e2
          have hoid : order.ID = nextID s.orders := by rw [horder]; rfl
          have houser : order.UserID = user.ID := by rw [horder]; rfl
          have hostatus : order.Status = OrderStatusPending := by rw [horder]; rfl
          cases hi : createOrderItems f order.ID products (items.length + 1) items s.orderItems with
          | mk rows oerr =>
            rw [hi] at c1 c4
            simp only at c1 c4
            cases oerr with
            | some e =>
              simp only
              refine ⟨user, req, items, order, created, j, rfl, hbody, hitems, hj, ?_, hoid,
                houser, hostatus, hcols, ?_, hfull⟩
              · rw [horders1, c1]
              · intro _
                rcases c4 with ⟨e1, -⟩ | ⟨-, -, e2⟩
                · cases e1
                · exact ⟨e2, trivial⟩
            | none =>
              have hjn : j = items.length := by
                rcases c4 with ⟨-, e⟩ | ⟨-, e1, e2⟩
                · exact e
                · exact absurd e1.symm e2
              have hfresh : ∀ x ∈ s.orders, HasID.getID x ≠ HasID.getID order := by
                intro x hx
                have := getID_lt_nextID s.orders x hx
                rw [horder]
                show HasID.getID x ≠ nextID s.orders
                omega
              simp only
              cases hs : dbSave f (2 * items.length + 1) orders1 order with
              | error e =>
                simp only
                refine ⟨user, req, items, order, created, j, rfl, hbody, hitems, hj, ?_, hoid,
                  houser, hostatus, hcols, ?_, hfull⟩
                · rw [horders1, c1]
                · intro hlt; omega
              | ok orders3 =>
                obtain ⟨-, hsave⟩ := dbSave_ok hs
                have hany : orders1.any (fun r => HasID.getID r == HasID.getID order) = true := by
                  rw [horders1]; simp
                rw [hany, if_pos rfl, horders1, save_append_fresh s.orders order hfresh] at hsave
                simp only
                cases hl : dbFirst f (2 * items.length + 2) orders3 order.ID with
                | error e =>
                  simp only
                  refine ⟨user, req, items, order, created, j, rfl, hbody, hitems, hj, ?_, hoid,
                    houser, hostatus, hcols, ?_, hfull⟩
                  · rw [hsave, c1]
                  · intro hlt; omega
                | ok order1 =>
                  simp only
                  refine ⟨user, req, items, order, created, j, rfl, hbody, hitems, hj, ?_, hoid,
                    houser, hostatus, hcols, ?_, hfull⟩
                  · rw [hsave, c1]
                  · intro hlt; omega

/-- C3 (as amended): the order row and its item rows are written by separate inserts with
no rollback.  For every `CreateOrder` request and every pattern of persistence failures,
the store afterwards is either unchanged, or holds the new order row together with item
rows for the first `j` line items, in input order, for some `j` up to the number of line
items; `j` falls short only when the insert of line item `j` failed (the response is then
500), so all item rows are there whenever no item insert fails. -/
theorem CreateOrder_writes_order_then_leading_items (f : Faults) (authUser : Option User)
    (body : JSONBody CreateOrderRequest) (s : Store) :
    (CreateOrder f authUser body s).2 = s ∨
    ∃ (user : User) (req : CreateOrderRequest) (items : List OrderItemRequest)
      (order : Order) (created : List OrderItem) (j : Nat),
      authUser = some user ∧ body = .parsed req ∧ req.OrderItems = some items ∧
      j ≤ items.length ∧
      (CreateOrder f authUser body s).2 =
        { s with orders := s.orders ++ [order], orderItems := s.orderItems ++ created } ∧
      order.ID = nextID s.orders ∧ order.UserID = user.ID ∧
      order.Status = OrderStatusPending ∧
      created.map (fun r => (r.OrderID, r.ProductID, r.Quantity)) =
        (items.take j).map (fun it => (order.ID, it.ProductID, it.Quantity)) ∧
      (j < items.length →
        f (items.length + 1 + j) ≠ none ∧
        (CreateOrder f authUser body s).1.status = StatusInternalServerError) ∧
      ((∀ i, i < items.length → f (items.length + 1 + i) = none) → j = items.length) :=
  CreateOrder_effect f authUser body s

/-- C3 fails as stated: with two line items and a failure of the second item insert
(persistence call 4), the response is 500 and the store is left with the new order row and
one of its two item rows. -/
theorem CreateOrder_not_atomic :
    (CreateOrder (failAt 4 "connection lost") (some sampleCustomer)
      (.parsed ⟨1, some [⟨1, 2⟩, ⟨1, 3⟩]⟩) sampleStore).1 =
      ⟨StatusInternalServerError, .error "connection lost"⟩ ∧
    (CreateOrder (failAt 4 "connection lost") (some sampleCustomer)
      (.parsed ⟨1, some [⟨1, 2⟩, ⟨1, 3⟩]⟩) sampleStore).2.orders =
      [⟨1, 1, 1, 50, OrderStatusPending⟩] ∧
    (CreateOrder (failAt 4 "connection lost") (some sampleCustomer)
      (.parsed ⟨1, some [⟨1, 2⟩, ⟨1, 3⟩]⟩) sampleStore).2.orderItems = [⟨1, 1, 1, 20, 2⟩] ∧
    sampleStore.orders = [] ∧ sampleStore.orderItems = [] := by
  decide!

/-! ## order status -/

theorem findByID_any {α : Type} [HasID α] {rows : List α} {id : Nat} {r : α}
    (h : findByID rows id = some r) :
    rows.any (fun x => HasID.getID x == id) = true := by
  rw [List.any_eq_true]
  exact ⟨r, findByID_mem h, by simpa using findByID_getID h⟩

theorem findByID_replace_same {α : Type} [HasID α] (row : α) :
    ∀ (rows : List α) (r : α), findByID rows (HasID.getID row) = some r →
      findByID (rows.map (fun x => if HasID.getID x == HasID.getID row then row else x))
        (HasID.getID row) = some row := by
  intro rows
  induction rows with
  | nil => intro r h; cases h
  | cons a tl ih =>
    intro r h
    unfold findByID at h ⊢
    simp only [List.map_cons, List.find?_cons] at h ⊢
    by_cases ha : HasID.getID a = HasID.getID row
    · simp [ha]
    · have hb : (HasID.getID a == HasID.getID row) = false := by simpa using ha
      rw [hb] at h
      simp only [hb, Bool.false_eq_true, if_false]
      exact ih r h

theorem findByID_replace_other {α : Type} [HasID α] (row : α) (id : Nat)
    (hne : id ≠ HasID.getID row) :
    ∀ (rows : List α),
      findByID (rows.map (fun x => if HasID.getID x == HasID.getID row then row else x)) id
        = findByID rows id := by
  intro rows
  induction rows with
  | nil => rfl
  | cons a tl ih =>
    unfold findByID at ih ⊢
    simp only [List.map_cons, List.find?_cons]
    by_cases ha : HasID.getID a = HasID.getID row
    · have h1 : (HasID.getID row == id) = false := by simpa using hne.symm
      have h2 : (HasID.getID a == id) = false := by rw [ha]; exact h1
      simp only [ha, beq_self_eq_true, if_true, h1, h2]
      simpa [ha] using ih
    · have hb : (HasID.getID a == HasID.getID row) = false := by simpa using ha
      simp only [hb, Bool.false_eq_true, if_false]
      cases hc : (HasID.getID a == id)
      · simpa using ih
      · rfl

theorem dbSave_found {α : Type} [HasID α] (k : Nat) (rows : List α) (row r : α)
    (h : findByID rows (HasID.getID row) = some r) :
    dbSave noFaults k rows row =
      .ok (rows.map (fun x => if HasID.getID x == HasID.getID row then row else x)) := by
  unfold dbSave
  simp only [noFaults, findByID_any h, if_true]

theorem dbFirst_found {α : Type} [HasID α] (k : Nat) (rows : List α) (id : Nat) (r : α)
    (h : findByID rows id = some r) : dbFirst noFaults k rows id = .ok r := by
  unfold dbFirst
  simp only [noFaults, h]

theorem CancelOrder_not_owner (f : Faults) (user : User) (id : String) (orderID : Nat)
    (order : Order) (s : Store) (hid : parseID id = some orderID)
    (horder : dbFirst f 0 s.orders orderID = .ok order) (hown : order.UserID ≠ user.ID) :
    CancelOrder f (some user) id s =
      (⟨StatusForbidden, .error "Unauthorized, you can only cancel your own orders"⟩, s) := by
  have h1 : (order.UserID != user.ID) = true := by simp [hown]
  unfold CancelOrder
  simp only [hid, horder, h1, if_true]

theorem CancelOrder_not_pending (f : Faults) (user : User) (id : String) (orderID : Nat)
    (order : Order) (s : Store) (hid : parseID id = some orderID)
    (horder : dbFirst f 0 s.orders orderID = .ok order) (hown : order.UserID = user.ID)
    (hst : order.Status ≠ OrderStatusPending) :
    CancelOrder f (some user) id s =
      (⟨StatusBadRequest, .error "Order cannot be cancelled, it is not in pending state"⟩,
        s) := by
  have h1 : (order.UserID != user.ID) = false := by simp [hown]
  have h2 : (order.Status != OrderStatusPending) = true := by simp [hst]
  unfold CancelOrder
  simp only [hid, horder, h1, h2, if_true, Bool.false_eq_true, if_false]

theorem CancelOrder_pending_owner (user : User) (id : String) (orderID : Nat)
    (order : Order) (s : Store) (hid : parseID id = some orderID)
    (horder : findByID s.orders orderID = some order) (hown : order.UserID = user.ID)
    (hst : order.Status = OrderStatusPending) :
    CancelOrder noFaults (some user) id s =
      (⟨StatusOK, .order (plainOrder { order with Status := OrderStatusCancelled })⟩,
        { s with orders := s.orders.map (fun x =>
            if HasID.getID x == orderID then { order with Status := OrderStatusCancelled }
            else x) }) := by
  have hoid : order.ID = orderID := findByID_getID horder
  have h1 : (order.UserID != user.ID) = false := by simp [hown]
  have h2 : (order.Status != OrderStatusPending) = false := by simp [hst]
  have hfound : findByID s.orders
      (HasID.getID ({ order with Status := OrderStatusCancelled } : Order)) = some order := by
    show findByID s.orders order.ID = some order
    rw [hoid]; exact horder
  have hsave := dbSave_found 1 s.orders { order with Status := OrderStatusCancelled } order
    hfound
  rw [show HasID.getID ({ order with Status := OrderStatusCancelled } : Order) = orderID
    from hoid] at hsave
  unfold CancelOrder
  simp only [hid, dbFirst_found 0 s.orders orderID order horder, h1, h2, Bool.false_eq_true,
    if_false, hsave]

/-- C5: for every authenticated caller (whatever the role) and every existing order,
addressed by a path parameter that parses to its identifier, `CancelOrder` (with no
persistence failure) answers 200 if and only if the order is `pending` and the caller is
its owner, and then the stored order is the same order with status `cancelled` and no
other order changes; it answers 403 when the caller is not the owner, 400 when the caller
is the owner and the status is not `pending`, and in both cases the store is unchanged. -/
theorem CancelOrder_succeeds_iff_pending_and_owner (user : User) (id : String)
    (orderID : Nat) (order : Order) (s : Store)
    (hid : parseID id = some orderID) (horder : findByID s.orders orderID = some order) :
    ((CancelOrder noFaults (some user) id s).1.status = StatusOK ↔
      (order.Status = OrderStatusPending ∧ user.ID = order.UserID)) ∧
    ((order.Status = OrderStatusPending ∧ user.ID = order.UserID) →
      findByID (CancelOrder noFaults (some user) id s).2.orders orderID =
        some { order with Status := OrderStatusCancelled } ∧
      (∀ other, other ≠ orderID →
        findByID (CancelOrder noFaults (some user) id s).2.orders other =
          findByID s.orders other) ∧
      (CancelOrder noFaults (some user) id s).1.body =
        .order (plainOrder { order with Status := OrderStatusCancelled })) ∧
    (user.ID ≠ order.UserID →
      (CancelOrder noFaults (some user) id s).1.status = StatusForbidden ∧
      (CancelOrder noFaults (some user) id s).2 = s) ∧
    (user.ID = order.UserID → order.Status ≠ OrderStatusPending →
      (CancelOrder noFaults (some user) id s).1.status = StatusBadRequest ∧
      (CancelOrder noFaults (some user) id s).2 = s) := by
  have hoid : order.ID = orderID := findByID_getID horder
  have hfirst := dbFirst_found 0 s.orders orderID order horder
  by_cases hown : order.UserID = user.ID
  · by_cases hst : order.Status = OrderStatusPending
    · rw [CancelOrder_pending_owner user id orderID order s hid horder hown hst]
      refine ⟨⟨fun _ => ⟨hst, hown.symm⟩, fun _ => rfl⟩, fun _ => ⟨?_, ?_, rfl⟩,
        fun h => absurd hown.symm h, fun _ h => absurd hst h⟩
      · have := findByID_replace_same ({ order with Status := OrderStatusCancelled } : Order)
          s.orders order (by
            show findByID s.orders order.ID = some order
            rw [hoid]; exact horder)
        rw [show HasID.getID ({ order with Status := OrderStatusCancelled } : Order) = orderID
          from hoid] at this
        exact this
      · intro other hother
        have := findByID_replace_other ({ order with Status := OrderStatusCancelled } : Order)
          other (by
            show other ≠ order.ID
            rw [hoid]; exact hother) s.orders
        rw [show HasID.getID ({ order with Status := OrderStatusCancelled } : Order) = orderID
          from hoid] at this
        exact this
    · rw [CancelOrder_not_pending noFaults user id orderID order s hid hfirst hown hst]
      refine ⟨⟨fun h => by simp at h, fun h => absurd h.1 hst⟩,
        fun h => absurd h.1 hst, fun h => absurd hown.symm h, fun _ _ => ⟨rfl, rfl⟩⟩
  · rw [CancelOrder_not_owner noFaults user id orderID order s hid hfirst hown]
    refine ⟨⟨fun h => by simp at h, fun h => absurd h.2.symm hown⟩,
      fun h => absurd h.2.symm hown, fun _ => ⟨rfl, rfl⟩, fun h => absurd h.symm hown⟩

/-- C5, on the fixture with one pending order: its owner cancels it. -/
theorem CancelOrder_succeeds_iff_pending_and_owner_witness :
    parseID "1" = some 1 ∧
    findByID sampleStorePending.orders 1 = some ⟨1, 1, 1, 20, OrderStatusPending⟩ ∧
    ((CancelOrder noFaults (some sampleCustomer) "1" sampleStorePending).1.status = StatusOK ↔
      (OrderStatusPending = OrderStatusPending ∧ sampleCustomer.ID = 1)) ∧
    (CancelOrder noFaults (some sampleCustomer) "1" sampleStorePending).2.orders.map
      Order.Status = [OrderStatusCancelled] :=
  ⟨by decide, rfl,
    (CancelOrder_succeeds_iff_pending_and_owner sampleCustomer "1" 1
      ⟨1, 1, 1, 20, OrderStatusPending⟩ sampleStorePending (by decide) rfl).1,
    by decide⟩

/-- What `CancelOrder` leaves in the store, for every request and every pattern of
persistence failures. -/
theorem CancelOrder_effect (f : Faults) (authUser : Option User) (id : String) (s : Store) :
    (CancelOrder f authUser id s).2 = s ∨
    ∃ (user : User) (orderID : Nat) (order : Order),
      authUser = some user ∧ parseID id = some orderID ∧
      findByID s.orders orderID = some order ∧ order.UserID = user.ID ∧
      order.Status = OrderStatusPending ∧
      (CancelOrder f authUser id s).2 =
        { s with orders := s.orders.map (fun x =>
            if HasID.getID x == orderID then { order with Status := OrderStatusCancelled }
            else x) } := by
  unfold CancelOrder
  cases hid : parseID id with
  | none => exact Or.inl rfl
  | some orderID =>
    simp only
    cases authUser with
    | none => exact Or.inl rfl
    | some user =>
      simp only
      cases hf : dbFirst f 0 s.orders orderID with
      | error e => exact Or.inl rfl
      | ok order =>
        obtain ⟨-, hfind⟩ := dbFirst_ok hf
        have hoid : order.ID = orderID := findByID_getID hfind
        simp only
        by_cases hown : order.UserID = user.ID
        · have h1 : (order.UserID != user.ID) = false := by simp [hown]
          simp only [h1, Bool.false_eq_true, if_false]
          by_cases hst : order.Status = OrderStatusPending
          · have h2 : (order.Status != OrderStatusPending) = false := by simp [hst]
            simp only [h2, Bool.false_eq_true, if_false]
            cases hs : dbSave f 1 s.orders { order with Status := OrderStatusCancelled } with
            | error e => exact Or.inl rfl
            | ok orders =>
              obtain ⟨-, hsave⟩ := dbSave_ok hs
              have hany : s.orders.any (fun r => HasID.getID r ==
                  HasID.getID ({ order with Status := OrderStatusCancelled } : Order)) = true := by
                have := findByID_any hfind
                rw [← hoid] at this
                exact this
              rw [hany, if_pos rfl] at hsave
              rw [show HasID.getID ({ order with Status := OrderStatusCancelled } : Order)
                = orderID from hoid] at hsave
              right
              exact ⟨user, orderID, order, rfl, rfl, hfind, hown, hst, by rw [hsave]⟩
          · have h2 : (order.Status != OrderStatusPending) = true := by simp [hst]
            simp only [h2, if_true]
            exact Or.inl trivial
        · have h1 : (order.UserID != user.ID) = true := by simp [hown]
          simp only [h1, if_true]
          exact Or.inl trivial

/-- What `UpdateOrderStatus` leaves in the store, for every request and every pattern of
persistence failures. -/
theorem UpdateOrderStatus_effect (f : Faults) (authUser : Option User) (id : String)
    (body : JSONBody UpdateOrderStatusRequest) (s : Store) :
    (UpdateOrderStatus f authUser id body s).2 = s ∨
    ∃ (user : User) (orderID : Nat) (order : Order) (status : String),
      authUser = some user ∧ user.Role = RoleAdmin ∧ parseID id = some orderID ∧
      findByID s.orders orderID = some order ∧ body = .parsed ⟨status⟩ ∧
      (status = OrderStatusPending ∨ status = OrderStatusCompleted ∨
        status = OrderStatusCancelled) ∧
      (UpdateOrderStatus f authUser id body s).2 =
        { s with orders := s.orders.map (fun x =>
            if HasID.getID x == orderID then { order with Status := status } else x) } := by
  unfold UpdateOrderStatus
  cases hid : parseID id with
  | none => exact Or.inl rfl
  | some orderID =>
    simp only
    cases authUser with
    | none => exact Or.inl rfl
    | some user =>
      simp only
      by_cases hadm : user.IsAdmin = true
      · simp only [hadm, Bool.not_true, Bool.false_eq_true, if_false]
        cases hf : dbFirst f 0 s.orders orderID with
        | error e => exact Or.inl rfl
        | ok order =>
          obtain ⟨-, hfind⟩ := dbFirst_ok hf
          have hoid : order.ID = orderID := findByID_getID hfind
          simp only
          cases hb : ShouldBindJSON validateUpdateOrderStatusRequest body with
          | error err => exact Or.inl rfl
          | ok req =>
            obtain ⟨hbody, -⟩ := ShouldBindJSON_ok hb
            simp only
            by_cases hst : (req.Status != OrderStatusPending && req.Status != OrderStatusCompleted
                && req.Status != OrderStatusCancelled) = true
            · simp only [hst, if_true]
              exact Or.inl trivial
            · simp only [hst, Bool.false_eq_true, if_false]
              cases hs : dbSave f 1 s.orders { order with Status := req.Status } with
              | error e => exact Or.inl rfl
              | ok orders =>
                obtain ⟨-, hsave⟩ := dbSave_ok hs
                have hany : s.orders.any (fun r => HasID.getID r ==
                    HasID.getID ({ order with Status := req.Status } : Order)) = true := by
                  have := findByID_any hfind
                  rw [← hoid] at this
                  exact this
                rw [hany, if_pos rfl] at hsave
                rw [show HasID.getID ({ order with Status := req.Status } : Order)
                  = orderID from hoid] at hsave
                right
                refine ⟨user, orderID, order, req.Status, rfl, ?_, rfl, hfind, hbody, ?_,
                  by rw [hsave]⟩
                · simpa [User.IsAdmin] using hadm
                · simp only [Bool.and_eq_true, bne_iff_ne, ne_eq, not_and, not_not] at hst
                  by_cases a : req.Status = OrderStatusPending
                  · exact Or.inl a
                  · by_cases b : req.Status = OrderStatusCompleted
                    · exact Or.inr (Or.inl b)
                    · exact Or.inr (Or.inr (hst ⟨a, b⟩))
      · have : (!user.IsAdmin) = true := by simpa using hadm
        simp only [this, if_true]
        exact Or.inl trivial

theorem UpdateOrderStatus_admin_valid (user : User) (id : String) (orderID : Nat)
    (order : Order) (status : String) (s : Store)
    (hid : parseID id = some orderID) (horder : findByID s.orders orderID = some order)
    (hadmin : user.Role = RoleAdmin)
    (hst : status = OrderStatusPending ∨ status = OrderStatusCompleted ∨
      status = OrderStatusCancelled) :
    UpdateOrderStatus noFaults (some user) id (.parsed ⟨status⟩) s =
      (⟨StatusOK, .order (plainOrder { order with Status := status })⟩,
        { s with orders := s.orders.map (fun x =>
            if HasID.getID x == orderID then { order with Status := status } else x) }) := by
  have hoid : order.ID = orderID := findByID_getID horder
  have hadm : user.IsAdmin = true := by simp [User.IsAdmin, hadmin]
  have hne : (status == "") = false := by
    rcases hst with h | h | h <;> subst h <;> decide
  have hchk : (status != OrderStatusPending && status != OrderStatusCompleted
      && status != OrderStatusCancelled) = false := by
    rcases hst with h | h | h <;> subst h <;> decide
  have hfound : findByID s.orders
      (HasID.getID ({ order with Status := status } : Order)) = some order := by
    show findByID s.orders order.ID = some order
    rw [hoid]; exact horder
  have hsave := dbSave_found 1 s.orders { order with Status := status } order hfound
  rw [show HasID.getID ({ order with Status := status } : Order) = orderID from hoid] at hsave
  unfold UpdateOrderStatus
  simp only [hid, hadm, Bool.not_true, Bool.false_eq_true, if_false,
    dbFirst_found 0 s.orders orderID order horder, ShouldBindJSON,
    validateUpdateOrderStatusRequest, requiredString, hne, hchk, hsave]

theorem UpdateOrderStatus_not_admin (f : Faults) (user : User) (id : String) (orderID : Nat)
    (body : JSONBody UpdateOrderStatusRequest) (s : Store)
    (hid : parseID id = some orderID) (hrole : user.Role ≠ RoleAdmin) :
    UpdateOrderStatus f (some user) id body s =
      (⟨StatusForbidden, .error "Unauthorized, only admins can update order status"⟩, s) := by
  have hadm : (!user.IsAdmin) = true := by simp [User.IsAdmin, hrole]
  unfold UpdateOrderStatus
  simp only [hid, hadm, if_true]

/-- C6: for every existing order, addressed by a path parameter that parses to its
identifier: `UpdateOrderStatus` called by an admin with status `pending`, `completed` or
`cancelled` (and no persistence failure) answers 200 and the stored order then has that
status, no other order changing; called by an authenticated non-admin it answers 403,
whatever the body; called by an admin with any other non-empty status it answers 400
`Invalid order status`; in the 403 and 400 cases the store is unchanged. -/
theorem UpdateOrderStatus_admin_sets_fixed_status (user : User) (id : String)
    (orderID : Nat) (order : Order) (status : String) (s : Store)
    (hid : parseID id = some orderID) (horder : findByID s.orders orderID = some order) :
    (user.Role = RoleAdmin →
      (status = OrderStatusPending ∨ status = OrderStatusCompleted ∨
        status = OrderStatusCancelled) →
      (UpdateOrderStatus noFaults (some user) id (.parsed ⟨status⟩) s).1 =
        ⟨StatusOK, .order (plainOrder { order with Status := status })⟩ ∧
      findByID (UpdateOrderStatus noFaults (some user) id (.parsed ⟨status⟩) s).2.orders
        orderID = some { order with Status := status } ∧
      (∀ other, other ≠ orderID →
        findByID (UpdateOrderStatus noFaults (some user) id (.parsed ⟨status⟩) s).2.orders
          other = findByID s.orders other)) ∧
    (user.Role ≠ RoleAdmin →
      ∀ (f : Faults) (body : JSONBody UpdateOrderStatusRequest),
        UpdateOrderStatus f (some user) id body s =
          (⟨StatusForbidden, .error "Unauthorized, only admins can update order status"⟩,
            s)) ∧
    (user.Role = RoleAdmin → status ≠ "" →
      status ≠ OrderStatusPending → status ≠ OrderStatusCompleted →
      status ≠ OrderStatusCancelled →
      UpdateOrderStatus noFaults (some user) id (.parsed ⟨status⟩) s =
        (⟨StatusBadRequest, .error "Invalid order status"⟩, s)) := by
  have hoid : order.ID = orderID := findByID_getID horder
  refine ⟨?_, ?_, ?_⟩
  · intro hadmin hst
    rw [UpdateOrderStatus_admin_valid user id orderID order status s hid horder hadmin hst]
    refine ⟨rfl, ?_, ?_⟩
    · have := findByID_replace_same ({ order with Status := status } : Order)
        s.orders order (by
          show findByID s.orders order.ID = some order
          rw [hoid]; exact horder)
      rw [show HasID.getID ({ order with Status := status } : Order) = orderID
        from hoid] at this
      exact this
    · intro other hother
      have := findByID_replace_other ({ order with Status := status } : Order)
        other (by
          show other ≠ order.ID
          rw [hoid]; exact hother) s.orders
      rw [show HasID.getID ({ order with Status := status } : Order) = orderID
        from hoid] at this
      exact this
  · intro hrole f body
    exact UpdateOrderStatus_not_admin f user id orderID body s hid hrole
  · intro hadmin hne h1 h2 h3
    have hadm : user.IsAdmin = true := by simp [User.IsAdmin, hadmin]
    have hne1 : (status == "") = false := by simpa using hne
    have hchk : (status != OrderStatusPending && status != OrderStatusCompleted
        && status != OrderStatusCancelled) = true := by
      simp [h1, h2, h3]
    unfold UpdateOrderStatus
    simp only [hid, hadm, Bool.not_true, Bool.false_eq_true, if_false,
      dbFirst_found 0 s.orders orderID order horder, ShouldBindJSON,
      validateUpdateOrderStatusRequest, requiredString, hne1, hchk, if_true]

/-- C6, on the fixture with one pending order: the admin completes it. -/
theorem UpdateOrderStatus_admin_sets_fixed_status_witness :
    parseID "1" = some 1 ∧
    findByID sampleStorePending.orders 1 = some ⟨1, 1, 1, 20, OrderStatusPending⟩ ∧
    (sampleAdmin.Role = RoleAdmin →
      (OrderStatusCompleted = OrderStatusPending ∨
        OrderStatusCompleted = OrderStatusCompleted ∨
        OrderStatusCompleted = OrderStatusCancelled) →
      (UpdateOrderStatus noFaults (some sampleAdmin) "1" (.parsed ⟨OrderStatusCompleted⟩)
        sampleStorePending).1 =
        ⟨StatusOK, .order (plainOrder ⟨1, 1, 1, 20, OrderStatusCompleted⟩)⟩ ∧
      findByID (UpdateOrderStatus noFaults (some sampleAdmin) "1"
        (.parsed ⟨OrderStatusCompleted⟩) sampleStorePending).2.orders 1 =
        some ⟨1, 1, 1, 20, OrderStatusCompleted⟩ ∧
      (∀ other, other ≠ 1 →
        findByID (UpdateOrderStatus noFaults (some sampleAdmin) "1"
          (.parsed ⟨OrderStatusCompleted⟩) sampleStorePending).2.orders other =
          findByID sampleStorePending.orders other)) ∧
    sampleAdmin.Role = RoleAdmin :=
  ⟨by decide, rfl,
    (UpdateOrderStatus_admin_sets_fixed_status sampleAdmin "1" 1
      ⟨1, 1, 1, 20, OrderStatusPending⟩ OrderStatusCompleted sampleStorePending
      (by decide) rfl).1,
    by decide⟩

theorem findByID_append_left {α : Type} [HasID α] (rows extra : List α) (id : Nat) (r : α)
    (h : findByID rows id = some r) : findByID (rows ++ extra) id = some r := by
  unfold findByID at h ⊢
  rw [List.find?_append, h]
  rfl

/-- C7 (as amended): an order whose stored status is `completed` or `cancelled` keeps it
through every `CreateOrder` request, every `CancelOrder` request, and every
`UpdateOrderStatus` request of a caller who is not an admin, whatever the inputs and the
persistence failures (the stored order is not changed at all). -/
theorem terminal_status_kept_except_by_admin_update (f : Faults) (authUser : Option User)
    (s : Store) (orderID : Nat) (order : Order)
    (horder : findByID s.orders orderID = some order)
    (hterm : order.Status = OrderStatusCompleted ∨ order.Status = OrderStatusCancelled) :
    (∀ body, findByID (CreateOrder f authUser body s).2.orders orderID = some order) ∧
    (∀ id, findByID (CancelOrder f authUser id s).2.orders orderID = some order) ∧
    ((∀ user, authUser = some user → user.Role ≠ RoleAdmin) →
      ∀ id body,
        findByID (UpdateOrderStatus f authUser id body s).2.orders orderID = some order) := by
  refine ⟨?_, ?_, ?_⟩
  · intro body
    rcases CreateOrder_effect f authUser body s with h | ⟨_, _, _, o, created, _, _, _, _, _,
      h, _⟩
    · rw [h]; exact horder
    · rw [h]
      exact findByID_append_left s.orders [o] orderID order horder
  · intro id
    rcases CancelOrder_effect f authUser id s with h | ⟨user, oid, o, _, _, hfind, _, hst, h⟩
    · rw [h]; exact horder
    · rw [h]
      have hne : orderID ≠ oid := by
        intro e
        subst e
        rw [horder] at hfind
        cases hfind
        rcases hterm with t | t <;> rw [t] at hst <;> exact absurd hst (by decide)
      have hoid : o.ID = oid := findByID_getID hfind
      have := findByID_replace_other ({ o with Status := OrderStatusCancelled } : Order)
        orderID (by
          show orderID ≠ o.ID
          rw [hoid]; exact hne) s.orders
      rw [show HasID.getID ({ o with Status := OrderStatusCancelled } : Order) = oid
        from hoid] at this
      show findByID (s.orders.map _) orderID = some order
      rw [this]
      exact horder
  · intro hna id body
    rcases UpdateOrderStatus_effect f authUser id body s with h |
      ⟨user, _, _, _, hu, hadmin, _⟩
    · rw [h]; exact horder
    · exact absurd hadmin (hna user hu)

/-- C7, on the fixture with one completed order: its owner asks to cancel it. -/
theorem terminal_status_kept_except_by_admin_update_witness :
    findByID sampleStoreCompleted.orders 1 = some ⟨1, 1, 1, 20, OrderStatusCompleted⟩ ∧
    (∀ id, findByID (CancelOrder noFaults (some sampleCustomer) id
      sampleStoreCompleted).2.orders 1 = some ⟨1, 1, 1, 20, OrderStatusCompleted⟩) :=
  ⟨rfl,
    (terminal_status_kept_except_by_admin_update noFaults (some sampleCustomer)
      sampleStoreCompleted 1 ⟨1, 1, 1, 20, OrderStatusCompleted⟩ rfl (Or.inl rfl)).2.1⟩

/-- C7 fails as stated: an admin's `UpdateOrderStatus` request moves a `completed` order
back to `pending`. -/
theorem UpdateOrderStatus_reopens_completed_order :
    (findByID sampleStoreCompleted.orders 1).map Order.Status = some OrderStatusCompleted ∧
    (UpdateOrderStatus noFaults (some sampleAdmin) "1" (.parsed ⟨OrderStatusPending⟩)
      sampleStoreCompleted).1.status = StatusOK ∧
    (findByID (UpdateOrderStatus noFaults (some sampleAdmin) "1"
      (.parsed ⟨OrderStatusPending⟩) sampleStoreCompleted).2.orders 1).map Order.Status =
      some OrderStatusPending := by
  decide

/-- C8: if every stored order has status `pending`, `completed` or `cancelled`, the same
holds after any request to `CreateOrder`, `CancelOrder` or `UpdateOrderStatus`, whatever
the caller, the inputs and the persistence failures; an order row that `CreateOrder` adds
has status `pending`, and the other two handlers add and remove no order row. -/
theorem order_status_stays_valid (f : Faults) (authUser : Option User) (s : Store)
    (hinv : ∀ o ∈ s.orders, o.Status = OrderStatusPending ∨
      o.Status = OrderStatusCompleted ∨ o.Status = OrderStatusCancelled) :
    (∀ body,
      (∀ o ∈ (CreateOrder f authUser body s).2.orders, o.Status = OrderStatusPending ∨
        o.Status = OrderStatusCompleted ∨ o.Status = OrderStatusCancelled) ∧
      (∀ o ∈ (CreateOrder f authUser body s).2.orders,
        o ∈ s.orders ∨ o.Status = OrderStatusPending)) ∧
    (∀ id,
      (∀ o ∈ (CancelOrder f authUser id s).2.orders, o.Status = OrderStatusPending ∨
        o.Status = OrderStatusCompleted ∨ o.Status = OrderStatusCancelled) ∧
      (CancelOrder f authUser id s).2.orders.map Order.ID = s.orders.map Order.ID) ∧
    (∀ id body,
      (∀ o ∈ (UpdateOrderStatus f authUser id body s).2.orders,
        o.Status = OrderStatusPending ∨
        o.Status = OrderStatusCompleted ∨ o.Status = OrderStatusCancelled) ∧
      (UpdateOrderStatus f authUser id body s).2.orders.map Order.ID =
        s.orders.map Order.ID) := by
  have hmap : ∀ (oid : Nat) (o1 : Order), o1.ID = oid →
      (o1.Status = OrderStatusPending ∨ o1.Status = OrderStatusCompleted ∨
        o1.Status = OrderStatusCancelled) →
      (∀ o ∈ s.orders.map (fun x => if HasID.getID x == oid then o1 else x),
        o.Status = OrderStatusPending ∨ o.Status = OrderStatusCompleted ∨
          o.Status = OrderStatusCancelled) ∧
      (s.orders.map (fun x => if HasID.getID x == oid then o1 else x)).map Order.ID =
        s.orders.map Order.ID := by
    intro oid o1 hid hst
    constructor
    · intro o ho
      obtain ⟨x, hx, rfl⟩ := List.mem_map.mp ho
      by_cases hc : (HasID.getID x == oid) = true
      · rw [if_pos hc]; exact hst
      · rw [if_neg hc]; exact hinv x hx
    · rw [List.map_map]
      apply List.map_congr_left
      intro x _
      simp only [Function.comp]
      by_cases hc : (HasID.getID x == oid) = true
      · rw [if_pos hc, hid]
        have : HasID.getID x = oid := by simpa using hc
        exact this.symm
      · rw [if_neg hc]
  refine ⟨?_, ?_, ?_⟩
  · intro body
    rcases CreateOrder_effect f authUser body s with h | ⟨_, _, _, o, created, _, _, _, _, _,
      h, _, _, hst, _⟩
    · rw [h]
      exact ⟨hinv, fun o ho => Or.inl ho⟩
    · rw [h]
      constructor
      · intro x hx
        rcases List.mem_append.mp hx with hx | hx
        · exact hinv x hx
        · rw [List.mem_singleton.mp hx]; exact Or.inl hst
      · intro x hx
        rcases List.mem_append.mp hx with hx | hx
        · exact Or.inl hx
        · rw [List.mem_singleton.mp hx]; exact Or.inr hst
  · intro id
    rcases CancelOrder_effect f authUser id s with h | ⟨_, oid, o, _, _, hfind, _, _, h⟩
    · rw [h]; exact ⟨hinv, rfl⟩
    · rw [h]
      exact hmap oid { o with Status := OrderStatusCancelled } (findByID_getID hfind)
        (Or.inr (Or.inr rfl))
  · intro id body
    rcases UpdateOrderStatus_effect f authUser id body s with h |
      ⟨_, oid, o, status, _, _, _, hfind, _, hst, h⟩
    · rw [h]; exact ⟨hinv, rfl⟩
    · rw [h]
      exact hmap oid { o with Status := status } (findByID_getID hfind) hst

/-- C8, on the fixture with one pending order: the admin sets it to `cancelled`. -/
theorem order_status_stays_valid_witness :
    (∀ o ∈ sampleStorePending.orders, o.Status = OrderStatusPending ∨
      o.Status = OrderStatusCompleted ∨ o.Status = OrderStatusCancelled) ∧
    ((∀ o ∈ (UpdateOrderStatus noFaults (some sampleAdmin) "1"
        (.parsed ⟨OrderStatusCancelled⟩) sampleStorePending).2.orders,
        o.Status = OrderStatusPending ∨
        o.Status = OrderStatusCompleted ∨ o.Status = OrderStatusCancelled) ∧
      (UpdateOrderStatus noFaults (some sampleAdmin) "1"
        (.parsed ⟨OrderStatusCancelled⟩) sampleStorePending).2.orders.map Order.ID =
        sampleStorePending.orders.map Order.ID) ∧
    (UpdateOrderStatus noFaults (some sampleAdmin) "1"
      (.parsed ⟨OrderStatusCancelled⟩) sampleStorePending).2.orders.map Order.Status =
      [OrderStatusCancelled] :=
  ⟨by simp [sampleStorePending],
    (order_status_stays_valid noFaults (some sampleAdmin) sampleStorePending
      (by simp [sampleStorePending])).2.2 "1" (.parsed ⟨OrderStatusCancelled⟩),
    by decide⟩

/-! ## authentication and authorization gates -/

theorem ShouldBindJSON_valid {α : Type} (validate : α → List FieldError) (v : α)
    (h : validate v = []) : ShouldBindJSON validate (.parsed v) = .ok v := by
  unfold ShouldBindJSON
  simp only [h]

/-- C9 (as amended): a request that carries no resolved caller identity is answered with
401 `Unauthenticated, login is required`, and the store is unchanged, by `ListAddresses`
always, by `CreateAddress`, `CreateProduct` and `CreateOrder` when the body passes
binding, by `UpdateProduct`, `PatchProduct`, `DeleteProduct`, `CancelOrder` and
`UpdateOrderStatus` when the `id` path parameter is a positive integer, and by `ListOrders`
when `user_id`, `page` and `pageSize` are positive integers. -/
theorem unauthenticated_request_gets_401_after_input_checks (f : Faults) (s : Store) :
    ListAddresses f none s =
      (⟨StatusUnauthorized, .error "Unauthenticated, login is required"⟩, s) ∧
    (∀ req, validateCreateAddressRequest req = [] →
      CreateAddress f none (.parsed req) s =
        (⟨StatusUnauthorized, .error "Unauthenticated, login is required"⟩, s)) ∧
    (∀ req, validateCreateProductRequest req = [] →
      CreateProduct f none (.parsed req) s =
        (⟨StatusUnauthorized, .error "Unauthenticated, login is required"⟩, s)) ∧
    (∀ id body, (parseID id).isSome = true →
      UpdateProduct f none id body s =
        (⟨StatusUnauthorized, .error "Unauthenticated, login is required"⟩, s)) ∧
    (∀ id body, (parseID id).isSome = true →
      PatchProduct f none id body s =
        (⟨StatusUnauthorized, .error "Unauthenticated, login is required"⟩, s)) ∧
    (∀ id, (parseID id).isSome = true →
      DeleteProduct f none id s =
        (⟨StatusUnauthorized, .error "Unauthenticated, login is required"⟩, s)) ∧
    (∀ req, validateCreateOrderRequest req = [] →
      CreateOrder f none (.parsed req) s =
        (⟨StatusUnauthorized, .error "Unauthenticated, login is required"⟩, s)) ∧
    (∀ user_id page pageSize, (parseID user_id).isSome = true →
      (parsePositive page "1").isSome = true → (parsePositive pageSize "10").isSome = true →
      ListOrders f none user_id page pageSize s =
        (⟨StatusUnauthorized, .error "Unauthenticated, login is required"⟩, s)) ∧
    (∀ id, (parseID id).isSome = true →
      CancelOrder f none id s =
        (⟨StatusUnauthorized, .error "Unauthenticated, login is required"⟩, s)) ∧
    (∀ id body, (parseID id).isSome = true →
      UpdateOrderStatus f none id body s =
        (⟨StatusUnauthorized, .error "Unauthenticated, login is required"⟩, s)) := by
  refine ⟨rfl, ?_, ?_, ?_, ?_, ?_, ?_, ?_, ?_, ?_⟩
  · intro req h
    unfold CreateAddress
    rw [ShouldBindJSON_valid _ req h]
  · intro req h
    unfold CreateProduct
    rw [ShouldBindJSON_valid _ req h]
  · intro id body h
    obtain ⟨n, hn⟩ := Option.isSome_iff_exists.mp h
    unfold UpdateProduct
    rw [hn]
  · intro id body h
    obtain ⟨n, hn⟩ := Option.isSome_iff_exists.mp h
    unfold PatchProduct
    rw [hn]
  · intro id h
    obtain ⟨n, hn⟩ := Option.isSome_iff_exists.mp h
    unfold DeleteProduct
    rw [hn]
  · intro req h
    unfold CreateOrder
    rw [ShouldBindJSON_valid _ req h]
  · intro user_id page pageSize h1 h2 h3
    obtain ⟨n, hn⟩ := Option.isSome_iff_exists.mp h1
    obtain ⟨p, hp⟩ := Option.isSome_iff_exists.mp h2
    obtain ⟨q, hq⟩ := Option.isSome_iff_exists.mp h3
    unfold ListOrders
    rw [hn, hp, hq]
  · intro id h
    obtain ⟨n, hn⟩ := Option.isSome_iff_exists.mp h
    unfold CancelOrder
    rw [hn]
  · intro id body h
    obtain ⟨n, hn⟩ := Option.isSome_iff_exists.mp h
    unfold UpdateOrderStatus
    rw [hn]

/-- C9 fails as stated: without a caller identity, `CancelOrder` answers 400 to a path
parameter that is not a number, `CreateOrder` answers 500 to a body that does not decode
and 400 to one that lacks its fields, `CreateAddress` answers 400 to a body that does not
decode, and `ListOrders` answers 400 to `page=0`. -/
theorem unauthenticated_request_rejected_before_identity_check :
    (CancelOrder noFaults none "abc" sampleStore).1 =
      ⟨StatusBadRequest, .error "Invalid order ID"⟩ ∧
    (CreateOrder noFaults none .malformed sampleStore).1 =
      ⟨StatusInternalServerError, .error "An error occurred. Please try again."⟩ ∧
    (CreateOrder noFaults none (.parsed ⟨0, none⟩) sampleStore).1 =
      ⟨StatusBadRequest, .fieldErrors [("address_id", "This field is required."),
        ("order_items", "This field is required.")]⟩ ∧
    (CreateAddress noFaults none .malformed sampleStore).1 =
      ⟨StatusBadRequest, .error "Invalid input data"⟩ ∧
    (ListOrders noFaults none "1" (some "0") none sampleStore).1 =
      ⟨StatusBadRequest, .error "Invalid page number"⟩ := by
  decide

/-- C10: for a caller who is unauthenticated or whose role is not `admin`, no request to
`CreateProduct`, `UpdateProduct`, `PatchProduct` or `DeleteProduct` changes the store (the
product table included), whatever the inputs and the persistence failures; and an
authenticated non-admin caller is answered 403 by `CreateProduct` when the body passes
binding and by the other three when the `id` path parameter is a positive integer. -/
theorem product_mutations_are_admin_only (f : Faults) (authUser : Option User) (s : Store)
    (hna : ∀ user, authUser = some user → user.Role ≠ RoleAdmin) :
    (∀ body, (CreateProduct f authUser body s).2 = s) ∧
    (∀ id body, (UpdateProduct f authUser id body s).2 = s) ∧
    (∀ id body, (PatchProduct f authUser id body s).2 = s) ∧
    (∀ id, (DeleteProduct f authUser id s).2 = s) ∧
    (authUser.isSome = true →
      (∀ req, validateCreateProductRequest req = [] →
        (CreateProduct f authUser (.parsed req) s).1.status = StatusForbidden) ∧
      (∀ id body, (parseID id).isSome = true →
        (UpdateProduct f authUser id body s).1.status = StatusForbidden) ∧
      (∀ id body, (parseID id).isSome = true →
        (PatchProduct f authUser id body s).1.status = StatusForbidden) ∧
      (∀ id, (parseID id).isSome = true →
        (DeleteProduct f authUser id s).1.status = StatusForbidden)) := by
  cases authUser with
  | none =>
    refine ⟨?_, ?_, ?_, ?_, fun h => by simp at h⟩
    · intro body
      unfold CreateProduct
      cases ShouldBindJSON validateCreateProductRequest body <;> rfl
    · intro id body
      unfold UpdateProduct
      cases parseID id <;> rfl
    · intro id body
      unfold PatchProduct
      cases parseID id <;> rfl
    · intro id
      unfold DeleteProduct
      cases parseID id <;> rfl
  | some user =>
    have hadm : (!user.IsAdmin) = true := by
      have := hna user rfl
      simp [User.IsAdmin, this]
    refine ⟨?_, ?_, ?_, ?_, fun _ => ⟨?_, ?_, ?_, ?_⟩⟩
    · intro body
      unfold CreateProduct
      cases ShouldBindJSON validateCreateProductRequest body with
      | error e => rfl
      | ok req => simp only [hadm, if_true]
    · intro id body
      unfold UpdateProduct
      cases parseID id with
      | none => rfl
      | some n => simp only [hadm, if_true]
    · intro id body
      unfold PatchProduct
      cases parseID id with
      | none => rfl
      | some n => simp only [hadm, if_true]
    · intro id
      unfold DeleteProduct
      cases parseID id with
      | none => rfl
      | some n => simp only [hadm, if_true]
    · intro req h
      unfold CreateProduct
      rw [ShouldBindJSON_valid _ req h]
      simp only [hadm, if_true]
    · intro id body h
      obtain ⟨n, hn⟩ := Option.isSome_iff_exists.mp h
      unfold UpdateProduct
      rw [hn]
      simp only [hadm, if_true]
    · intro id body h
      obtain ⟨n, hn⟩ := Option.isSome_iff_exists.mp h
      unfold PatchProduct
      rw [hn]
      simp only [hadm, if_true]
    · intro id h
      obtain ⟨n, hn⟩ := Option.isSome_iff_exists.mp h
      unfold DeleteProduct
      rw [hn]
      simp only [hadm, if_true]

/-- C10, on the fixture of `TestCreateProduct`: a customer sends the product of the test. -/
theorem product_mutations_are_admin_only_witness :
    (∀ user, some sampleCustomer = some user → user.Role ≠ RoleAdmin) ∧
    validateCreateProductRequest
      ⟨"Product A", "Description of Product A", 10, 100, "Category A"⟩ = [] ∧
    (CreateProduct noFaults (some sampleCustomer)
      (.parsed ⟨"Product A", "Description of Product A", 10, 100, "Category A"⟩)
      sampleStore).1.status = StatusForbidden ∧
    (CreateProduct noFaults (some sampleCustomer)
      (.parsed ⟨"Product A", "Description of Product A", 10, 100, "Category A"⟩)
      sampleStore).2 = sampleStore :=
  ⟨fun user h => by cases h; decide, by decide!,
    ((product_mutations_are_admin_only noFaults (some sampleCustomer) sampleStore
      (fun user h => by cases h; decide)).2.2.2.2 rfl).1 _ (by decide!),
    (product_mutations_are_admin_only noFaults (some sampleCustomer) sampleStore
      (fun user h => by cases h; decide)).1 _⟩

/-! ## listings -/

theorem mem_of_mem_limitOffset {α : Type} (pageSize offset : Int) (rows : List α) (a : α)
    (h : a ∈ limitOffset pageSize offset rows) : a ∈ rows := by
  unfold limitOffset at h
  simp only at h
  have hdrop : ∀ b, b ∈ (if 0 < offset then rows.drop offset.toNat else rows) → b ∈ rows := by
    intro b hb
    split at hb
    · exact List.mem_of_mem_drop hb
    · exact hb
  split at h
  · exact hdrop a (List.mem_of_mem_take h)
  · exact hdrop a h

theorem ListOrders_store (f : Faults) (authUser : Option User) (user_id : String)
    (page pageSize : Option String) (s : Store) :
    (ListOrders f authUser user_id page pageSize s).2 = s := by
  unfold ListOrders
  repeat' split
  all_goals rfl

/-- The response of `ListOrders` to a caller who may see the orders of `userID`, when the
query succeeds. -/
theorem ListOrders_allowed (f : Faults) (user : User) (user_id : String)
    (page pageSize : Option String) (userID : Nat) (p sz : Int) (s : Store)
    (hid : parseID user_id = some userID) (hp : parsePositive page "1" = some p)
    (hsz : parsePositive pageSize "10" = some sz)
    (hallow : (!user.IsAdmin && user.ID != userID) = false) (h0 : f 0 = none) :
    ListOrders f (some user) user_id page pageSize s =
      (⟨StatusOK, .orderList
        { Page := p, PageSize := sz,
          TotalCount :=
            (match f 1 with
              | some _ => 0
              | none => ((s.orders.filter (fun o => o.UserID == userID)).length : Int)),
          TotalPages := totalPages
            (match f 1 with
              | some _ => 0
              | none => ((s.orders.filter (fun o => o.UserID == userID)).length : Int)) sz,
          Orders := (limitOffset sz (wrapInt64 ((p - 1) * sz))
            (s.orders.filter (fun o => o.UserID == userID))).map (preloadOrder s) }⟩, s) := by
  unfold ListOrders
  simp only [hid, hp, hsz, hallow, Bool.false_eq_true, if_false, h0]

theorem ListOrders_denied (f : Faults) (user : User) (user_id : String)
    (page pageSize : Option String) (userID : Nat) (p sz : Int) (s : Store)
    (hid : parseID user_id = some userID) (hp : parsePositive page "1" = some p)
    (hsz : parsePositive pageSize "10" = some sz)
    (hdeny : (!user.IsAdmin && user.ID != userID) = true) :
    ListOrders f (some user) user_id page pageSize s =
      (⟨StatusForbidden, .error "Unauthorized, you can only view your own orders"⟩, s) := by
  unfold ListOrders
  simp only [hid, hp, hsz, hdeny, if_true]

theorem denied_iff (user : User) (userID : Nat) :
    (!user.IsAdmin && user.ID != userID) = true ↔
      (user.Role ≠ RoleAdmin ∧ user.ID ≠ userID) := by
  simp [User.IsAdmin]

/-- C11: for every authenticated caller and every `ListOrders` request whose `user_id`,
`page` and `pageSize` are accepted, the response is 403 if and only if the caller is not an
admin and the caller's identifier differs from `user_id` (whatever the persistence
failures); otherwise, when no persistence call fails, it is 200 and every returned order
is a stored order whose owner is `user_id`; the store is never changed. -/
theorem ListOrders_forbidden_iff_not_admin_and_not_owner (user : User) (user_id : String)
    (page pageSize : Option String) (userID : Nat) (p sz : Int) (s : Store)
    (hid : parseID user_id = some userID) (hp : parsePositive page "1" = some p)
    (hsz : parsePositive pageSize "10" = some sz) :
    (∀ f : Faults,
      ((ListOrders f (some user) user_id page pageSize s).1.status = StatusForbidden ↔
        (user.Role ≠ RoleAdmin ∧ user.ID ≠ userID)) ∧
      (ListOrders f (some user) user_id page pageSize s).2 = s) ∧
    (¬ (user.Role ≠ RoleAdmin ∧ user.ID ≠ userID) →
      ∃ r : OrderListResponse,
        (ListOrders noFaults (some user) user_id page pageSize s).1 =
          ⟨StatusOK, .orderList r⟩ ∧
        ∀ o ∈ r.Orders, ∃ row ∈ s.orders, row.UserID = userID ∧ o = preloadOrder s row) := by
  constructor
  · intro f
    refine ⟨?_, ListOrders_store f _ _ _ _ s⟩
    by_cases hd : (!user.IsAdmin && user.ID != userID) = true
    · rw [ListOrders_denied f user user_id page pageSize userID p sz s hid hp hsz hd]
      exact ⟨fun _ => (denied_iff user userID).mp hd, fun _ => rfl⟩
    · have hd1 : (!user.IsAdmin && user.ID != userID) = false := by simpa using hd
      constructor
      · intro h
        exfalso
        unfold ListOrders at h
        simp only [hid, hp, hsz, hd1, Bool.false_eq_true, if_false] at h
        cases h0 : f 0 with
        | none => rw [h0] at h; simp at h
        | some e => rw [h0] at h; simp at h
      · intro h
        exact absurd ((denied_iff user userID).mpr h) hd
  · intro hallow
    have hd1 : (!user.IsAdmin && user.ID != userID) = false := by
      cases hc : (!user.IsAdmin && user.ID != userID)
      · rfl
      · exact absurd ((denied_iff user userID).mp hc) hallow
    rw [ListOrders_allowed noFaults user user_id page pageSize userID p sz s hid hp hsz hd1 rfl]
    refine ⟨_, rfl, ?_⟩
    intro o ho
    obtain ⟨row, hrow, rfl⟩ := List.mem_map.mp ho
    have hmem := mem_of_mem_limitOffset _ _ _ row hrow
    rw [List.mem_filter] at hmem
    exact ⟨row, hmem.1, by simpa using hmem.2, rfl⟩

/-- C11, on the fixture with one pending order of customer 1: the customer lists the
orders of user 1 (allowed), and asks for those of user 2 (403). -/
theorem ListOrders_forbidden_iff_not_admin_and_not_owner_witness :
    parseID "2" = some 2 ∧ parsePositive none "1" = some 1 ∧
    parsePositive none "10" = some 10 ∧
    ((ListOrders noFaults (some sampleCustomer) "2" none none sampleStorePending).1.status =
        StatusForbidden ↔
      (sampleCustomer.Role ≠ RoleAdmin ∧ sampleCustomer.ID ≠ 2)) ∧
    (ListOrders noFaults (some sampleCustomer) "2" none none sampleStorePending).1.status =
      StatusForbidden ∧
    (ListOrders noFaults (some sampleCustomer) "1" none none sampleStorePending).1.status =
      StatusOK :=
  ⟨by decide, by decide, by decide,
    ((ListOrders_forbidden_iff_not_admin_and_not_owner sampleCustomer "2" none none 2 1 10
      sampleStorePending (by decide) (by decide) (by decide)).1 noFaults).1,
    by decide, by decide⟩

theorem parsePositive_pos {param : Option String} {dflt : String} {n : Int}
    (h : parsePositive param dflt = some n) : 0 < n := by
  unfold parsePositive at h
  cases ha : Atoi (param.getD dflt) with
  | none => rw [ha] at h; cases h
  | some m =>
    rw [ha] at h
    simp only at h
    by_cases hm : m ≤ 0
    · rw [if_pos hm] at h; cases h
    · rw [if_neg hm] at h; cases h; omega

/-- The page count is the ceiling of rows over page size: the least `t` with
`rows ≤ t * pageSize`. -/
theorem totalPages_spec (n : Nat) (sz : Int) (hsz : 0 < sz) :
    (totalPages n sz - 1) * sz < n ∧ (n : Int) ≤ totalPages n sz * sz := by
  have hq : (0 : ℚ) < (sz : ℚ) := by exact_mod_cast hsz
  unfold totalPages
  constructor
  · have h1 : ((⌈((n : Int) : ℚ) / (sz : ℚ)⌉ : Int) : ℚ) < ((n : Int) : ℚ) / (sz : ℚ) + 1 :=
      Int.ceil_lt_add_one _
    have h2 : (((⌈((n : Int) : ℚ) / (sz : ℚ)⌉ : Int) : ℚ) - 1) * (sz : ℚ) < ((n : Int) : ℚ) := by
      have : ((⌈((n : Int) : ℚ) / (sz : ℚ)⌉ : Int) : ℚ) - 1 < ((n : Int) : ℚ) / (sz : ℚ) := by
        linarith
      calc (((⌈((n : Int) : ℚ) / (sz : ℚ)⌉ : Int) : ℚ) - 1) * (sz : ℚ)
          < ((n : Int) : ℚ) / (sz : ℚ) * (sz : ℚ) := mul_lt_mul_of_pos_right this hq
        _ = ((n : Int) : ℚ) := div_mul_cancel₀ _ (ne_of_gt hq)
    exact_mod_cast h2
  · have h1 : ((n : Int) : ℚ) / (sz : ℚ) ≤ ((⌈((n : Int) : ℚ) / (sz : ℚ)⌉ : Int) : ℚ) :=
      Int.le_ceil _
    have h2 : ((n : Int) : ℚ) ≤ ((⌈((n : Int) : ℚ) / (sz : ℚ)⌉ : Int) : ℚ) * (sz : ℚ) := by
      calc ((n : Int) : ℚ) = ((n : Int) : ℚ) / (sz : ℚ) * (sz : ℚ) :=
            (div_mul_cancel₀ _ (ne_of_gt hq)).symm
        _ ≤ ((⌈((n : Int) : ℚ) / (sz : ℚ)⌉ : Int) : ℚ) * (sz : ℚ) :=
            mul_le_mul_of_nonneg_right h1 (le_of_lt hq)
    exact_mod_cast h2

theorem totalPages_zero (sz : Int) : totalPages ((0 : Nat) : Int) sz = 0 := by
  unfold totalPages
  simp

/-- The response of `ListProducts` to accepted parameters when the query succeeds. -/
theorem ListProducts_ok (f : Faults) (page pageSize : Option String) (p sz : Int) (s : Store)
    (hp : parsePositive page "1" = some p) (hsz : parsePositive pageSize "10" = some sz)
    (h0 : f 0 = none) :
    ListProducts f page pageSize s =
      (⟨StatusOK, .productList
        { Page := p, PageSize := sz,
          TotalCount :=
            (match f 1 with
              | some _ => 0
              | none => (s.products.length : Int)),
          TotalPages := totalPages
            (match f 1 with
              | some _ => 0
              | none => (s.products.length : Int)) sz,
          Products := limitOffset sz (wrapInt64 ((p - 1) * sz)) s.products }⟩, s) := by
  unfold ListProducts
  simp only [hp, hsz, h0]

/-- C12: for accepted `page` and `pageSize` (`pageSize` at least 1) and no persistence
failure, `ListProducts`, and `ListOrders` for a caller allowed to see the orders of
`user_id`, answer 200 with the requested page and page size, `total_count` equal to the
number `n` of rows (all products, or the orders of `user_id`), and `total_pages` equal to
the ceiling of `n / pageSize`, that is the `t` with `(t - 1) * pageSize < n ≤ t * pageSize`
(0 when `n = 0`); the quotient of the two `float64` conversions is read as an exact
rational. -/
theorem list_responses_report_ceiling_page_count (page pageSize : Option String)
    (p sz : Int) (s : Store)
    (hp : parsePositive page "1" = some p) (hsz : parsePositive pageSize "10" = some sz) :
    (∃ (t : Int) (products : List Product),
      (ListProducts noFaults page pageSize s).1 =
        ⟨StatusOK, .productList ⟨p, sz, s.products.length, t, products⟩⟩ ∧
      (t - 1) * sz < s.products.length ∧ (s.products.length : Int) ≤ t * sz ∧
      (s.products.length = 0 → t = 0)) ∧
    (∀ (user : User) (user_id : String) (userID : Nat),
      parseID user_id = some userID → (user.Role = RoleAdmin ∨ user.ID = userID) →
      ∃ (t : Int) (orders : List OrderJSON),
        (ListOrders noFaults (some user) user_id page pageSize s).1 =
          ⟨StatusOK, .orderList
            ⟨p, sz, (s.orders.filter (fun o => o.UserID == userID)).length, t, orders⟩⟩ ∧
        (t - 1) * sz < (s.orders.filter (fun o => o.UserID == userID)).length ∧
        ((s.orders.filter (fun o => o.UserID == userID)).length : Int) ≤ t * sz ∧
        ((s.orders.filter (fun o => o.UserID == userID)).length = 0 → t = 0)) := by
  have hpos := parsePositive_pos hsz
  constructor
  · rw [ListProducts_ok noFaults page pageSize p sz s hp hsz rfl]
    refine ⟨_, _, rfl, (totalPages_spec _ sz hpos).1, (totalPages_spec _ sz hpos).2, ?_⟩
    intro h0
    simp only [noFaults]
    rw [h0]
    exact totalPages_zero sz
  · intro user user_id userID hid hallow
    have hd1 : (!user.IsAdmin && user.ID != userID) = false := by
      rcases hallow with h | h
      · simp [User.IsAdmin, h]
      · simp [h]
    rw [ListOrders_allowed noFaults user user_id page pageSize userID p sz s hid hp hsz hd1 rfl]
    refine ⟨_, _, rfl, (totalPages_spec _ sz hpos).1, (totalPages_spec _ sz hpos).2, ?_⟩
    intro h0
    simp only [noFaults]
    rw [h0]
    exact totalPages_zero sz

/-- C12, on the scenario of the spec: `page=2&pageSize=5` against twelve products gives
`total_count` 12 and `total_pages` 3. -/
theorem list_responses_report_ceiling_page_count_witness :
    parsePositive (some "2") "1" = some 2 ∧ parsePositive (some "5") "10" = some 5 ∧
    (∃ (t : Int) (products : List Product),
      (ListProducts noFaults (some "2") (some "5") sampleStore12).1 =
        ⟨StatusOK, .productList ⟨2, 5, sampleStore12.products.length, t, products⟩⟩ ∧
      (t - 1) * 5 < sampleStore12.products.length ∧
      (sampleStore12.products.length : Int) ≤ t * 5 ∧
      (sampleStore12.products.length = 0 → t = 0)) ∧
    sampleStore12.products.length = 12 ∧ totalPages 12 5 = 3 ∧ totalPages 0 5 = 0 :=
  ⟨by decide, by decide,
    (list_responses_report_ceiling_page_count (some "2") (some "5") 2 5 sampleStore12
      (by decide) (by decide)).1,
    by decide, by decide!, by decide!⟩

theorem wrapInt64_of_lt (x : Int) (h0 : 0 ≤ x) (h1 : x < 2 ^ 63) : wrapInt64 x = x := by
  unfold wrapInt64
  have : (x + 2 ^ 63) % 2 ^ 64 = x + 2 ^ 63 :=
    Int.emod_eq_of_lt (by omega) (by omega)
  omega

/-- As long as `(page - 1) * pageSize` stays below `2 ^ 63`, `ListProducts` answers with the
rows at positions `(page - 1) * pageSize` up to `(page - 1) * pageSize + pageSize` of the
table. -/
theorem ListProducts_page_slice (page pageSize : Option String) (p sz : Int) (s : Store)
    (hp : parsePositive page "1" = some p) (hsz : parsePositive pageSize "10" = some sz)
    (hrange : (p - 1) * sz < 2 ^ 63) :
    (ListProducts noFaults page pageSize s).1.products =
      (s.products.drop ((p - 1) * sz).toNat).take sz.toNat := by
  have hp0 := parsePositive_pos hp
  have hs0 := parsePositive_pos hsz
  have hnn : 0 ≤ (p - 1) * sz := Int.mul_nonneg (by omega) (by omega)
  rw [ListProducts_ok noFaults page pageSize p sz s hp hsz rfl]
  show limitOffset sz (wrapInt64 ((p - 1) * sz)) s.products = _
  rw [wrapInt64_of_lt _ hnn hrange]
  unfold limitOffset
  simp only
  rw [if_pos (by omega : 0 ≤ sz)]
  by_cases h : 0 < (p - 1) * sz
  · rw [if_pos h]
  · rw [if_neg h]
    have : (p - 1) * sz = 0 := by omega
    rw [this]
    rfl

/-- C13 fails on the code: `page=4611686018427387905&pageSize=4` is accepted, the offset
`(page - 1) * pageSize = 2 ^ 64` wraps to 0 in 64-bit arithmetic, and against twelve
products the response holds the four rows of page 1 instead of no row. -/
theorem ListProducts_offset_overflow_repeats_first_page :
    parsePositive (some "4611686018427387905") "1" = some 4611686018427387905 ∧
    parsePositive (some "4") "10" = some 4 ∧
    ((4611686018427387905 : Int) - 1) * 4 = 2 ^ 64 ∧
    wrapInt64 (((4611686018427387905 : Int) - 1) * 4) = 0 ∧
    sampleStore12.products.length = 12 ∧
    (ListProducts noFaults (some "4611686018427387905") (some "4")
      sampleStore12).1.status = StatusOK ∧
    (ListProducts noFaults (some "4611686018427387905") (some "4")
      sampleStore12).1.products.map Product.ID = [1, 2, 3, 4] ∧
    (ListProducts noFaults (some "1") (some "4") sampleStore12).1.products.map Product.ID =
      [1, 2, 3, 4] := by
  decide

/-! ### page parameters -/

theorem foldl_parseDigit_none (l : List Char) :
    l.foldl (fun acc c =>
      match acc with
      | none => none
      | some n => if c.isDigit then some (10 * n + (c.toNat - '0'.toNat)) else none)
      (none : Option Nat) = none := by
  induction l with
  | nil => rfl
  | cons a tl ih => simpa [List.foldl] using ih

theorem foldl_parseDigit_nondigit (l : List Char) :
    ∀ (acc : Option Nat), l.all Char.isDigit = false →
    l.foldl (fun acc c =>
      match acc with
      | none => none
      | some n => if c.isDigit then some (10 * n + (c.toNat - '0'.toNat)) else none)
      acc = none := by
  induction l with
  | nil => intro acc h; simp at h
  | cons a tl ih =>
    intro acc h
    simp only [List.foldl]
    cases acc with
    | none => exact foldl_parseDigit_none tl
    | some n =>
      by_cases ha : a.isDigit = true
      · simp only [ha, if_true]
        apply ih
        simpa [List.all_cons, ha] using h
      · simp only [ha, Bool.false_eq_true, if_false]
        exact foldl_parseDigit_none tl

theorem parseDigits_none (l : List Char) (h : l = [] ∨ l.all Char.isDigit = false) :
    parseDigits l = none := by
  rcases h with h | h
  · subst h; rfl
  · cases l with
    | nil => rfl
    | cons a tl =>
      unfold parseDigits
      exact foldl_parseDigit_nondigit (a :: tl) (some 0) h

/-- A string that is not a decimal integer is refused by `strconv.Atoi`. -/
theorem Atoi_none_of_not_decimalInteger (v : String) (h : decimalInteger v = false) :
    Atoi v = none := by
  unfold decimalInteger at h
  unfold Atoi
  cases hv : v.toList with
  | nil => simp [parseDigits]
  | cons c rest =>
    rw [hv] at h
    simp only at h
    by_cases hs : (c == '-' || c == '+') = true
    · rw [if_pos hs] at h
      have hd : parseDigits rest = none := by
        apply parseDigits_none
        by_cases hr : rest = []
        · exact Or.inl hr
        · right
          cases rest with
          | nil => exact absurd rfl hr
          | cons a tl => simpa using h
      have hhead : ((c :: rest).head? == some '-' || (c :: rest).head? == some '+') = true := by
        simpa using hs
      simp only [hhead, if_true, List.tail_cons, hd]
    · rw [if_neg hs] at h
      have hd : parseDigits (c :: rest) = none := parseDigits_none _ (Or.inr h)
      have hhead : ((c :: rest).head? == some '-' || (c :: rest).head? == some '+') = false := by
        simpa using hs
      simp only [hhead, Bool.false_eq_true, if_false, hd]

/-- A parameter value is refused when it is not a decimal integer, and when it is an
integer that is not positive. -/
theorem parsePositive_none (v : String) (dflt : String)
    (h : decimalInteger v = false ∨ ∃ n, Atoi v = some n ∧ n ≤ 0) :
    parsePositive (some v) dflt = none := by
  unfold parsePositive
  simp only [Option.getD_some]
  rcases h with h | ⟨n, h, hn⟩
  · rw [Atoi_none_of_not_decimalInteger v h]
  · rw [h]
    simp only [hn, if_true]

/-- C14: in `ListProducts` and `ListOrders` an absent `page` is read as `1` and an absent
`pageSize` as `10`; a `page` or `pageSize` value that is not a decimal integer, or is an
integer not above 0, is not accepted; and a request whose `page` or `pageSize` is not
accepted is answered with 400 and the store is returned unchanged, the response being the
same for every store and every pattern of persistence failures (no row is read): the error
is `Invalid page number` for `page`, and `Invalid pageSize number` for `pageSize` when
`page` is accepted (in `ListOrders`, when `user_id` is accepted, which is checked
first). -/
theorem page_parameters_default_and_reject (f : Faults) (s : Store) :
    (∀ pageSize, ListProducts f none pageSize s = ListProducts f (some "1") pageSize s) ∧
    (∀ page, ListProducts f page none s = ListProducts f page (some "10") s) ∧
    (∀ authUser user_id pageSize,
      ListOrders f authUser user_id none pageSize s =
        ListOrders f authUser user_id (some "1") pageSize s) ∧
    (∀ authUser user_id page,
      ListOrders f authUser user_id page none s =
        ListOrders f authUser user_id page (some "10") s) ∧
    (∀ v dflt, (decimalInteger v = false ∨ ∃ n, Atoi v = some n ∧ n ≤ 0) →
      parsePositive (some v) dflt = none) ∧
    (∀ page pageSize, parsePositive page "1" = none →
      ListProducts f page pageSize s =
        (⟨StatusBadRequest, .error "Invalid page number"⟩, s)) ∧
    (∀ page pageSize, (parsePositive page "1").isSome = true →
      parsePositive pageSize "10" = none →
      ListProducts f page pageSize s =
        (⟨StatusBadRequest, .error "Invalid pageSize number"⟩, s)) ∧
    (∀ authUser user_id page pageSize, (parseID user_id).isSome = true →
      parsePositive page "1" = none →
      ListOrders f authUser user_id page pageSize s =
        (⟨StatusBadRequest, .error "Invalid page number"⟩, s)) ∧
    (∀ authUser user_id page pageSize, (parseID user_id).isSome = true →
      (parsePositive page "1").isSome = true → parsePositive pageSize "10" = none →
      ListOrders f authUser user_id page pageSize s =
        (⟨StatusBadRequest, .error "Invalid pageSize number"⟩, s)) ∧
    (∀ authUser user_id page pageSize,
      (parsePositive page "1" = none ∨ parsePositive pageSize "10" = none) →
      (ListOrders f authUser user_id page pageSize s).1.status = StatusBadRequest ∧
      (ListOrders f authUser user_id page pageSize s).2 = s) := by
  refine ⟨fun _ => rfl, fun _ => rfl, fun _ _ _ => rfl, fun _ _ _ => rfl,
    fun v dflt h => parsePositive_none v dflt h, ?_, ?_, ?_, ?_, ?_⟩
  · intro page pageSize h
    unfold ListProducts
    rw [h]
  · intro page pageSize hp h
    obtain ⟨p, hp⟩ := Option.isSome_iff_exists.mp hp
    unfold ListProducts
    rw [hp, h]
  · intro authUser user_id page pageSize hid h
    obtain ⟨n, hn⟩ := Option.isSome_iff_exists.mp hid
    unfold ListOrders
    rw [hn, h]
  · intro authUser user_id page pageSize hid hp h
    obtain ⟨n, hn⟩ := Option.isSome_iff_exists.mp hid
    obtain ⟨p, hp⟩ := Option.isSome_iff_exists.mp hp
    unfold ListOrders
    rw [hn, hp, h]
  · intro authUser user_id page pageSize h
    refine ⟨?_, ListOrders_store f _ _ _ _ s⟩
    unfold ListOrders
    cases hid : parseID user_id with
    | none => rfl
    | some n =>
      simp only
      cases hp : parsePositive page "1" with
      | none => rfl
      | some p =>
        simp only
        rcases h with h | h
        · rw [hp] at h; cases h
        · rw [h]

/-! ## product catalog -/

theorem requiredString_nil {st field v : String} :
    requiredString st field v = [] ↔ v ≠ "" := by
  unfold requiredString
  by_cases h : v = ""
  · simp [h]
  · simp [h]

/-- The bodies that pass the binding of `dtos.CreateProductRequest`: the three strings are
not empty, the price is positive, and the stock is positive (a stock of 0 fails
`required`). -/
theorem validateCreateProductRequest_nil (r : CreateProductRequest) :
    validateCreateProductRequest r = [] ↔
      (r.Name ≠ "" ∧ r.Description ≠ "" ∧ r.Category ≠ "" ∧ 0 < r.Price ∧ 0 < r.Stock) := by
  unfold validateCreateProductRequest
  simp only [List.append_eq_nil, requiredString_nil]
  constructor
  · rintro ⟨⟨⟨⟨h1, h2⟩, h3⟩, h4⟩, h5⟩
    refine ⟨h1, h2, h5, ?_, ?_⟩
    · by_cases hp : r.Price = 0
      · simp [hp] at h3
      · by_cases hp2 : r.Price ≤ 0
        · simp [hp, hp2] at h3
        · exact lt_of_not_ge hp2
    · by_cases hs : r.Stock = 0
      · simp [hs] at h4
      · by_cases hs2 : r.Stock ≤ -1
        · simp [hs, hs2] at h4
        · omega
  · rintro ⟨h1, h2, h5, h3, h4⟩
    refine ⟨⟨⟨⟨h1, h2⟩, ?_⟩, ?_⟩, h5⟩
    · have hp : r.Price ≠ 0 := ne_of_gt h3
      have hp2 : ¬ r.Price ≤ 0 := not_le.mpr h3
      simp [hp, hp2]
    · have hs : r.Stock ≠ 0 := by omega
      have hs2 : ¬ r.Stock ≤ -1 := by omega
      simp [hs, hs2]

/-- For an admin and no persistence failure, `CreateProduct` answers 201 exactly to the
bodies that pass binding, and then stores the product of the request. -/
theorem CreateProduct_accepts_iff (user : User) (req : CreateProductRequest) (s : Store)
    (hadmin : user.Role = RoleAdmin) :
    ((CreateProduct noFaults (some user) (.parsed req) s).1.status = StatusCreated ↔
      (req.Name ≠ "" ∧ req.Description ≠ "" ∧ req.Category ≠ "" ∧ 0 < req.Price ∧
        0 < req.Stock)) ∧
    ((CreateProduct noFaults (some user) (.parsed req) s).1.status = StatusCreated →
      (CreateProduct noFaults (some user) (.parsed req) s).2 =
        { s with products := s.products ++
            [⟨nextID s.products, req.Name, req.Category, req.Description, req.Price,
              req.Stock⟩] }) := by
  have hadm : (!user.IsAdmin) = false := by simp [User.IsAdmin, hadmin]
  rw [← validateCreateProductRequest_nil]
  cases hv : validateCreateProductRequest req with
  | nil =>
    have hres : CreateProduct noFaults (some user) (.parsed req) s =
        (⟨StatusCreated, .product ⟨nextID s.products, req.Name, req.Category,
          req.Description, req.Price, req.Stock⟩⟩,
          { s with products := s.products ++
            [⟨nextID s.products, req.Name, req.Category, req.Description, req.Price,
              req.Stock⟩] }) := by
      unfold CreateProduct
      simp only [ShouldBindJSON, hv, hadm, Bool.false_eq_true, if_false, dbCreate_noFaults]
      rfl
    rw [hres]
    exact ⟨⟨fun _ => rfl, fun _ => rfl⟩, fun _ => rfl⟩
  | cons e es =>
    have hres : CreateProduct noFaults (some user) (.parsed req) s =
        (handleValidationErrors (.validation (e :: es)), s) := by
      unfold CreateProduct
      simp only [ShouldBindJSON, hv]
    rw [hres]
    have hst : (handleValidationErrors (.validation (e :: es))).status = StatusBadRequest := rfl
    constructor
    · constructor
      · intro h
        rw [hst] at h
        exact absurd h (by decide)
      · intro h
        cases h
    · intro h
      rw [hst] at h
      exact absurd h (by decide)

/-- C15 fails on the code: an admin's request with `stock = 0` (name, description and
category filled, price 10) is refused with 400 and the field error of `required` on
`stock`, and nothing is stored. -/
theorem CreateProduct_rejects_zero_stock :
    CreateProduct noFaults (some sampleAdmin)
      (.parsed ⟨"Product B", "Description of Product B", 10, 0, "Category B"⟩) sampleStore =
      (⟨StatusBadRequest, .fieldErrors [("stock", "This field is required.")]⟩,
        sampleStore) := by
  decide!

/-- The columns of a product after `Updates` with a body that passed the binding of
`dtos.CreateProductRequest`: all five are those of the body. -/
theorem productUpdates_of_valid (p : Product) (req : CreateProductRequest)
    (hv : validateCreateProductRequest req = []) :
    productUpdates p req.Name req.Description req.Price req.Stock req.Category =
      ⟨p.ID, req.Name, req.Category, req.Description, req.Price, req.Stock⟩ := by
  obtain ⟨h1, h2, h3, h4, h5⟩ := (validateCreateProductRequest_nil req).mp hv
  have hp : req.Price ≠ 0 := ne_of_gt h4
  have hs : req.Stock ≠ 0 := by omega
  unfold productUpdates
  simp [h1, h2, h3, hp, hs]

/-- A successful `UpdateProduct`: the row is updated in the table, and the body of the
200 response is the product as it was read before the update. -/
theorem UpdateProduct_ok (user : User) (id : String) (productID : Nat) (product : Product)
    (req : CreateProductRequest) (s : Store)
    (hadmin : user.Role = RoleAdmin) (hid : parseID id = some productID)
    (hfind : findByID s.products productID = some product)
    (hv : validateCreateProductRequest req = []) :
    UpdateProduct noFaults (some user) id (.parsed req) s =
      (⟨StatusOK, .product product⟩,
        { s with products := s.products.map (fun r =>
            if r.ID == product.ID then
              ⟨r.ID, req.Name, req.Category, req.Description, req.Price, req.Stock⟩
            else r) }) := by
  have hadm : (!user.IsAdmin) = false := by simp [User.IsAdmin, hadmin]
  unfold UpdateProduct
  simp only [hid, hadm, Bool.false_eq_true, if_false,
    dbFirst_found 0 s.products productID product hfind, ShouldBindJSON, hv, dbUpdates,
    noFaults, productUpdates_of_valid _ req hv]

/-- C16 fails on the code: an admin's `PUT` on product 1 with a whole new set of values is
answered 200; the stored product has the new values, but the response body is the product
as it was before the update. -/
theorem UpdateProduct_responds_with_stale_product :
    UpdateProduct noFaults (some sampleAdmin) "1"
      (.parsed ⟨"New name", "New description", 25, 7, "New category"⟩) sampleStore =
      (⟨StatusOK, .product
          ⟨1, "Product A", "Category A", "Description of Product A", 10, 100⟩⟩,
        { sampleStore with
          products := [⟨1, "New name", "New category", "New description", 25, 7⟩] }) := by
  decide!

/-- C17 fails on the code: the body `{"stock": 0}` decodes to the request struct with
every field at its zero value; an admin's `PATCH` of product 1 (stock 100) with it is
answered 200, and both the stored product and the response still have stock 100. -/
theorem PatchProduct_ignores_zero_stock :
    PatchProduct noFaults (some sampleAdmin) "1" (.parsed ⟨"", "", 0, 0, ""⟩) sampleStore =
      (⟨StatusOK, .product
          ⟨1, "Product A", "Category A", "Description of Product A", 10, 100⟩⟩,
        sampleStore) := by
  decide!

/-- What `PatchProduct` leaves in the store, for every request and every pattern of
persistence failures. -/
theorem PatchProduct_effect (f : Faults) (authUser : Option User) (id : String)
    (body : JSONBody PatchProductRequest) (s : Store) :
    (PatchProduct f authUser id body s).2 = s ∨
    ∃ (productID : Nat) (req : PatchProductRequest),
      parseID id = some productID ∧ body = .parsed req ∧
      (PatchProduct f authUser id body s).2 =
        { s with products := s.products.map (fun r =>
            if r.ID == productID then
              productUpdates r req.Name req.Description req.Price req.Stock req.Category
            else r) } := by
  unfold PatchProduct
  cases hid : parseID id with
  | none => exact Or.inl rfl
  | some productID =>
    simp only
    cases authUser with
    | none => exact Or.inl rfl
    | some user =>
      simp only
      by_cases hadm : (!user.IsAdmin) = true
      · simp only [hadm, if_true]
        exact Or.inl trivial
      · simp only [hadm, Bool.false_eq_true, if_false]
        cases hf : dbFirst f 0 s.products productID with
        | error e => exact Or.inl rfl
        | ok product =>
          obtain ⟨-, hfind⟩ := dbFirst_ok hf
          have hpid : product.ID = productID := findByID_getID hfind
          simp only
          cases hb : ShouldBindJSON validatePatchProductRequest body with
          | error err => exact Or.inl rfl
          | ok req =>
            obtain ⟨hbody, -⟩ := ShouldBindJSON_ok hb
            simp only
            cases hu : dbUpdates f 1 s.products product req.Name req.Description req.Price
                req.Stock req.Category with
            | error e => exact Or.inl rfl
            | ok products =>
              right
              refine ⟨productID, req, rfl, hbody, ?_⟩
              unfold dbUpdates at hu
              cases hf1 : f 1 with
              | some e => rw [hf1] at hu; cases hu
              | none =>
                rw [hf1] at hu
                cases hu
                simp only [hpid]

/-- C18: for every `PatchProduct` request (any caller, any body, any pattern of
persistence failures), the product table afterwards has the same rows in the same order
with the same identifiers; a row other than the one addressed by the `id` path parameter
is unchanged; and in the addressed row every field that the decoded body does not carry
(its value there is the zero value: empty string, 0) keeps its stored value; the other
tables are unchanged. -/
theorem PatchProduct_keeps_unsupplied_fields_and_other_rows (f : Faults)
    (authUser : Option User) (id : String) (body : JSONBody PatchProductRequest)
    (s : Store) :
    List.Forall₂
      (fun (old new : Product) =>
        new.ID = old.ID ∧
        (parseID id ≠ some old.ID → new = old) ∧
        (body = .malformed → new = old) ∧
        (∀ req, body = .parsed req →
          (req.Name = "" → new.Name = old.Name) ∧
          (req.Description = "" → new.Description = old.Description) ∧
          (req.Price = 0 → new.Price = old.Price) ∧
          (req.Stock = 0 → new.Stock = old.Stock) ∧
          (req.Category = "" → new.Category = old.Category)))
      s.products (PatchProduct f authUser id body s).2.products ∧
    (PatchProduct f authUser id body s).2.users = s.users ∧
    (PatchProduct f authUser id body s).2.addresses = s.addresses ∧
    (PatchProduct f authUser id body s).2.orders = s.orders ∧
    (PatchProduct f authUser id body s).2.orderItems = s.orderItems := by
  rcases PatchProduct_effect f authUser id body s with h | ⟨productID, req, hid, hbody, h⟩
  · rw [h]
    refine ⟨?_, rfl, rfl, rfl, rfl⟩
    rw [List.forall₂_same]
    intro x _
    exact ⟨rfl, fun _ => rfl, fun _ => rfl, fun _ _ => ⟨fun _ => rfl, fun _ => rfl,
      fun _ => rfl, fun _ => rfl, fun _ => rfl⟩⟩
  · rw [h]
    refine ⟨?_, rfl, rfl, rfl, rfl⟩
    show List.Forall₂ _ s.products (s.products.map _)
    rw [List.forall₂_map_right_iff, List.forall₂_same]
    intro x _
    by_cases hx : (x.ID == productID) = true
    · rw [if_pos hx]
      have hxid : x.ID = productID := by simpa using hx
      refine ⟨rfl, ?_, ?_, ?_⟩
      · intro hne
        rw [hid, hxid] at hne
        exact absurd rfl hne
      · intro hm
        rw [hbody] at hm
        cases hm
      · intro req1 hreq
        rw [hbody] at hreq
        cases hreq
        unfold productUpdates
        refine ⟨?_, ?_, ?_, ?_, ?_⟩ <;> intro hz <;> simp [hz]
    · rw [if_neg hx]
      exact ⟨rfl, fun _ => rfl, fun _ => rfl, fun _ _ => ⟨fun _ => rfl, fun _ => rfl,
        fun _ => rfl, fun _ => rfl, fun _ => rfl⟩⟩

/-! ## registration -/

theorem registerUser_status (x : Externals) (f : Faults)
    (email firstName lastName password role msg : String) (s : Store) :
    (registerUser x f email firstName lastName password role msg s).1.status =
        StatusInternalServerError ∨
    (registerUser x f email firstName lastName password role msg s).1.status =
        StatusBadRequest ∨
    ((registerUser x f email firstName lastName password role msg s).1.status = StatusOK ∧
      ∃ (hashed : String) (access refresh : String),
        (registerUser x f email firstName lastName password role msg s).1.body =
          .registration ⟨msg, ⟨nextID s.users, email, firstName, lastName, hashed, role, 0⟩,
            access, refresh⟩ ∧
        (registerUser x f email firstName lastName password role msg s).2 =
          { s with users := s.users ++
              [⟨nextID s.users, email, firstName, lastName, hashed, role, 0⟩] }) := by
  unfold registerUser
  cases hh : x.GenerateFromPassword password with
  | none => exact Or.inl rfl
  | some hashed =>
    simp only
    cases hc : dbCreateUser f 0 s.users
        { ID := 0, Email := email, FirstName := firstName, LastName := lastName,
          Password := hashed, Role := role, LastLogin := 0 } with
    | error e =>
      simp only
      by_cases hd : stringsContains e
          "duplicate key value violates unique constraint \"uni_users_email\"" = true
      · rw [if_pos hd]; exact Or.inr (Or.inl rfl)
      · rw [if_neg hd]; exact Or.inl rfl
    | ok res =>
      obtain ⟨users, user⟩ := res
      have hcreate : user = ⟨nextID s.users, email, firstName, lastName, hashed, role, 0⟩ ∧
          users = s.users ++ [user] := by
        unfold dbCreateUser at hc
        cases hf : f 0 with
        | some e => rw [hf] at hc; cases hc
        | none =>
          rw [hf] at hc
          simp only at hc
          split at hc
          · cases hc
          · obtain ⟨-, hu, hus⟩ := dbCreate_ok hc
            exact ⟨by rw [hu]; rfl, hus⟩
      obtain ⟨hu, hus⟩ := hcreate
      subst hu
      subst hus
      simp only
      right; right
      exact ⟨trivial, hashed, _, _, rfl, rfl⟩

/-- C19: a `RegisterCustomer` or `RegisterAdmin` request whose body passes the binding
checks and whose `password` differs from `password_confirm` is answered with 400
`Passwords do not match`, and the store (the users table included) is unchanged, whatever
the external providers, the persistence failures and, for `RegisterAdmin`, the secret
key. -/
theorem registration_rejects_password_mismatch (x : Externals) (f : Faults) (s : Store) :
    (∀ req : CustomerRegistrationRequest,
      validateCustomerRegistrationRequest x req = [] → req.Password ≠ req.PasswordConfirm →
      RegisterCustomer x f (.parsed req) s =
        (⟨StatusBadRequest, .error "Passwords do not match"⟩, s)) ∧
    (∀ req : AdminRegistrationRequest,
      validateAdminRegistrationRequest x req = [] → req.Password ≠ req.PasswordConfirm →
      RegisterAdmin x f (.parsed req) s =
        (⟨StatusBadRequest, .error "Passwords do not match"⟩, s)) := by
  constructor
  · intro req hv hne
    have hb : (req.Password != req.PasswordConfirm) = true := by simp [hne]
    unfold RegisterCustomer
    rw [ShouldBindJSON_valid _ req hv]
    simp only [hb, if_true]
  · intro req hv hne
    have hb : (req.Password != req.PasswordConfirm) = true := by simp [hne]
    unfold RegisterAdmin
    rw [ShouldBindJSON_valid _ req hv]
    simp only [hb, if_true]

/-- C19, on the request of `TestRegisterCustomer/Fails when passwords do not match`. -/
theorem registration_rejects_password_mismatch_witness :
    validateCustomerRegistrationRequest sampleExternals
      ⟨"customer@example.com", "John", "Doe", "password", "differentpassword"⟩ = [] ∧
    RegisterCustomer sampleExternals noFaults
      (.parsed ⟨"customer@example.com", "John", "Doe", "password", "differentpassword"⟩)
      sampleStore =
      (⟨StatusBadRequest, .error "Passwords do not match"⟩, sampleStore) :=
  ⟨by decide,
    (registration_rejects_password_mismatch sampleExternals noFaults sampleStore).1
      ⟨"customer@example.com", "John", "Doe", "password", "differentpassword"⟩
      (by decide) (by decide)⟩

/-- C20 fails on the code: the requests of `TestRegisterCustomer` and `TestRegisterAdmin`
succeed with status 200, not 201 (the user in the body has the request's email and names
and the role of the handler); and no request to either handler is ever answered with
201. -/
theorem registration_success_is_200_not_201 :
    (RegisterCustomer sampleExternals noFaults (.parsed sampleCustomerRegistration)
      sampleStore).1 =
      ⟨StatusOK, .registration ⟨"Account registered successfully",
        ⟨3, "customer@example.com", "John", "Doe", "bcrypt:password", RoleCustomer, 0⟩,
        "jwt:3:customer:24", "jwt:3:customer:168"⟩⟩ ∧
    (RegisterAdmin sampleExternals noFaults (.parsed sampleAdminRegistration)
      sampleStore).1 =
      ⟨StatusOK, .registration ⟨"Registration successful",
        ⟨3, "admin2@example.com", "Admin", "User", "bcrypt:password", RoleAdmin, 0⟩,
        "jwt:3:admin:24", "jwt:3:admin:168"⟩⟩ ∧
    (∀ (x : Externals) (f : Faults) (body : JSONBody CustomerRegistrationRequest)
      (s : Store), (RegisterCustomer x f body s).1.status ≠ StatusCreated) ∧
    (∀ (x : Externals) (f : Faults) (body : JSONBody AdminRegistrationRequest)
      (s : Store), (RegisterAdmin x f body s).1.status ≠ StatusCreated) := by
  refine ⟨by decide, by decide, ?_, ?_⟩
  · intro x f body s
    unfold RegisterCustomer
    cases hb : ShouldBindJSON (validateCustomerRegistrationRequest x) body with
    | error err =>
      simp only
      rcases handleValidationErrors_status err with e | e <;> rw [e] <;> decide
    | ok req =>
      simp only
      split
      · simp
      · rcases registerUser_status x f req.Email req.FirstName req.LastName req.Password
          RoleCustomer "Account registered successfully" s with e | e | ⟨e, -⟩ <;>
          rw [e] <;> decide
  · intro x f body s
    unfold RegisterAdmin
    cases hb : ShouldBindJSON (validateAdminRegistrationRequest x) body with
    | error err =>
      simp only
      rcases handleValidationErrors_status err with e | e <;> rw [e] <;> decide
    | ok req =>
      simp only
      split
      · simp
      · split
        · simp
        · rcases registerUser_status x f req.Email req.FirstName req.LastName req.Password
            RoleAdmin "Registration successful" s with e | e | ⟨e, -⟩ <;>
            rw [e] <;> decide

/-- A registration answered with 200 carries in its body a user with the request's email,
first name and last name, and the role `customer` for `RegisterCustomer`, `admin` for
`RegisterAdmin`. -/
theorem registration_success_body (x : Externals) (f : Faults) (s : Store) :
    (∀ body : JSONBody CustomerRegistrationRequest,
      (RegisterCustomer x f body s).1.status = StatusOK →
      ∃ (req : CustomerRegistrationRequest) (r : RegistrationSuccessResponse),
        body = .parsed req ∧ (RegisterCustomer x f body s).1.body = .registration r ∧
        r.User.Email = req.Email ∧ r.User.FirstName = req.FirstName ∧
        r.User.LastName = req.LastName ∧ r.User.Role = RoleCustomer) ∧
    (∀ body : JSONBody AdminRegistrationRequest,
      (RegisterAdmin x f body s).1.status = StatusOK →
      ∃ (req : AdminRegistrationRequest) (r : RegistrationSuccessResponse),
        body = .parsed req ∧ (RegisterAdmin x f body s).1.body = .registration r ∧
        r.User.Email = req.Email ∧ r.User.FirstName = req.FirstName ∧
        r.User.LastName = req.LastName ∧ r.User.Role = RoleAdmin) := by
  constructor
  · intro body h
    unfold RegisterCustomer at h ⊢
    cases hb : ShouldBindJSON (validateCustomerRegistrationRequest x) body with
    | error err =>
      rw [hb] at h
      simp only at h
      rcases handleValidationErrors_status err with e | e <;> rw [e] at h <;>
        exact absurd h (by decide)
    | ok req =>
      obtain ⟨hbody, -⟩ := ShouldBindJSON_ok hb
      rw [hb] at h
      simp only at h ⊢
      by_cases hp : (req.Password != req.PasswordConfirm) = true
      · rw [if_pos hp] at h; simp at h
      · rw [if_neg hp] at h ⊢
        rcases registerUser_status x f req.Email req.FirstName req.LastName req.Password
          RoleCustomer "Account registered successfully" s with e | e |
            ⟨-, hashed, a, r, hbd, -⟩
        · rw [e] at h; exact absurd h (by decide)
        · rw [e] at h; exact absurd h (by decide)
        · exact ⟨req, _, hbody, hbd, rfl, rfl, rfl, rfl⟩
  · intro body h
    unfold RegisterAdmin at h ⊢
    cases hb : ShouldBindJSON (validateAdminRegistrationRequest x) body with
    | error err =>
      rw [hb] at h
      simp only at h
      rcases handleValidationErrors_status err with e | e <;> rw [e] at h <;>
        exact absurd h (by decide)
    | ok req =>
      obtain ⟨hbody, -⟩ := ShouldBindJSON_ok hb
      rw [hb] at h
      simp only at h ⊢
      by_cases hp : (req.Password != req.PasswordConfirm) = true
      · rw [if_pos hp] at h; simp at h
      · rw [if_neg hp] at h ⊢
        by_cases hk : (req.SecretKey != ADMIN_SECRET_KEY) = true
        · rw [if_pos hk] at h; simp at h
        · rw [if_neg hk] at h ⊢
          rcases registerUser_status x f req.Email req.FirstName req.LastName req.Password
            RoleAdmin "Registration successful" s with e | e | ⟨-, hashed, a, r, hbd, -⟩
          · rw [e] at h; exact absurd h (by decide)
          · rw [e] at h; exact absurd h (by decide)
          · exact ⟨req, _, hbody, hbd, rfl, rfl, rfl, rfl⟩

/-! ## the catalog under order placement -/

/-- C27.  Order placement never touches the catalog: whatever the caller, the body, the
store and the outcome of the persistence calls, the products table after `CreateOrder` is
the products table before it, so every product row keeps its stock and its price. -/
theorem CreateOrder_leaves_products_unchanged (f : Faults) (authUser : Option User)
    (body : JSONBody CreateOrderRequest) (s : Store) :
    (CreateOrder f authUser body s).2.products = s.products ∧
    ∀ p : Product, p ∈ (CreateOrder f authUser body s).2.products ↔ p ∈ s.products := by
  have h : (CreateOrder f authUser body s).2.products = s.products := by
    rcases CreateOrder_effect f authUser body s with h | ⟨_, _, _, _, _, _, _, _, _, _, h, _⟩
    · rw [h]
    · rw [h]
  exact ⟨h, fun p => by rw [h]⟩

/-! ## the offset of a page -/

/-- C29 fails on the code: `page=3&pageSize=4611686018427387904` is accepted by both list
handlers, the product `(page - 1) * pageSize = 2 ^ 63` wraps to `-2 ^ 63`, which is
negative and not the mathematical product; the query then runs without an offset and page
3 holds the rows of page 1. -/
theorem page_offset_wraps_to_negative :
    parsePositive (some "3") "1" = some 3 ∧
    parsePositive (some "4611686018427387904") "10" = some (2 ^ 62) ∧
    ((3 : Int) - 1) * 2 ^ 62 = 2 ^ 63 ∧
    wrapInt64 (((3 : Int) - 1) * 2 ^ 62) = -2 ^ 63 ∧
    wrapInt64 (((3 : Int) - 1) * 2 ^ 62) ≠ ((3 : Int) - 1) * 2 ^ 62 ∧
    wrapInt64 (((3 : Int) - 1) * 2 ^ 62) < 0 ∧
    (ListProducts noFaults (some "3") (some "4611686018427387904")
      sampleStore12).1.products.map Product.ID = [1, 2, 3, 4, 5, 6, 7, 8, 9, 10, 11, 12] ∧
    (ListProducts noFaults (some "1") (some "4611686018427387904")
      sampleStore12).1.products.map Product.ID = [1, 2, 3, 4, 5, 6, 7, 8, 9, 10, 11, 12] ∧
    (match (ListOrders noFaults (some sampleAdmin) "1" (some "3")
        (some "4611686018427387904") sampleStorePending).1.body with
      | .orderList r => r.Orders.map (fun o => o.id)
      | _ => []) = [1] ∧
    (match (ListOrders noFaults (some sampleAdmin) "1" (some "1")
        (some "4611686018427387904") sampleStorePending).1.body with
      | .orderList r => r.Orders.map (fun o => o.id)
      | _ => []) = [1] := by
  decide

/-! ## the snake-case keys -/

theorem toLower_of_not_isUpper (c : Char) (h : isUpper c = false) : c.toLower = c := by
  unfold isUpper at h
  unfold Char.toLower
  have h65 : 'A'.toNat = 65 := rfl
  have h90 : 'Z'.toNat = 90 := rfl
  rw [h65, h90] at h
  simp only [Bool.and_eq_false_iff, decide_eq_false_iff_not] at h
  have : ¬ (c.toNat ≥ 65 ∧ c.toNat ≤ 90) := by omega
  simp only [this, if_false]

theorem isUpper_toLower (c : Char) : isUpper c.toLower = false := by
  by_cases h : isUpper c = false
  · rw [toLower_of_not_isUpper c h]; exact h
  · have hu : isUpper c = true := by simpa using h
    unfold isUpper at hu
    have h65 : 'A'.toNat = 65 := rfl
    have h90 : 'Z'.toNat = 90 := rfl
    rw [h65, h90] at hu
    simp only [Bool.and_eq_true, decide_eq_true_eq] at hu
    have hc : c = Char.ofNat c.toNat := (Char.ofNat_toNat c).symm
    obtain ⟨h1, h2⟩ := hu
    generalize c.toNat = n at hc h1 h2
    subst hc
    interval_cases n <;> decide

theorem replaceCamel_of_no_upper (l : List Char) (h : ∀ c ∈ l, isUpper c = false) :
    replaceCamel l = l := by
  induction l with
  | nil => rfl
  | cons a tl ih =>
    cases tl with
    | nil => rfl
    | cons b rest =>
      have hb : isUpper b = false := h b (by simp)
      have ht := ih (fun c hc => h c (List.mem_cons_of_mem _ hc))
      simp only [replaceCamel, hb, Bool.and_false, Bool.false_eq_true, if_false, ht]

theorem snakeCase_no_upper (field : String) :
    ∀ c ∈ (snakeCase field).toList, isUpper c = false := by
  intro c hc
  have hc2 : c ∈ (replaceCamel field.toList).map Char.toLower := hc
  obtain ⟨d, _, rfl⟩ := List.mem_map.mp hc2
  exact isUpper_toLower d

theorem snakeCase_snakeCase (field : String) : snakeCase (snakeCase field) = snakeCase field := by
  have h := snakeCase_no_upper field
  have h1 : replaceCamel (snakeCase field).toList = (snakeCase field).toList :=
    replaceCamel_of_no_upper _ h
  have h2 : (snakeCase field).toList.map Char.toLower = (snakeCase field).toList := by
    conv_rhs => rw [← List.map_id (snakeCase field).toList]
    apply List.map_congr_left
    intro c hc
    exact toLower_of_not_isUpper c (h c hc)
  show String.mk ((replaceCamel (snakeCase field).toList).map Char.toLower) = snakeCase field
  rw [h1, h2]
  rfl

/-- C30.  The conversion behind the keys of a validation error map is idempotent, its
result holds no upper-case ASCII letter, and it maps the Go name of every field of every
request DTO to the name in that field's `json` tag, for instance `PasswordConfirm` to
`password_confirm` and `ProductID` to `product_id`. -/
theorem snakeCase_idempotent_lowercase_and_matches_json_names :
    (∀ field : String, snakeCase (snakeCase field) = snakeCase field) ∧
    (∀ field : String, ∀ c ∈ (snakeCase field).toList, isUpper c = false) ∧
    (∀ e ∈ requestDTOFields, snakeCase e.2.1 = e.2.2) ∧
    (requestDTOFields.map (fun e => e.1)).dedup =
      ["LoginRequest", "CustomerRegistrationRequest", "AdminRegistrationRequest",
       "CreateAddressRequest", "CreateProductRequest", "PatchProductRequest",
       "OrderItemRequest", "CreateOrderRequest", "UpdateOrderStatusRequest"] ∧
    snakeCase "PasswordConfirm" = "password_confirm" ∧
    snakeCase "ProductID" = "product_id" := by
  refine ⟨snakeCase_snakeCase, snakeCase_no_upper, ?_, ?_, ?_, ?_⟩
  · decide
  · decide
  · decide
  · decide

/-! ## who writes the users table -/

theorem CreateOrder_users (f : Faults) (authUser : Option User)
    (body : JSONBody CreateOrderRequest) (s : Store) :
    (CreateOrder f authUser body s).2.users = s.users := by
  rcases CreateOrder_effect f authUser body s with h | ⟨_, _, _, _, _, _, _, _, _, _, h, _⟩
  · rw [h]
  · rw [h]

theorem CancelOrder_users (f : Faults) (authUser : Option User) (id : String) (s : Store) :
    (CancelOrder f authUser id s).2.users = s.users := by
  rcases CancelOrder_effect f authUser id s with h | ⟨_, _, _, _, _, _, _, _, h⟩
  · rw [h]
  · rw [h]

theorem UpdateOrderStatus_users (f : Faults) (authUser : Option User) (id : String)
    (body : JSONBody UpdateOrderStatusRequest) (s : Store) :
    (UpdateOrderStatus f authUser id body s).2.users = s.users := by
  rcases UpdateOrderStatus_effect f authUser id body s with
    h | ⟨_, _, _, _, _, _, _, _, _, _, h⟩
  · rw [h]
  · rw [h]

theorem ListProducts_store (f : Faults) (page pageSize : Option String) (s : Store) :
    (ListProducts f page pageSize s).2 = s := by
  unfold ListProducts
  repeat' first | rfl | split

theorem GetProductByID_store (f : Faults) (id : String) (s : Store) :
    (GetProductByID f id s).2 = s := by
  unfold GetProductByID
  repeat' first | rfl | split

theorem CreateProduct_users (f : Faults) (authUser : Option User)
    (body : JSONBody CreateProductRequest) (s : Store) :
    (CreateProduct f authUser body s).2.users = s.users := by
  unfold CreateProduct
  repeat' first | rfl | split | dsimp only

theorem UpdateProduct_users (f : Faults) (authUser : Option User) (id : String)
    (body : JSONBody CreateProductRequest) (s : Store) :
    (UpdateProduct f authUser id body s).2.users = s.users := by
  unfold UpdateProduct
  repeat' first | rfl | split

theorem PatchProduct_users (f : Faults) (authUser : Option User) (id : String)
    (body : JSONBody PatchProductRequest) (s : Store) :
    (PatchProduct f authUser id body s).2.users = s.users := by
  rcases PatchProduct_effect f authUser id body s with h | ⟨_, _, _, _, h⟩
  · rw [h]
  · rw [h]

theorem DeleteProduct_users (f : Faults) (authUser : Option User) (id : String) (s : Store) :
    (DeleteProduct f authUser id s).2.users = s.users := by
  unfold DeleteProduct
  repeat' first | rfl | split

theorem ListAddresses_store (f : Faults) (authUser : Option User) (s : Store) :
    (ListAddresses f authUser s).2 = s := by
  unfold ListAddresses
  repeat' first | rfl | split

theorem CreateAddress_users (f : Faults) (authUser : Option User)
    (body : JSONBody CreateAddressRequest) (s : Store) :
    (CreateAddress f authUser body s).2.users = s.users := by
  unfold CreateAddress
  repeat' first | rfl | split | dsimp only

theorem registerUser_effect (x : Externals) (f : Faults)
    (email firstName lastName password role msg : String) (s : Store) :
    (registerUser x f email firstName lastName password role msg s).2 = s ∨
    ∃ hashed : String,
      (registerUser x f email firstName lastName password role msg s).2 =
        { s with users := s.users ++
            [⟨nextID s.users, email, firstName, lastName, hashed, role, 0⟩] } := by
  unfold registerUser
  cases hh : x.GenerateFromPassword password with
  | none => exact Or.inl rfl
  | some hashed =>
    simp only
    cases hc : dbCreateUser f 0 s.users
        { ID := 0, Email := email, FirstName := firstName, LastName := lastName,
          Password := hashed, Role := role, LastLogin := 0 } with
    | error e =>
      simp only
      split
      · exact Or.inl rfl
      · exact Or.inl rfl
    | ok res =>
      obtain ⟨users, user⟩ := res
      have hcreate : user = ⟨nextID s.users, email, firstName, lastName, hashed, role, 0⟩ ∧
          users = s.users ++ [user] := by
        unfold dbCreateUser at hc
        cases hf : f 0 with
        | some e => rw [hf] at hc; cases hc
        | none =>
          rw [hf] at hc
          simp only at hc
          split at hc
          · cases hc
          · obtain ⟨-, hu, hus⟩ := dbCreate_ok hc
            exact ⟨by rw [hu]; rfl, hus⟩
      obtain ⟨hu, hus⟩ := hcreate
      subst hu
      subst hus
      exact Or.inr ⟨hashed, rfl⟩

theorem RegisterCustomer_effect (x : Externals) (f : Faults)
    (body : JSONBody CustomerRegistrationRequest) (s : Store) :
    (RegisterCustomer x f body s).2 = s ∨
    ∃ (req : CustomerRegistrationRequest) (hashed : String),
      body = .parsed req ∧
      (RegisterCustomer x f body s).2 =
        { s with users := s.users ++
            [⟨nextID s.users, req.Email, req.FirstName, req.LastName, hashed,
              RoleCustomer, 0⟩] } := by
  unfold RegisterCustomer
  cases hb : ShouldBindJSON (validateCustomerRegistrationRequest x) body with
  | error err => exact Or.inl rfl
  | ok req =>
    simp only
    split
    · exact Or.inl rfl
    · rcases registerUser_effect x f req.Email req.FirstName req.LastName req.Password
        RoleCustomer "Account registered successfully" s with h | ⟨hashed, h⟩
      · exact Or.inl h
      · exact Or.inr ⟨req, hashed, (ShouldBindJSON_ok hb).1, h⟩

theorem RegisterAdmin_effect (x : Externals) (f : Faults)
    (body : JSONBody AdminRegistrationRequest) (s : Store) :
    (RegisterAdmin x f body s).2 = s ∨
    ∃ (req : AdminRegistrationRequest) (hashed : String),
      body = .parsed req ∧ req.SecretKey = ADMIN_SECRET_KEY ∧
      (RegisterAdmin x f body s).2 =
        { s with users := s.users ++
            [⟨nextID s.users, req.Email, req.FirstName, req.LastName, hashed,
              RoleAdmin, 0⟩] } := by
  unfold RegisterAdmin
  cases hb : ShouldBindJSON (validateAdminRegistrationRequest x) body with
  | error err => exact Or.inl rfl
  | ok req =>
    simp only
    split
    · exact Or.inl rfl
    · split
      · exact Or.inl rfl
      · rename_i hk
        have hkey : req.SecretKey = ADMIN_SECRET_KEY := by simpa using hk
        rcases registerUser_effect x f req.Email req.FirstName req.LastName req.Password
          RoleAdmin "Registration successful" s with h | ⟨hashed, h⟩
        · exact Or.inl h
        · exact Or.inr ⟨req, hashed, (ShouldBindJSON_ok hb).1, hkey, h⟩

/-! ### login -/

theorem dbFirstByEmail_ok {f : Faults} {k : Nat} {users : List User} {email : String}
    {user : User} (h : dbFirstByEmail f k users email = .ok user) :
    f k = none ∧ user ∈ users ∧ user.Email = email := by
  unfold dbFirstByEmail at h
  cases hf : f k with
  | some e => rw [hf] at h; cases h
  | none =>
    rw [hf] at h
    simp only at h
    cases hfind : users.find? (fun u => u.Email == email) with
    | none => rw [hfind] at h; cases h
    | some u =>
      rw [hfind] at h
      simp only at h
      have hu : u = user := by cases h; rfl
      subst hu
      refine ⟨rfl, List.mem_of_find?_eq_some hfind, ?_⟩
      have := List.find?_some hfind
      simpa using this

/-- The effect of `LoginUser` on the store: none, or the row found under the email gets a
new `LastLogin`. -/
theorem LoginUser_effect (x : Externals) (f : Faults) (now : Nat) (body : JSONBody LoginRequest)
    (s : Store) :
    (LoginUser x f now body s).2 = s ∨
    ∃ (req : LoginRequest) (user : User),
      body = .parsed req ∧ user ∈ s.users ∧ user.Email = req.Email ∧
      (LoginUser x f now body s).1.status = StatusOK ∧
      (LoginUser x f now body s).2 =
        { s with users := s.users.map (fun r =>
            if r.ID == user.ID then { user with LastLogin := now } else r) } := by
  unfold LoginUser
  cases hb : ShouldBindJSON (validateLoginRequest x) body with
  | error err => exact Or.inl rfl
  | ok req =>
    simp only
    cases hfirst : dbFirstByEmail f 0 s.users req.Email with
    | error e => exact Or.inl rfl
    | ok user =>
      simp only
      obtain ⟨-, hmem, hemail⟩ := dbFirstByEmail_ok hfirst
      split
      · exact Or.inl rfl
      · cases hsave : dbSave f 1 s.users { user with LastLogin := now } with
        | error e => exact Or.inl rfl
        | ok users =>
          simp only
          right
          refine ⟨req, user, (ShouldBindJSON_ok hb).1, hmem, hemail, trivial, ?_⟩
          have hany : s.users.any
              (fun r => HasID.getID r == HasID.getID ({ user with LastLogin := now } : User))
              = true := List.any_eq_true.mpr ⟨user, hmem, by simp [HasID.getID]⟩
          unfold dbSave at hsave
          cases hf : f 1 with
          | some e => rw [hf] at hsave; cases hsave
          | none =>
            rw [hf] at hsave
            simp only at hsave
            rw [if_pos hany] at hsave
            cases hsave
            rfl

/-- C21.  A row with role `admin` enters the users table only through `RegisterAdmin`
with the admin secret: with valid fields and matching passwords but another `secret_key`
the answer is 403 `Invalid secret key for admin registration` and the store is unchanged;
whenever `RegisterAdmin` changes the store, the body carried the admin secret and one row
with role `admin` was appended; whenever `RegisterCustomer` changes the store, one row
with role `customer` was appended; `LoginUser` keeps the number of rows, and every row
after it has the identifier and role of a row before it; no other handler changes the
users table. -/
theorem admin_row_only_by_RegisterAdmin_with_secret (x : Externals) (f : Faults) (s : Store) :
    (∀ req : AdminRegistrationRequest,
      validateAdminRegistrationRequest x req = [] → req.Password = req.PasswordConfirm →
      req.SecretKey ≠ ADMIN_SECRET_KEY →
      RegisterAdmin x f (.parsed req) s =
        (⟨StatusForbidden, .error "Invalid secret key for admin registration"⟩, s)) ∧
    (∀ body : JSONBody AdminRegistrationRequest,
      (RegisterAdmin x f body s).2 = s ∨
      ∃ (req : AdminRegistrationRequest) (u : User),
        body = .parsed req ∧ req.SecretKey = ADMIN_SECRET_KEY ∧ u.Role = RoleAdmin ∧
        (RegisterAdmin x f body s).2 = { s with users := s.users ++ [u] }) ∧
    (∀ body : JSONBody CustomerRegistrationRequest,
      (RegisterCustomer x f body s).2 = s ∨
      ∃ u : User, u.Role = RoleCustomer ∧
        (RegisterCustomer x f body s).2 = { s with users := s.users ++ [u] }) ∧
    (∀ (now : Nat) (body : JSONBody LoginRequest),
      (LoginUser x f now body s).2.users.length = s.users.length ∧
      ∀ u ∈ (LoginUser x f now body s).2.users,
        ∃ v ∈ s.users, u.ID = v.ID ∧ u.Role = v.Role) ∧
    (∀ authUser body, (CreateOrder f authUser body s).2.users = s.users) ∧
    (∀ authUser id, (CancelOrder f authUser id s).2.users = s.users) ∧
    (∀ authUser id body, (UpdateOrderStatus f authUser id body s).2.users = s.users) ∧
    (∀ authUser user_id page pageSize,
      (ListOrders f authUser user_id page pageSize s).2.users = s.users) ∧
    (∀ page pageSize, (ListProducts f page pageSize s).2.users = s.users) ∧
    (∀ id, (GetProductByID f id s).2.users = s.users) ∧
    (∀ authUser body, (CreateProduct f authUser body s).2.users = s.users) ∧
    (∀ authUser id body, (UpdateProduct f authUser id body s).2.users = s.users) ∧
    (∀ authUser id body, (PatchProduct f authUser id body s).2.users = s.users) ∧
    (∀ authUser id, (DeleteProduct f authUser id s).2.users = s.users) ∧
    (∀ authUser, (ListAddresses f authUser s).2.users = s.users) ∧
    (∀ authUser body, (CreateAddress f authUser body s).2.users = s.users) := by
  refine ⟨?_, ?_, ?_, ?_, ?_, ?_, ?_, ?_, ?_, ?_, ?_, ?_, ?_, ?_, ?_, ?_⟩
  · intro req hv hpw hkey
    have hb : (req.Password != req.PasswordConfirm) = false := by simp [hpw]
    have hk : (req.SecretKey != ADMIN_SECRET_KEY) = true := by simp [hkey]
    unfold RegisterAdmin
    rw [ShouldBindJSON_valid _ req hv]
    simp only [hb, hk, if_true, Bool.false_eq_true, if_false]
  · intro body
    rcases RegisterAdmin_effect x f body s with h | ⟨req, hashed, hb, hk, h⟩
    · exact Or.inl h
    · exact Or.inr ⟨req, _, hb, hk, rfl, h⟩
  · intro body
    rcases RegisterCustomer_effect x f body s with h | ⟨req, hashed, _, h⟩
    · exact Or.inl h
    · exact Or.inr ⟨_, rfl, h⟩
  · intro now body
    rcases LoginUser_effect x f now body s with h | ⟨req, user, _, hmem, _, _, h⟩
    · rw [h]
      exact ⟨rfl, fun u hu => ⟨u, hu, rfl, rfl⟩⟩
    · rw [h]
      refine ⟨by simp, ?_⟩
      intro u hu
      obtain ⟨r, hr, hru⟩ := List.mem_map.mp hu
      by_cases hid : (r.ID == user.ID) = true
      · rw [if_pos hid] at hru
        exact ⟨user, hmem, by rw [← hru], by rw [← hru]⟩
      · rw [if_neg hid] at hru
        exact ⟨r, hr, by rw [hru], by rw [hru]⟩
  · exact fun authUser body => CreateOrder_users f authUser body s
  · exact fun authUser id => CancelOrder_users f authUser id s
  · exact fun authUser id body => UpdateOrderStatus_users f authUser id body s
  · exact fun authUser user_id page pageSize => by
      rw [ListOrders_store f authUser user_id page pageSize s]
  · exact fun page pageSize => by rw [ListProducts_store f page pageSize s]
  · exact fun id => by rw [GetProductByID_store f id s]
  · exact fun authUser body => CreateProduct_users f authUser body s
  · exact fun authUser id body => UpdateProduct_users f authUser id body s
  · exact fun authUser id body => PatchProduct_users f authUser id body s
  · exact fun authUser id => DeleteProduct_users f authUser id s
  · exact fun authUser => by rw [ListAddresses_store f authUser s]
  · exact fun authUser body => CreateAddress_users f authUser body s

/-- C21, on the request of `TestRegisterAdmin/Fails with incorrect secret key`. -/
theorem admin_row_only_by_RegisterAdmin_with_secret_witness :
    validateAdminRegistrationRequest sampleExternals sampleAdminRegistrationWrongKey = [] ∧
    sampleAdminRegistrationWrongKey.Password =
      sampleAdminRegistrationWrongKey.PasswordConfirm ∧
    sampleAdminRegistrationWrongKey.SecretKey ≠ ADMIN_SECRET_KEY ∧
    RegisterAdmin sampleExternals noFaults (.parsed sampleAdminRegistrationWrongKey)
      sampleStore =
      (⟨StatusForbidden, .error "Invalid secret key for admin registration"⟩, sampleStore) :=
  ⟨by decide, by decide, by decide,
    (admin_row_only_by_RegisterAdmin_with_secret sampleExternals noFaults sampleStore).1
      sampleAdminRegistrationWrongKey (by decide) (by decide) (by decide)⟩

/-! ## login -/

/-- A login of the registered customer succeeds, the body shows the row as it was found,
and the stored row gets the time of the login. -/
theorem LoginUser_success_example :
    LoginUser sampleExternals noFaults 7 (.parsed ⟨"customer@example.com", "password"⟩)
      sampleStoreRegistered =
      (⟨StatusOK, .login
        ⟨sampleRegistered, "jwt:3:customer:24", "jwt:3:customer:168", "Login successful"⟩⟩,
        { sampleStore with
          users := [sampleCustomer, sampleAdmin, { sampleRegistered with LastLogin := 7 }] }) := by
  decide

/-- C22.  A `LoginUser` request whose body passes the binding checks and which is not
answered with 200 is answered with 401 `Invalid credentials` and leaves the store, every
user row and its last login included, as it was; this is the outcome, with the same body,
both when no user has the email and when a user has it but the password does not
verify, whatever the outcome of the persistence calls in the second case. -/
theorem LoginUser_failure_is_uniform_401 (x : Externals) (f : Faults) (now : Nat)
    (req : LoginRequest) (s : Store) (hv : validateLoginRequest x req = []) :
    ((LoginUser x f now (.parsed req) s).1.status ≠ StatusOK →
      LoginUser x f now (.parsed req) s =
        (⟨StatusUnauthorized, .error "Invalid credentials"⟩, s)) ∧
    (s.users.find? (fun u => u.Email == req.Email) = none →
      LoginUser x f now (.parsed req) s =
        (⟨StatusUnauthorized, .error "Invalid credentials"⟩, s)) ∧
    (∀ user : User, s.users.find? (fun u => u.Email == req.Email) = some user →
      x.CompareHashAndPassword user.Password req.Password = false →
      LoginUser x f now (.parsed req) s =
        (⟨StatusUnauthorized, .error "Invalid credentials"⟩, s)) := by
  refine ⟨?_, ?_, ?_⟩
  · intro hne
    unfold LoginUser at hne ⊢
    rw [ShouldBindJSON_valid _ req hv] at hne ⊢
    simp only at hne ⊢
    cases hfirst : dbFirstByEmail f 0 s.users req.Email with
    | error e => rfl
    | ok user =>
      rw [hfirst] at hne
      simp only at hne ⊢
      by_cases hp : (!user.IsValidPassword x req.Password) = true
      · rw [if_pos hp]
      · rw [if_neg hp] at hne
        exfalso
        apply hne
        cases hsave : dbSave f 1 s.users { user with LastLogin := now } with
        | error e => rfl
        | ok users => rfl
  · intro hnone
    unfold LoginUser
    rw [ShouldBindJSON_valid _ req hv]
    have hfirst : ∃ e, dbFirstByEmail f 0 s.users req.Email = .error e := by
      unfold dbFirstByEmail
      cases hf : f 0 with
      | some e => exact ⟨e, rfl⟩
      | none => rw [hnone]; exact ⟨_, rfl⟩
    obtain ⟨e, he⟩ := hfirst
    simp only [he]
  · intro user hsome hpw
    unfold LoginUser
    rw [ShouldBindJSON_valid _ req hv]
    simp only
    cases hfirst : dbFirstByEmail f 0 s.users req.Email with
    | error e => rfl
    | ok user2 =>
      have hu : user2 = user := by
        unfold dbFirstByEmail at hfirst
        cases hf : f 0 with
        | some e => rw [hf] at hfirst; cases hfirst
        | none =>
          rw [hf, hsome] at hfirst
          cases hfirst
          rfl
      subst hu
      have hp : (!user2.IsValidPassword x req.Password) = true := by
        simp [User.IsValidPassword, hpw]
      simp only [hp, if_true]

/-- C22, on a login of the fixture's customer with a password that does not verify. -/
theorem LoginUser_failure_is_uniform_401_witness :
    validateLoginRequest sampleExternals ⟨"test@example.com", "wrongpassword"⟩ = [] ∧
    sampleStore.users.find? (fun u => u.Email == "test@example.com") = some sampleCustomer ∧
    LoginUser sampleExternals noFaults 7 (.parsed ⟨"test@example.com", "wrongpassword"⟩)
      sampleStore = (⟨StatusUnauthorized, .error "Invalid credentials"⟩, sampleStore) :=
  ⟨by decide, by decide,
    (LoginUser_failure_is_uniform_401 sampleExternals noFaults 7
      ⟨"test@example.com", "wrongpassword"⟩ sampleStore (by decide)).2.2
      sampleCustomer (by decide) (by decide)⟩

/-! ## the authentication middleware -/

/-- Identity resolution succeeds exactly when the header is not empty, the token, after
removal of a leading `Bearer `, parses to a user identifier, and the row with that
identifier is read from the users table. -/
theorem GetAuthenticatedUser_ok_iff (jwtParse : JwtParse) (f : Faults) (s : Store)
    (c : Context) (u : User) :
    GetAuthenticatedUser jwtParse f s c = .ok u ↔
      c.Authorization ≠ "" ∧ f 0 = none ∧
      ∃ userID : Nat,
        jwtParse (stringsTrimPrefix c.Authorization "Bearer ") = some (some userID) ∧
        findByID s.users userID = some u := by
  unfold GetAuthenticatedUser GetUserIDFromJWT
  by_cases hh : c.Authorization = ""
  · simp [hh]
  · have hb : (c.Authorization == "") = false := by simp [hh]
    simp only [hb, Bool.false_eq_true, if_false]
    cases hp : jwtParse (stringsTrimPrefix c.Authorization "Bearer ") with
    | none => simp [hh]
    | some claim =>
      cases claim with
      | none => simp [hh]
      | some userID =>
        simp only
        cases hfirst : dbFirst f 0 s.users userID with
        | error e =>
          simp only
          constructor
          · intro h; cases h
          · rintro ⟨-, hf, id, hid, hfind⟩
            have hid2 : userID = id := by simpa using hid
            subst hid2
            unfold dbFirst at hfirst
            rw [hf, hfind] at hfirst
            cases hfirst
        | ok user =>
          obtain ⟨hf, hfind⟩ := dbFirst_ok hfirst
          simp only
          constructor
          · intro h
            have hu : user = u := by cases h; rfl
            subst hu
            exact ⟨hh, hf, userID, rfl, hfind⟩
          · rintro ⟨-, -, id, hid, hfind2⟩
            have hid2 : userID = id := by simpa using hid
            subst hid2
            rw [hfind] at hfind2
            have hu : user = u := by simpa using hfind2
            rw [hu]

/-- C23.  `LoadAuthUserMiddleware` calls `c.Next()` exactly once and neither aborts the
chain nor writes a response, whatever the request; the key `"user"` holds the loaded user
when identity resolution (token verification, then the reading of the user row) succeeds
and is left as it was when it fails, so on the context of an arriving request the key
is set exactly when resolution succeeds. -/
theorem LoadAuthUserMiddleware_passes_on_once (jwtParse : JwtParse) (f : Faults) (s : Store)
    (c : Context) :
    (LoadAuthUserMiddleware jwtParse f s c).nextCalls = c.nextCalls + 1 ∧
    (LoadAuthUserMiddleware jwtParse f s c).aborted = c.aborted ∧
    (LoadAuthUserMiddleware jwtParse f s c).written = c.written ∧
    (LoadAuthUserMiddleware jwtParse f s c).Authorization = c.Authorization ∧
    (∀ u : User, GetAuthenticatedUser jwtParse f s c = .ok u →
      (LoadAuthUserMiddleware jwtParse f s c).user = some u) ∧
    ((∀ u : User, GetAuthenticatedUser jwtParse f s c ≠ .ok u) →
      (LoadAuthUserMiddleware jwtParse f s c).user = c.user) ∧
    (∀ u : User, GetAuthenticatedUser jwtParse f s c = .ok u ↔
      c.Authorization ≠ "" ∧ f 0 = none ∧
      ∃ userID : Nat,
        jwtParse (stringsTrimPrefix c.Authorization "Bearer ") = some (some userID) ∧
        findByID s.users userID = some u) ∧
    (∀ (authHeader : String) (u : User),
      (LoadAuthUserMiddleware jwtParse f s (newContext authHeader)).user = some u ↔
      GetAuthenticatedUser jwtParse f s (newContext authHeader) = .ok u) := by
  refine ⟨?_, ?_, ?_, ?_, ?_, ?_, GetAuthenticatedUser_ok_iff jwtParse f s c, ?_⟩
  · unfold LoadAuthUserMiddleware
    cases GetAuthenticatedUser jwtParse f s c <;> rfl
  · unfold LoadAuthUserMiddleware
    cases GetAuthenticatedUser jwtParse f s c <;> rfl
  · unfold LoadAuthUserMiddleware
    cases GetAuthenticatedUser jwtParse f s c <;> rfl
  · unfold LoadAuthUserMiddleware
    cases GetAuthenticatedUser jwtParse f s c <;> rfl
  · intro u h
    unfold LoadAuthUserMiddleware
    rw [h]
    rfl
  · intro h
    unfold LoadAuthUserMiddleware
    cases hg : GetAuthenticatedUser jwtParse f s c with
    | error e => rfl
    | ok u => exact absurd hg (h u)
  · intro authHeader u
    unfold LoadAuthUserMiddleware
    cases hg : GetAuthenticatedUser jwtParse f s (newContext authHeader) with
    | error e =>
      constructor
      · intro h; cases h
      · intro h; cases h
    | ok v =>
      constructor
      · intro h
        have hv : v = u := by
          have h2 : some v = some u := h
          cases h2
          rfl
        rw [hv]
      · intro h
        have hv : v = u := by cases h; rfl
        rw [hv]
        rfl

/-- C23, on a request of the fixture's customer carrying their access token. -/
theorem LoadAuthUserMiddleware_passes_on_once_witness :
    GetAuthenticatedUser sampleJwtParse noFaults sampleStore
      (newContext "Bearer jwt:1:customer:24") = .ok sampleCustomer ∧
    (LoadAuthUserMiddleware sampleJwtParse noFaults sampleStore
      (newContext "Bearer jwt:1:customer:24")).user = some sampleCustomer :=
  ⟨rfl,
    (LoadAuthUserMiddleware_passes_on_once sampleJwtParse noFaults sampleStore
      (newContext "Bearer jwt:1:customer:24")).2.2.2.2.1 sampleCustomer rfl⟩

/-! ## the error map of `handleValidationErrors` -/

theorem lookup_cons_ite {β : Type} (k a1 : String) (a2 : β) (tl : List (String × β)) :
    List.lookup k ((a1, a2) :: tl) = if k = a1 then some a2 else List.lookup k tl := by
  by_cases h : k = a1
  · subst h
    simp [List.lookup]
  · have h1 : (k == a1) = false := by simpa using h
    simp [List.lookup, h1, h]

theorem lookup_map_assign {β : Type} (m : List (String × β)) (key : String) (value : β)
    (k : String) :
    (m.map (fun kv => if kv.1 == key then (key, value) else kv)).lookup k =
      if k = key then (m.lookup key).map (fun _ => value) else m.lookup k := by
  induction m with
  | nil => simp
  | cons a tl ih =>
    obtain ⟨a1, a2⟩ := a
    rw [List.map_cons]
    by_cases h1 : a1 = key
    · have hhead : (if ((a1, a2) : String × β).1 == key then (key, value) else (a1, a2)) =
          (key, value) := by simp [h1]
      rw [hhead, lookup_cons_ite, ih, lookup_cons_ite, lookup_cons_ite]
      subst h1
      by_cases h2 : k = a1
      · simp [h2]
      · simp [h2]
    · have hhead : (if ((a1, a2) : String × β).1 == key then (key, value) else (a1, a2)) =
          (a1, a2) := by simp [h1]
      rw [hhead, lookup_cons_ite, ih, lookup_cons_ite, lookup_cons_ite]
      have h1b : ¬ key = a1 := fun h => h1 h.symm
      by_cases h2 : k = key
      · subst h2
        simp [h1b]
      · simp [h2]

theorem any_key_eq_isSome_lookup {β : Type} (m : List (String × β)) (key : String) :
    m.any (fun kv => kv.1 == key) = (m.lookup key).isSome := by
  induction m with
  | nil => rfl
  | cons a tl ih =>
    obtain ⟨a1, a2⟩ := a
    by_cases h : key = a1
    · subst h
      simp [List.lookup]
    · have h1 : (key == a1) = false := by simpa using h
      have h2 : (a1 == key) = false := by simpa using fun h3 => h h3.symm
      simp only [List.any_cons, h2, Bool.false_or, ih, List.lookup, h1]

theorem lookup_append_single {β : Type} (m : List (String × β)) (key : String) (value : β)
    (k : String) (hnone : m.lookup key = none) :
    (m ++ [(key, value)]).lookup k = if k = key then some value else m.lookup k := by
  induction m with
  | nil =>
    by_cases h : k = key
    · subst h; simp [List.lookup]
    · have h1 : (k == key) = false := by simpa using h
      simp [List.lookup, h1, h]
  | cons a tl ih =>
    obtain ⟨a1, a2⟩ := a
    have hne : key ≠ a1 := by
      intro h
      subst h
      simp [List.lookup] at hnone
    have h1 : (key == a1) = false := by simpa using hne
    have htl : tl.lookup key = none := by
      simpa only [List.lookup, h1] using hnone
    by_cases h : k = a1
    · subst h
      have : ¬ k = key := fun h2 => hne h2.symm
      simp [List.lookup, this]
    · have h2 : (k == a1) = false := by simpa using h
      simp only [List.cons_append, List.lookup, h2]
      exact ih htl

/-- After `m[key] = value` the key holds the value and every other key holds what it
held. -/
theorem lookup_mapSet {β : Type} (m : List (String × β)) (key : String) (value : β)
    (k : String) :
    (mapSet m key value).lookup k = if k = key then some value else m.lookup k := by
  unfold mapSet
  rw [any_key_eq_isSome_lookup]
  cases hl : m.lookup key with
  | none =>
    simp only [Option.isSome_none, Bool.false_eq_true, if_false]
    exact lookup_append_single m key value k hl
  | some v =>
    simp only [Option.isSome_some, if_true]
    rw [lookup_map_assign, hl]
    rfl

theorem lookup_foldl_mapSet (errs : List FieldError) (m : List (String × String))
    (k : String) :
    (errs.foldl (fun m e => mapSet m (snakeCase e.field) (validationMessage e)) m).lookup k =
      match errs.reverse.find? (fun e => snakeCase e.field == k) with
      | some e => some (validationMessage e)
      | none => m.lookup k := by
  induction errs generalizing m with
  | nil => rfl
  | cons e tl ih =>
    rw [List.foldl_cons, ih, List.reverse_cons, List.find?_append]
    cases hfind : tl.reverse.find? (fun e => snakeCase e.field == k) with
    | some e2 => rfl
    | none =>
      simp only [Option.none_or]
      rw [lookup_mapSet]
      by_cases hk : k = snakeCase e.field
      · subst hk
        simp
      · have hk2 : (snakeCase e.field == k) = false := by simpa using fun h => hk h.symm
        simp [List.find?, hk2, hk]

theorem mem_keys_iff_lookup {β : Type} (m : List (String × β)) (k : String) :
    k ∈ m.map Prod.fst ↔ (m.lookup k).isSome = true := by
  rw [← any_key_eq_isSome_lookup]
  simp [List.any_eq_true]

theorem mem_of_lookup_eq_some {β : Type} (m : List (String × β)) (k : String) (v : β)
    (h : m.lookup k = some v) : (k, v) ∈ m := by
  induction m with
  | nil => simp at h
  | cons a tl ih =>
    obtain ⟨a1, a2⟩ := a
    by_cases hk : k = a1
    · subst hk
      simp only [List.lookup, beq_self_eq_true] at h
      have : a2 = v := by simpa using h
      subst this
      exact List.mem_cons_self _ _
    · have h1 : (k == a1) = false := by simpa using hk
      simp only [List.lookup, h1] at h
      exact List.mem_cons_of_mem _ (ih h)

theorem find?_key_of_nodup (l : List FieldError) (e : FieldError)
    (hnd : (l.map (fun e => snakeCase e.field)).Nodup) (he : e ∈ l) :
    l.find? (fun e2 => snakeCase e2.field == snakeCase e.field) = some e := by
  induction l with
  | nil => cases he
  | cons a tl ih =>
    rw [List.map_cons, List.nodup_cons] at hnd
    rcases List.mem_cons.mp he with h | h
    · subst h
      simp [List.find?]
    · have hne : snakeCase a.field ≠ snakeCase e.field := by
        intro heq
        apply hnd.1
        rw [heq]
        exact List.mem_map.mpr ⟨e, h, rfl⟩
      have hb : (snakeCase a.field == snakeCase e.field) = false := by simpa using hne
      simp only [List.find?, hb]
      exact ih hnd.2 h

/-- The error map for an arbitrary list of errors: its keys are the snake-case forms of the
field names, and a key holds the message of the last error with that key. -/
theorem handleValidationErrors_last_error_per_key (errs : List FieldError) :
    ∃ errorMessages : List (String × String),
      handleValidationErrors (.validation errs) =
        ⟨StatusBadRequest, .fieldErrors errorMessages⟩ ∧
      (∀ k : String, errorMessages.lookup k =
        (errs.reverse.find? (fun e => snakeCase e.field == k)).map validationMessage) ∧
      (∀ k : String, k ∈ errorMessages.map Prod.fst ↔ ∃ e ∈ errs, snakeCase e.field = k) ∧
      ((errs.map (fun e => snakeCase e.field)).Nodup →
        ∀ e ∈ errs, (snakeCase e.field, validationMessage e) ∈ errorMessages) ∧
      (∀ e : FieldError,
        (e.tag = "gt" → validationMessage e = "Value must be greater than " ++ e.param ++ ".") ∧
        (e.tag = "required" → validationMessage e = "This field is required.") ∧
        (e.tag = "min" →
          validationMessage e = "Value length must be greater than or equal to " ++ e.param) ∧
        (e.tag ≠ "gt" → e.tag ≠ "required" → e.tag ≠ "min" →
          validationMessage e = e.Error)) := by
  have hlookup : ∀ k : String,
      (errs.foldl (fun m e => mapSet m (snakeCase e.field) (validationMessage e)) []).lookup k =
        (errs.reverse.find? (fun e => snakeCase e.field == k)).map validationMessage := by
    intro k
    rw [lookup_foldl_mapSet]
    cases errs.reverse.find? (fun e => snakeCase e.field == k) <;> rfl
  refine ⟨errs.foldl
    (fun (m : List (String × String)) (e : FieldError) =>
      mapSet m (snakeCase e.field) (validationMessage e)) [],
    rfl, hlookup, ?_, ?_, ?_⟩
  · intro k
    rw [mem_keys_iff_lookup, hlookup]
    constructor
    · intro h
      cases hf : errs.reverse.find? (fun e => snakeCase e.field == k) with
      | none => rw [hf] at h; cases h
      | some e =>
        refine ⟨e, List.mem_reverse.mp (List.mem_of_find?_eq_some hf), ?_⟩
        simpa using List.find?_some hf
    · rintro ⟨e, he, hk⟩
      cases hf : errs.reverse.find? (fun e => snakeCase e.field == k) with
      | some e2 => rfl
      | none =>
        have := List.find?_eq_none.mp hf e (List.mem_reverse.mpr he)
        simp [hk] at this
  · intro hnd e he
    apply mem_of_lookup_eq_some
    rw [hlookup]
    have hnd2 : (errs.reverse.map (fun e => snakeCase e.field)).Nodup := by
      rw [List.map_reverse]
      exact List.nodup_reverse.mpr hnd
    rw [find?_key_of_nodup errs.reverse e hnd2 (List.mem_reverse.mpr he)]
    rfl
  · intro e
    unfold validationMessage
    refine ⟨?_, ?_, ?_, ?_⟩
    · intro h; simp [h]
    · intro h; simp [h]
    · intro h; simp [h]
    · intro h1 h2 h3; simp [h1, h2, h3]

/-! ### the lists of errors that binding produces -/

theorem keys_nodup_of_fields_sublist (l : List FieldError) (names : List String)
    (h : (l.map FieldError.field).Sublist names) (hn : (names.map snakeCase).Nodup) :
    (l.map (fun e => snakeCase e.field)).Nodup := by
  have e : l.map (fun e => snakeCase e.field) = (l.map FieldError.field).map snakeCase := by
    rw [List.map_map]
    rfl
  rw [e]
  exact List.Nodup.sublist (List.Sublist.map snakeCase h) hn

theorem requiredString_fields (st field v : String) :
    ((requiredString st field v).map FieldError.field).Sublist [field] := by
  unfold requiredString
  split <;> simp [fieldError]

theorem requiredEmail_fields (x : Externals) (st field v : String) :
    ((requiredEmail x st field v).map FieldError.field).Sublist [field] := by
  unfold requiredEmail
  repeat' split
  all_goals simp [fieldError]

theorem requiredMin6_fields (st field v : String) :
    ((requiredMin6 st field v).map FieldError.field).Sublist [field] := by
  unfold requiredMin6
  repeat' split
  all_goals simp [fieldError]

theorem validateCreateOrderRequest_fields (r : CreateOrderRequest) :
    ((validateCreateOrderRequest r).map FieldError.field).Sublist
      (["AddressID"] ++ ["OrderItems"]) := by
  unfold validateCreateOrderRequest
  rw [List.map_append]
  apply List.Sublist.append
  · split <;> simp [fieldError]
  · repeat' split
    all_goals simp [fieldError]

theorem validateCreateProductRequest_fields (r : CreateProductRequest) :
    ((validateCreateProductRequest r).map FieldError.field).Sublist
      (["Name"] ++ ["Description"] ++ ["Price"] ++ ["Stock"] ++ ["Category"]) := by
  unfold validateCreateProductRequest
  simp only [List.map_append]
  refine ((((requiredString_fields _ _ _).append (requiredString_fields _ _ _)).append
    ?_).append ?_).append (requiredString_fields _ _ _)
  · repeat' split
    all_goals simp [fieldError]
  · repeat' split
    all_goals simp [fieldError]

theorem validatePatchProductRequest_fields (r : PatchProductRequest) :
    ((validatePatchProductRequest r).map FieldError.field).Sublist
      (["Price"] ++ ["Stock"]) := by
  unfold validatePatchProductRequest
  rw [List.map_append]
  apply List.Sublist.append
  · repeat' split
    all_goals simp [fieldError]
  · repeat' split
    all_goals simp [fieldError]

theorem validateCreateAddressRequest_fields (r : CreateAddressRequest) :
    ((validateCreateAddressRequest r).map FieldError.field).Sublist
      (["FirstName"] ++ ["LastName"] ++ ["City"] ++ ["Country"] ++ ["ZipCode"] ++
        ["StreetAddress"]) := by
  unfold validateCreateAddressRequest
  simp only [List.map_append]
  exact (((((requiredString_fields _ _ _).append (requiredString_fields _ _ _)).append
    (requiredString_fields _ _ _)).append (requiredString_fields _ _ _)).append
    (requiredString_fields _ _ _)).append (requiredString_fields _ _ _)

theorem validateCustomerRegistrationRequest_fields (x : Externals)
    (r : CustomerRegistrationRequest) :
    ((validateCustomerRegistrationRequest x r).map FieldError.field).Sublist
      (["Email"] ++ ["FirstName"] ++ ["LastName"] ++ ["Password"] ++ ["PasswordConfirm"]) := by
  unfold validateCustomerRegistrationRequest
  simp only [List.map_append]
  exact ((((requiredEmail_fields x _ _ _).append (requiredString_fields _ _ _)).append
    (requiredString_fields _ _ _)).append (requiredMin6_fields _ _ _)).append
    (requiredMin6_fields _ _ _)

theorem validateAdminRegistrationRequest_fields (x : Externals)
    (r : AdminRegistrationRequest) :
    ((validateAdminRegistrationRequest x r).map FieldError.field).Sublist
      (["Email"] ++ ["FirstName"] ++ ["LastName"] ++ ["Password"] ++ ["PasswordConfirm"] ++
        ["SecretKey"]) := by
  unfold validateAdminRegistrationRequest
  simp only [List.map_append]
  exact (((((requiredEmail_fields x _ _ _).append (requiredString_fields _ _ _)).append
    (requiredString_fields _ _ _)).append (requiredMin6_fields _ _ _)).append
    (requiredMin6_fields _ _ _)).append (requiredString_fields _ _ _)

theorem validateLoginRequest_fields (x : Externals) (r : LoginRequest) :
    ((validateLoginRequest x r).map FieldError.field).Sublist (["Email"] ++ ["Password"]) := by
  unfold validateLoginRequest
  simp only [List.map_append]
  exact (requiredEmail_fields x _ _ _).append (requiredString_fields _ _ _)

/-! ### the map for errors on distinct fields -/

theorem mapSet_fresh {β : Type} (m : List (String × β)) (key : String) (value : β)
    (h : key ∉ m.map Prod.fst) : mapSet m key value = m ++ [(key, value)] := by
  unfold mapSet
  have hany : m.any (fun kv => kv.1 == key) = false := by
    rw [any_key_eq_isSome_lookup]
    cases hl : (m.lookup key).isSome with
    | false => rfl
    | true => exact absurd ((mem_keys_iff_lookup m key).mpr hl) h
  simp only [hany, Bool.false_eq_true, if_false]

theorem foldl_mapSet_fresh :
    ∀ (errs : List FieldError) (m : List (String × String)),
      (errs.map (fun e => snakeCase e.field)).Nodup →
      (∀ e ∈ errs, snakeCase e.field ∉ m.map Prod.fst) →
      errs.foldl (fun m e => mapSet m (snakeCase e.field) (validationMessage e)) m =
        m ++ errs.map (fun e => (snakeCase e.field, validationMessage e)) := by
  intro errs
  induction errs with
  | nil => intro m _ _; simp
  | cons e tl ih =>
    intro m hnd hfresh
    rw [List.map_cons, List.nodup_cons] at hnd
    rw [List.foldl_cons, mapSet_fresh m _ _ (hfresh e (List.mem_cons_self _ _)),
      ih _ hnd.2, List.map_cons, List.append_assoc]
    · rfl
    · intro e2 he2 hmem
      rw [List.map_append, List.mem_append] at hmem
      rcases hmem with h1 | h1
      · exact hfresh e2 (List.mem_cons_of_mem _ he2) h1
      · have : snakeCase e2.field = snakeCase e.field := by simpa using h1
        apply hnd.1
        rw [← this]
        exact List.mem_map.mpr ⟨e2, he2, rfl⟩

/-- C24.  For every list of field validation errors on distinct fields (no two errors
with the same snake-case key), `handleValidationErrors` responds 400 with the error map
that has, for each error and in the order of the list, one entry: the key is the snake-case
form of the field name, the message is `Value must be greater than <param>.` for tag `gt`,
`This field is required.` for tag `required`,
`Value length must be greater than or equal to <param>` for tag `min`, and the error text
of the validator for every other tag; the map has no other keys.  The lists that binding
produces are of this kind for every request DTO: at most one error per field, and the
fields of a DTO have distinct keys. -/
theorem handleValidationErrors_entry_per_error (errs : List FieldError)
    (hkeys : (errs.map (fun e => snakeCase e.field)).Nodup) :
    handleValidationErrors (.validation errs) =
      ⟨StatusBadRequest, .fieldErrors
        (errs.map (fun e => (snakeCase e.field, validationMessage e)))⟩ ∧
    (∀ e ∈ errs, (errs.map (fun e => (snakeCase e.field, validationMessage e))).lookup
      (snakeCase e.field) = some (validationMessage e)) ∧
    (∀ k : String,
      k ∈ (errs.map (fun e => (snakeCase e.field, validationMessage e))).map Prod.fst ↔
        ∃ e ∈ errs, snakeCase e.field = k) ∧
    (∀ e : FieldError,
      (e.tag = "gt" → validationMessage e = "Value must be greater than " ++ e.param ++ ".") ∧
      (e.tag = "required" → validationMessage e = "This field is required.") ∧
      (e.tag = "min" →
        validationMessage e = "Value length must be greater than or equal to " ++ e.param) ∧
      (e.tag ≠ "gt" → e.tag ≠ "required" → e.tag ≠ "min" →
        validationMessage e = e.Error)) ∧
    (∀ r, ((validateCreateOrderRequest r).map (fun e => snakeCase e.field)).Nodup) ∧
    (∀ r, ((validateUpdateOrderStatusRequest r).map (fun e => snakeCase e.field)).Nodup) ∧
    (∀ r, ((validateCreateProductRequest r).map (fun e => snakeCase e.field)).Nodup) ∧
    (∀ r, ((validatePatchProductRequest r).map (fun e => snakeCase e.field)).Nodup) ∧
    (∀ r, ((validateCreateAddressRequest r).map (fun e => snakeCase e.field)).Nodup) ∧
    (∀ x r, ((validateCustomerRegistrationRequest x r).map
      (fun e => snakeCase e.field)).Nodup) ∧
    (∀ x r, ((validateAdminRegistrationRequest x r).map (fun e => snakeCase e.field)).Nodup) ∧
    (∀ x r, ((validateLoginRequest x r).map (fun e => snakeCase e.field)).Nodup) := by
  have hmap : errs.foldl (fun m e => mapSet m (snakeCase e.field) (validationMessage e)) [] =
      errs.map (fun e => (snakeCase e.field, validationMessage e)) := by
    rw [foldl_mapSet_fresh errs [] hkeys (fun e _ h => by simp at h), List.nil_append]
  obtain ⟨m, hm, hlook, hkeysiff, hall, hmsg⟩ := handleValidationErrors_last_error_per_key errs
  have hm2 : handleValidationErrors (.validation errs) =
      ⟨StatusBadRequest, .fieldErrors
        (errs.map (fun e => (snakeCase e.field, validationMessage e)))⟩ := by
    show (⟨StatusBadRequest, .fieldErrors (errs.foldl
      (fun m e => mapSet m (snakeCase e.field) (validationMessage e)) [])⟩ : Response) = _
    rw [hmap]
  have hmeq : m = errs.map (fun e => (snakeCase e.field, validationMessage e)) := by
    rw [hm2] at hm
    have := congrArg Response.body hm
    simp only [Payload.fieldErrors.injEq] at this
    exact this.symm
  subst hmeq
  refine ⟨hm2, ?_, hkeysiff, hmsg, ?_, ?_, ?_, ?_, ?_, ?_, ?_, ?_⟩
  · intro e he
    rw [hlook]
    have hnd2 : (errs.reverse.map (fun e => snakeCase e.field)).Nodup := by
      rw [List.map_reverse]
      exact List.nodup_reverse.mpr hkeys
    rw [find?_key_of_nodup errs.reverse e hnd2 (List.mem_reverse.mpr he)]
    rfl
  · exact fun r => keys_nodup_of_fields_sublist _ _ (validateCreateOrderRequest_fields r)
      (by decide)
  · exact fun r => keys_nodup_of_fields_sublist _ _ (requiredString_fields _ _ _) (by decide)
  · exact fun r => keys_nodup_of_fields_sublist _ _ (validateCreateProductRequest_fields r)
      (by decide)
  · exact fun r => keys_nodup_of_fields_sublist _ _ (validatePatchProductRequest_fields r)
      (by decide)
  · exact fun r => keys_nodup_of_fields_sublist _ _ (validateCreateAddressRequest_fields r)
      (by decide)
  · exact fun x r => keys_nodup_of_fields_sublist _ _
      (validateCustomerRegistrationRequest_fields x r) (by decide)
  · exact fun x r => keys_nodup_of_fields_sublist _ _
      (validateAdminRegistrationRequest_fields x r) (by decide)
  · exact fun x r => keys_nodup_of_fields_sublist _ _ (validateLoginRequest_fields x r)
      (by decide)

/-- C24, on the two errors of an empty `CreateOrderRequest`. -/
theorem handleValidationErrors_entry_per_error_witness :
    (([⟨"CreateOrderRequest.AddressID", "AddressID", "required", ""⟩,
       ⟨"CreateOrderRequest.OrderItems", "OrderItems", "required", ""⟩] :
        List FieldError).map (fun e => snakeCase e.field)).Nodup ∧
    validateCreateOrderRequest ⟨0, none⟩ =
      [⟨"CreateOrderRequest.AddressID", "AddressID", "required", ""⟩,
       ⟨"CreateOrderRequest.OrderItems", "OrderItems", "required", ""⟩] ∧
    handleValidationErrors (.validation
      [⟨"CreateOrderRequest.AddressID", "AddressID", "required", ""⟩,
       ⟨"CreateOrderRequest.OrderItems", "OrderItems", "required", ""⟩]) =
      ⟨StatusBadRequest, .fieldErrors
        [("address_id", "This field is required."),
         ("order_items", "This field is required.")]⟩ :=
  ⟨by decide, by decide,
    (handleValidationErrors_entry_per_error
      [⟨"CreateOrderRequest.AddressID", "AddressID", "required", ""⟩,
       ⟨"CreateOrderRequest.OrderItems", "OrderItems", "required", ""⟩] (by decide)).1⟩

/-! ## addresses -/

theorem CreateAddress_ok (f : Faults) (u : User) (req : CreateAddressRequest) (s : Store)
    (hv : validateCreateAddressRequest req = []) (hf : f 0 = none) :
    CreateAddress f (some u) (.parsed req) s =
      (⟨StatusCreated, .address
        ⟨nextID s.addresses, req.FirstName, req.LastName, req.City, req.Country,
          req.ZipCode, req.StreetAddress, u.ID⟩⟩,
        { s with addresses := s.addresses ++
            [⟨nextID s.addresses, req.FirstName, req.LastName, req.City, req.Country,
              req.ZipCode, req.StreetAddress, u.ID⟩] }) := by
  unfold CreateAddress
  rw [ShouldBindJSON_valid _ req hv]
  simp only [dbCreate, hf]
  rfl

theorem ListAddresses_ok (f : Faults) (v : User) (s : Store) (hf : f 0 = none) :
    ListAddresses f (some v) s =
      (⟨StatusOK, .addresses (s.addresses.filter (fun a => a.UserID == v.ID))⟩, s) := by
  unfold ListAddresses
  simp only [hf]

/-- C28.  Addresses are scoped to their creator.  A `CreateAddress` request of user `u`
whose body passes binding and whose insert succeeds is answered with 201 and the stored
address: the six fields of the request, owner `u`; a following `ListAddresses` of `u`
contains that address.  For every caller `v`, a `ListAddresses` whose query succeeds
returns exactly the stored addresses owned by `v`, hence no address of another owner. -/
theorem addresses_scoped_to_creator (f g : Faults) (u : User) (req : CreateAddressRequest)
    (s : Store) (hv : validateCreateAddressRequest req = []) (hf : f 0 = none)
    (hg : g 0 = none) :
    CreateAddress f (some u) (.parsed req) s =
      (⟨StatusCreated, .address
        ⟨nextID s.addresses, req.FirstName, req.LastName, req.City, req.Country,
          req.ZipCode, req.StreetAddress, u.ID⟩⟩,
        { s with addresses := s.addresses ++
            [⟨nextID s.addresses, req.FirstName, req.LastName, req.City, req.Country,
              req.ZipCode, req.StreetAddress, u.ID⟩] }) ∧
    (∃ l : List Address,
      (ListAddresses g (some u) (CreateAddress f (some u) (.parsed req) s).2).1 =
        ⟨StatusOK, .addresses l⟩ ∧
      (⟨nextID s.addresses, req.FirstName, req.LastName, req.City, req.Country,
          req.ZipCode, req.StreetAddress, u.ID⟩ : Address) ∈ l) ∧
    (∀ (v : User) (t : Store),
      ListAddresses g (some v) t =
        (⟨StatusOK, .addresses (t.addresses.filter (fun a => a.UserID == v.ID))⟩, t)) ∧
    (∀ (v : User) (t : Store) (a : Address),
      a ∈ t.addresses.filter (fun a => a.UserID == v.ID) ↔
        a ∈ t.addresses ∧ a.UserID = v.ID) ∧
    (∀ (v : User) (a : Address), v.ID ≠ u.ID → a.UserID = u.ID →
      a ∉ (CreateAddress f (some u) (.parsed req) s).2.addresses.filter
        (fun a => a.UserID == v.ID)) := by
  refine ⟨CreateAddress_ok f u req s hv hf, ?_, fun v t => ListAddresses_ok g v t hg, ?_, ?_⟩
  · rw [ListAddresses_ok g u _ hg, CreateAddress_ok f u req s hv hf]
    exact ⟨_, rfl, by simp⟩
  · intro v t a
    simp [List.mem_filter]
  · intro v a hne ha hmem
    have := (List.mem_filter.mp hmem).2
    have h2 : a.UserID = v.ID := by simpa using this
    exact hne (by rw [← h2, ha])

/-- C28, on the request of `TestCreateAddress`. -/
theorem addresses_scoped_to_creator_witness :
    validateCreateAddressRequest ⟨"John", "Doe", "CityA", "CountryA", "12345", "Street 1"⟩
      = [] ∧
    CreateAddress noFaults (some sampleCustomer)
      (.parsed ⟨"John", "Doe", "CityA", "CountryA", "12345", "Street 1"⟩) sampleStore =
      (⟨StatusCreated, .address
        ⟨2, "John", "Doe", "CityA", "CountryA", "12345", "Street 1", 1⟩⟩,
        { sampleStore with addresses := sampleStore.addresses ++
            [⟨2, "John", "Doe", "CityA", "CountryA", "12345", "Street 1", 1⟩] }) :=
  ⟨by decide,
    (addresses_scoped_to_creator noFaults noFaults sampleCustomer
      ⟨"John", "Doe", "CityA", "CountryA", "12345", "Street 1"⟩ sampleStore
      (by decide) rfl rfl).1⟩

/-! ## bodies that cannot be bound -/

theorem ShouldBindJSON_invalid {α : Type} (validate : α → List FieldError) (v : α)
    (h : validate v ≠ []) :
    ShouldBindJSON validate (.parsed v) = .error (.validation (validate v)) := by
  unfold ShouldBindJSON
  cases hv : validate v with
  | nil => exact absurd hv h
  | cons e es => simp only [hv]

theorem UpdateOrderStatus_bind_error (f : Faults) (user : User) (id : String) (orderID : Nat)
    (order : Order) (body : JSONBody UpdateOrderStatusRequest) (err : BindError) (s : Store)
    (hadmin : user.Role = RoleAdmin) (hid : parseID id = some orderID) (hf : f 0 = none)
    (hfind : findByID s.orders orderID = some order)
    (hb : ShouldBindJSON validateUpdateOrderStatusRequest body = .error err) :
    UpdateOrderStatus f (some user) id body s = (handleValidationErrors err, s) := by
  have hadm : (!user.IsAdmin) = false := by simp [User.IsAdmin, hadmin]
  unfold UpdateOrderStatus
  simp only [hid, hadm, Bool.false_eq_true, if_false, dbFirst, hf, hfind, hb]

theorem UpdateProduct_bind_error (f : Faults) (user : User) (id : String) (productID : Nat)
    (product : Product) (body : JSONBody CreateProductRequest) (err : BindError) (s : Store)
    (hadmin : user.Role = RoleAdmin) (hid : parseID id = some productID) (hf : f 0 = none)
    (hfind : findByID s.products productID = some product)
    (hb : ShouldBindJSON validateCreateProductRequest body = .error err) :
    UpdateProduct f (some user) id body s = (handleValidationErrors err, s) := by
  have hadm : (!user.IsAdmin) = false := by simp [User.IsAdmin, hadmin]
  unfold UpdateProduct
  simp only [hid, hadm, Bool.false_eq_true, if_false, dbFirst, hf, hfind, hb]

theorem PatchProduct_bind_error (f : Faults) (user : User) (id : String) (productID : Nat)
    (product : Product) (body : JSONBody PatchProductRequest) (err : BindError) (s : Store)
    (hadmin : user.Role = RoleAdmin) (hid : parseID id = some productID) (hf : f 0 = none)
    (hfind : findByID s.products productID = some product)
    (hb : ShouldBindJSON validatePatchProductRequest body = .error err) :
    PatchProduct f (some user) id body s = (handleValidationErrors err, s) := by
  have hadm : (!user.IsAdmin) = false := by simp [User.IsAdmin, hadmin]
  unfold PatchProduct
  simp only [hid, hadm, Bool.false_eq_true, if_false, dbFirst, hf, hfind, hb]

/-- C25 does not hold for bodies that cannot be decoded: a malformed body is answered with
500 `An error occurred. Please try again.` by every handler that hands the binding error
to `handleValidationErrors`, here `CreateOrder`, `CreateProduct`, `RegisterCustomer` and
`LoginUser`; only `CreateAddress` answers it with 400. -/
theorem malformed_body_is_answered_500 :
    CreateOrder noFaults (some sampleCustomer) .malformed sampleStore =
      (⟨StatusInternalServerError, .error "An error occurred. Please try again."⟩,
        sampleStore) ∧
    CreateProduct noFaults (some sampleAdmin) .malformed sampleStore =
      (⟨StatusInternalServerError, .error "An error occurred. Please try again."⟩,
        sampleStore) ∧
    RegisterCustomer sampleExternals noFaults .malformed sampleStore =
      (⟨StatusInternalServerError, .error "An error occurred. Please try again."⟩,
        sampleStore) ∧
    LoginUser sampleExternals noFaults 7 .malformed sampleStore =
      (⟨StatusInternalServerError, .error "An error occurred. Please try again."⟩,
        sampleStore) ∧
    CreateAddress noFaults (some sampleCustomer) .malformed sampleStore =
      (⟨StatusBadRequest, .error "Invalid input data"⟩, sampleStore) := by
  decide

/-- C25 (as amended): a body that is decoded but violates a binding tag fails binding
with the validation errors, a body that cannot be decoded (malformed JSON, a field of the
wrong JSON type) fails binding with another error.  `handleValidationErrors` answers the
first with 400 and the second with 500 `An error occurred. Please try again.`; it writes
the response, and the store is unchanged, whenever binding fails in `CreateOrder`,
`CreateProduct`, `RegisterCustomer`, `RegisterAdmin` and `LoginUser`, and, once an
administrator addressed an existing row, in `UpdateOrderStatus`, `UpdateProduct` and
`PatchProduct`.  `CreateAddress` answers every binding failure with 400
`Invalid input data`. -/
theorem binding_failure_is_400_or_500 (x : Externals) (f : Faults) (s : Store) :
    (∀ (α : Type) (validate : α → List FieldError) (v : α), validate v ≠ [] →
      ShouldBindJSON validate (.parsed v) = .error (.validation (validate v))) ∧
    (∀ (α : Type) (validate : α → List FieldError),
      ∃ msg : String, ShouldBindJSON validate .malformed = .error (.other msg)) ∧
    (∀ errs : List FieldError,
      (handleValidationErrors (.validation errs)).status = StatusBadRequest) ∧
    (∀ msg : String, handleValidationErrors (.other msg) =
      ⟨StatusInternalServerError, .error "An error occurred. Please try again."⟩) ∧
    (∀ authUser body err, ShouldBindJSON validateCreateOrderRequest body = .error err →
      CreateOrder f authUser body s = (handleValidationErrors err, s)) ∧
    (∀ authUser body err, ShouldBindJSON validateCreateProductRequest body = .error err →
      CreateProduct f authUser body s = (handleValidationErrors err, s)) ∧
    (∀ body err, ShouldBindJSON (validateCustomerRegistrationRequest x) body = .error err →
      RegisterCustomer x f body s = (handleValidationErrors err, s)) ∧
    (∀ body err, ShouldBindJSON (validateAdminRegistrationRequest x) body = .error err →
      RegisterAdmin x f body s = (handleValidationErrors err, s)) ∧
    (∀ now body err, ShouldBindJSON (validateLoginRequest x) body = .error err →
      LoginUser x f now body s = (handleValidationErrors err, s)) ∧
    (∀ (user : User) (id : String) (orderID : Nat) (order : Order) body err,
      user.Role = RoleAdmin → parseID id = some orderID → f 0 = none →
      findByID s.orders orderID = some order →
      ShouldBindJSON validateUpdateOrderStatusRequest body = .error err →
      UpdateOrderStatus f (some user) id body s = (handleValidationErrors err, s)) ∧
    (∀ (user : User) (id : String) (productID : Nat) (product : Product) body err,
      user.Role = RoleAdmin → parseID id = some productID → f 0 = none →
      findByID s.products productID = some product →
      ShouldBindJSON validateCreateProductRequest body = .error err →
      UpdateProduct f (some user) id body s = (handleValidationErrors err, s)) ∧
    (∀ (user : User) (id : String) (productID : Nat) (product : Product) body err,
      user.Role = RoleAdmin → parseID id = some productID → f 0 = none →
      findByID s.products productID = some product →
      ShouldBindJSON validatePatchProductRequest body = .error err →
      PatchProduct f (some user) id body s = (handleValidationErrors err, s)) ∧
    (∀ authUser body err, ShouldBindJSON validateCreateAddressRequest body = .error err →
      CreateAddress f authUser body s =
        (⟨StatusBadRequest, .error "Invalid input data"⟩, s)) := by
  refine ⟨fun α validate v h => ShouldBindJSON_invalid validate v h,
    fun α validate => ⟨_, rfl⟩, fun errs => rfl, fun msg => rfl,
    ?_, ?_, ?_, ?_, ?_, ?_, ?_, ?_, ?_⟩
  · intro authUser body err hb
    unfold CreateOrder
    rw [hb]
  · intro authUser body err hb
    unfold CreateProduct
    rw [hb]
  · intro body err hb
    unfold RegisterCustomer
    rw [hb]
  · intro body err hb
    unfold RegisterAdmin
    rw [hb]
  · intro now body err hb
    unfold LoginUser
    rw [hb]
  · intro user id orderID order body err hadmin hid hf hfind hb
    exact UpdateOrderStatus_bind_error f user id orderID order body err s hadmin hid hf hfind hb
  · intro user id productID product body err hadmin hid hf hfind hb
    exact UpdateProduct_bind_error f user id productID product body err s hadmin hid hf hfind hb
  · intro user id productID product body err hadmin hid hf hfind hb
    exact PatchProduct_bind_error f user id productID product body err s hadmin hid hf hfind hb
  · intro authUser body err hb
    unfold CreateAddress
    rw [hb]

/-- C25 (as amended), on the body `{}`: an order without address and items. -/
theorem binding_failure_is_400_or_500_witness :
    ShouldBindJSON validateCreateOrderRequest (.parsed ⟨0, none⟩) =
      .error (.validation
        [⟨"CreateOrderRequest.AddressID", "AddressID", "required", ""⟩,
         ⟨"CreateOrderRequest.OrderItems", "OrderItems", "required", ""⟩]) ∧
    CreateOrder noFaults (some sampleCustomer) (.parsed ⟨0, none⟩) sampleStore =
      (handleValidationErrors (.validation
        [⟨"CreateOrderRequest.AddressID", "AddressID", "required", ""⟩,
         ⟨"CreateOrderRequest.OrderItems", "OrderItems", "required", ""⟩]), sampleStore) :=
  ⟨rfl,
    (binding_failure_is_400_or_500 sampleExternals noFaults sampleStore).2.2.2.2.1
      (some sampleCustomer) (.parsed ⟨0, none⟩) _ rfl⟩

/-! ## what a 500 response tells about the error -/

theorem isSome_cases {o1 o2 : Option String} (h : o1.isSome = o2.isSome) :
    (o1 = none ∧ o2 = none) ∨ ∃ e1 e2, o1 = some e1 ∧ o2 = some e2 := by
  cases o1 with
  | none =>
    cases o2 with
    | none => exact Or.inl ⟨rfl, rfl⟩
    | some e2 => cases h
  | some e1 =>
    cases o2 with
    | none => cases h
    | some e2 => exact Or.inr ⟨e1, e2, rfl, rfl⟩

theorem CreateAddress_generic (f1 f2 : Faults) (authUser : Option User)
    (body : JSONBody CreateAddressRequest) (s : Store) (h0 : (f1 0).isSome = (f2 0).isSome) :
    CreateAddress f1 authUser body s = CreateAddress f2 authUser body s := by
  unfold CreateAddress dbCreate
  rcases isSome_cases h0 with ⟨h1, h2⟩ | ⟨e1, e2, h1, h2⟩
  · rw [h1, h2]
  · rw [h1, h2]

theorem ListAddresses_generic (f1 f2 : Faults) (authUser : Option User) (s : Store)
    (h0 : (f1 0).isSome = (f2 0).isSome) :
    ListAddresses f1 authUser s = ListAddresses f2 authUser s := by
  unfold ListAddresses
  rcases isSome_cases h0 with ⟨h1, h2⟩ | ⟨e1, e2, h1, h2⟩
  · rw [h1, h2]
  · rw [h1, h2]

theorem LoginUser_generic (x : Externals) (f1 f2 : Faults) (now : Nat)
    (body : JSONBody LoginRequest) (s : Store) (h0 : (f1 0).isSome = (f2 0).isSome)
    (h1 : (f1 1).isSome = (f2 1).isSome) :
    LoginUser x f1 now body s = LoginUser x f2 now body s := by
  unfold LoginUser dbFirstByEmail dbSave
  rcases isSome_cases h0 with ⟨a1, a2⟩ | ⟨e1, e2, a1, a2⟩
  · rcases isSome_cases h1 with ⟨b1, b2⟩ | ⟨d1, d2, b1, b2⟩
    · rw [a1, a2, b1, b2]
    · rw [a1, a2, b1, b2]
  · rw [a1, a2]

theorem UpdateProduct_generic (f1 f2 : Faults) (authUser : Option User) (id : String)
    (body : JSONBody CreateProductRequest) (s : Store) (h0 : f1 0 = f2 0)
    (h1 : (f1 1).isSome = (f2 1).isSome) :
    UpdateProduct f1 authUser id body s = UpdateProduct f2 authUser id body s := by
  unfold UpdateProduct dbFirst dbUpdates
  rw [h0]
  rcases isSome_cases h1 with ⟨b1, b2⟩ | ⟨d1, d2, b1, b2⟩
  · rw [b1, b2]
  · rw [b1, b2]

theorem validateOrderItems_generic (f1 f2 : Faults) (table : List Product)
    (h : ∀ k, (f1 k).isSome = (f2 k).isSome) :
    ∀ (items : List OrderItemRequest) (k : Nat) (products : List (Nat × Product)) (total : F64),
      validateOrderItems f1 table k items products total =
        validateOrderItems f2 table k items products total := by
  intro items
  induction items with
  | nil => intro k products total; rfl
  | cons item rest ih =>
    intro k products total
    unfold validateOrderItems dbFirst
    rcases isSome_cases (h k) with ⟨a1, a2⟩ | ⟨e1, e2, a1, a2⟩
    · rw [a1, a2]
      simp only
      cases findByID table item.ProductID with
      | none => rfl
      | some product =>
        simp only
        split
        · rfl
        · exact ih _ _ _
    · rw [a1, a2]

theorem firstErrorResponse_other (what e : String) (h : e ≠ "record not found") :
    firstErrorResponse what e = ⟨StatusInternalServerError, .error e⟩ := by
  unfold firstErrorResponse
  have : (e == "record not found") = false := by simpa using h
  simp only [this, Bool.false_eq_true, if_false]

theorem ListProducts_find_error (f : Faults) (page pageSize : Option String) (p sz : Int)
    (e : String) (s : Store) (hp : parsePositive page "1" = some p)
    (hsz : parsePositive pageSize "10" = some sz) (h0 : f 0 = some e) :
    ListProducts f page pageSize s = (⟨StatusInternalServerError, .error e⟩, s) := by
  unfold ListProducts
  simp only [hp, hsz, h0]

theorem ListOrders_find_error (f : Faults) (user : User) (user_id : String)
    (page pageSize : Option String) (userID : Nat) (p sz : Int) (e : String) (s : Store)
    (hid : parseID user_id = some userID) (hp : parsePositive page "1" = some p)
    (hsz : parsePositive pageSize "10" = some sz)
    (hallow : (!user.IsAdmin && user.ID != userID) = false) (h0 : f 0 = some e) :
    ListOrders f (some user) user_id page pageSize s =
      (⟨StatusInternalServerError, .error e⟩, s) := by
  unfold ListOrders
  simp only [hid, hp, hsz, hallow, Bool.false_eq_true, if_false, h0]

theorem GetProductByID_first_error (f : Faults) (id : String) (productID : Nat) (e : String)
    (s : Store) (hid : parseID id = some productID) (h0 : f 0 = some e)
    (hne : e ≠ "record not found") :
    GetProductByID f id s = (⟨StatusInternalServerError, .error e⟩, s) := by
  unfold GetProductByID dbFirst
  simp only [hid, h0, firstErrorResponse_other _ e hne]

theorem CreateProduct_create_error (f : Faults) (user : User) (req : CreateProductRequest)
    (e : String) (s : Store) (hadmin : user.Role = RoleAdmin)
    (hv : validateCreateProductRequest req = []) (h0 : f 0 = some e) :
    CreateProduct f (some user) (.parsed req) s =
      (⟨StatusInternalServerError, .error ("Failed to create product: " ++ e)⟩, s) := by
  have hadm : (!user.IsAdmin) = false := by simp [User.IsAdmin, hadmin]
  unfold CreateProduct dbCreate
  rw [ShouldBindJSON_valid _ req hv]
  simp only [hadm, Bool.false_eq_true, if_false, h0]

theorem UpdateProduct_first_error (f : Faults) (user : User) (id : String) (productID : Nat)
    (body : JSONBody CreateProductRequest) (e : String) (s : Store)
    (hadmin : user.Role = RoleAdmin) (hid : parseID id = some productID) (h0 : f 0 = some e)
    (hne : e ≠ "record not found") :
    UpdateProduct f (some user) id body s = (⟨StatusInternalServerError, .error e⟩, s) := by
  have hadm : (!user.IsAdmin) = false := by simp [User.IsAdmin, hadmin]
  unfold UpdateProduct dbFirst
  simp only [hid, hadm, Bool.false_eq_true, if_false, h0, firstErrorResponse_other _ e hne]

theorem PatchProduct_first_error (f : Faults) (user : User) (id : String) (productID : Nat)
    (body : JSONBody PatchProductRequest) (e : String) (s : Store)
    (hadmin : user.Role = RoleAdmin) (hid : parseID id = some productID) (h0 : f 0 = some e)
    (hne : e ≠ "record not found") :
    PatchProduct f (some user) id body s = (⟨StatusInternalServerError, .error e⟩, s) := by
  have hadm : (!user.IsAdmin) = false := by simp [User.IsAdmin, hadmin]
  unfold PatchProduct dbFirst
  simp only [hid, hadm, Bool.false_eq_true, if_false, h0, firstErrorResponse_other _ e hne]

theorem PatchProduct_updates_error (f : Faults) (user : User) (id : String) (productID : Nat)
    (product : Product) (req : PatchProductRequest) (e : String) (s : Store)
    (hadmin : user.Role = RoleAdmin) (hid : parseID id = some productID) (h0 : f 0 = none)
    (hfind : findByID s.products productID = some product)
    (hv : validatePatchProductRequest req = []) (h1 : f 1 = some e) :
    PatchProduct f (some user) id (.parsed req) s =
      (⟨StatusInternalServerError, .error e⟩, s) := by
  have hadm : (!user.IsAdmin) = false := by simp [User.IsAdmin, hadmin]
  unfold PatchProduct dbFirst dbUpdates
  rw [ShouldBindJSON_valid _ req hv]
  simp only [hid, hadm, Bool.false_eq_true, if_false, h0, hfind, h1]

theorem DeleteProduct_first_error (f : Faults) (user : User) (id : String) (productID : Nat)
    (e : String) (s : Store)
    (hadmin : user.Role = RoleAdmin) (hid : parseID id = some productID) (h0 : f 0 = some e)
    (hne : e ≠ "record not found") :
    DeleteProduct f (some user) id s = (⟨StatusInternalServerError, .error e⟩, s) := by
  have hadm : (!user.IsAdmin) = false := by simp [User.IsAdmin, hadmin]
  unfold DeleteProduct dbFirst
  simp only [hid, hadm, Bool.false_eq_true, if_false, h0, firstErrorResponse_other _ e hne]

theorem DeleteProduct_delete_error (f : Faults) (user : User) (id : String) (productID : Nat)
    (product : Product) (e : String) (s : Store)
    (hadmin : user.Role = RoleAdmin) (hid : parseID id = some productID) (h0 : f 0 = none)
    (hfind : findByID s.products productID = some product) (h1 : f 1 = some e) :
    DeleteProduct f (some user) id s =
      (⟨StatusInternalServerError, .error ("Failed to delete product: " ++ e)⟩, s) := by
  have hadm : (!user.IsAdmin) = false := by simp [User.IsAdmin, hadmin]
  unfold DeleteProduct dbFirst dbDelete
  simp only [hid, hadm, Bool.false_eq_true, if_false, h0, hfind, h1]

theorem CancelOrder_first_error (f : Faults) (user : User) (id : String) (orderID : Nat)
    (e : String) (s : Store) (hid : parseID id = some orderID) (h0 : f 0 = some e)
    (hne : e ≠ "record not found") :
    CancelOrder f (some user) id s = (⟨StatusInternalServerError, .error e⟩, s) := by
  unfold CancelOrder dbFirst
  simp only [hid, h0, firstErrorResponse_other _ e hne]

theorem CancelOrder_save_error (f : Faults) (user : User) (id : String) (orderID : Nat)
    (order : Order) (e : String) (s : Store) (hid : parseID id = some orderID)
    (h0 : f 0 = none) (hfind : findByID s.orders orderID = some order)
    (hown : order.UserID = user.ID) (hst : order.Status = OrderStatusPending)
    (h1 : f 1 = some e) :
    CancelOrder f (some user) id s = (⟨StatusInternalServerError, .error e⟩, s) := by
  have a1 : (order.UserID != user.ID) = false := by simp [hown]
  have a2 : (order.Status != OrderStatusPending) = false := by simp [hst]
  unfold CancelOrder dbFirst dbSave
  simp only [hid, h0, hfind, a1, a2, Bool.false_eq_true, if_false, h1]

theorem UpdateOrderStatus_first_error (f : Faults) (user : User) (id : String)
    (orderID : Nat) (body : JSONBody UpdateOrderStatusRequest) (e : String) (s : Store)
    (hadmin : user.Role = RoleAdmin) (hid : parseID id = some orderID) (h0 : f 0 = some e)
    (hne : e ≠ "record not found") :
    UpdateOrderStatus f (some user) id body s =
      (⟨StatusInternalServerError, .error e⟩, s) := by
  have hadm : (!user.IsAdmin) = false := by simp [User.IsAdmin, hadmin]
  unfold UpdateOrderStatus dbFirst
  simp only [hid, hadm, Bool.false_eq_true, if_false, h0, firstErrorResponse_other _ e hne]

theorem registerUser_create_error (x : Externals) (f : Faults)
    (email firstName lastName password role msg hashed e : String) (s : Store)
    (hh : x.GenerateFromPassword password = some hashed) (h0 : f 0 = some e)
    (hdup : stringsContains e
      "duplicate key value violates unique constraint \"uni_users_email\"" = false) :
    registerUser x f email firstName lastName password role msg s =
      (⟨StatusInternalServerError, .error e⟩, s) := by
  unfold registerUser dbCreateUser
  simp only [hh, h0, hdup, Bool.false_eq_true, if_false]

theorem validateOrderItems_no_fault (f : Faults) (table : List Product) :
    ∀ (items : List OrderItemRequest) (k : Nat) (products : List (Nat × Product)) (total : F64),
      (∀ i, i < items.length → f (k + i) = none) →
      validateOrderItems f table k items products total =
        validateOrderItems noFaults table k items products total := by
  intro items
  induction items with
  | nil => intro k products total _; rfl
  | cons item rest ih =>
    intro k products total h
    have hk : f k = none := h 0 (by simp)
    unfold validateOrderItems dbFirst
    simp only [hk, noFaults]
    cases findByID table item.ProductID with
    | none => rfl
    | some product =>
      simp only
      split
      · rfl
      · apply ih
        intro i hi
        have := h (i + 1) (by simp; omega)
        rw [← this]
        congr 1
        omega

theorem CreateOrder_insert_error (f : Faults) (user : User) (req : CreateOrderRequest)
    (items : List OrderItemRequest) (e : String) (s : Store)
    (hv : validateCreateOrderRequest req = []) (hitems : req.OrderItems = some items)
    (hvalid : ∀ it ∈ items, validItem s.products it = true)
    (hlook : ∀ k, k < items.length → f k = none) (hn : f items.length = some e) :
    CreateOrder f (some user) (.parsed req) s =
      (⟨StatusInternalServerError, .error e⟩, s) := by
  obtain ⟨res, hres⟩ := validateOrderItems_succeeds s.products items 0 [] 0 hvalid
  have hval : validateOrderItems f s.products 0 items [] 0 = .ok res := by
    rw [validateOrderItems_no_fault f s.products items 0 [] 0
      (fun i hi => by rw [Nat.zero_add]; exact hlook i hi)]
    exact hres
  unfold CreateOrder
  rw [ShouldBindJSON_valid _ req hv]
  simp only [hitems, Option.getD_some, hval, dbCreate, hn]

theorem dbSave_error_fault {α : Type} [HasID α] {f : Faults} {k : Nat} {rows : List α}
    {row : α} {e : String} (h : dbSave f k rows row = .error e) : f k = some e := by
  unfold dbSave at h
  cases hk : f k with
  | some e1 =>
    rw [hk] at h
    cases h
    rfl
  | none =>
    rw [hk] at h
    simp only at h
    split at h <;> cases h

theorem createOrderItems_error_at (f : Faults) (orderID : Nat)
    (products : List (Nat × Product)) (items : List OrderItemRequest) (k : Nat)
    (rows rows1 : List OrderItem) (err : Option String) (j : Nat) (e : String)
    (h : createOrderItems f orderID products k items rows = (rows1, err))
    (hj : j < items.length) (hnone : ∀ i, i < j → f (k + i) = none)
    (hfail : f (k + j) = some e) : err = some e := by
  obtain ⟨created, j1, -, -, -, h3, h4⟩ := createOrderItems_spec f orderID products items k rows
  rw [h] at h4
  rcases h4 with ⟨-, hlen⟩ | ⟨-, herr, hne⟩
  · have := h3 j (by omega)
    rw [hfail] at this
    cases this
  · by_cases hj1 : j < j1
    · have := h3 j hj1
      rw [hfail] at this
      cases this
    · by_cases hj2 : j1 < j
      · exact absurd (hnone j1 hj2) hne
      · have : j = j1 := by omega
        subst this
        have h5 : err = f (k + j) := herr
        rw [hfail] at h5
        exact h5

theorem createOrderItems_no_error (f : Faults) (orderID : Nat)
    (products : List (Nat × Product)) (items : List OrderItemRequest) (k : Nat)
    (rows rows1 : List OrderItem) (err : Option String)
    (h : createOrderItems f orderID products k items rows = (rows1, err))
    (hnone : ∀ i, i < items.length → f (k + i) = none) : err = none := by
  obtain ⟨created, j1, -, -, -, -, h4⟩ := createOrderItems_spec f orderID products items k rows
  rw [h] at h4
  rcases h4 with ⟨herr, -⟩ | ⟨hlt, -, hne⟩
  · exact herr
  · exact absurd (hnone j1 hlt) hne

theorem CreateOrder_item_insert_error (f : Faults) (user : User) (req : CreateOrderRequest)
    (items : List OrderItemRequest) (j : Nat) (e : String) (s : Store)
    (hv : validateCreateOrderRequest req = []) (hitems : req.OrderItems = some items)
    (hvalid : ∀ it ∈ items, validItem s.products it = true) (hj : j < items.length)
    (hnone : ∀ k, k < items.length + 1 + j → f k = none)
    (hfail : f (items.length + 1 + j) = some e) :
    (CreateOrder f (some user) (.parsed req) s).1 =
      ⟨StatusInternalServerError, .error e⟩ := by
  obtain ⟨res, hres⟩ := validateOrderItems_succeeds s.products items 0 [] 0 hvalid
  have hval : validateOrderItems f s.products 0 items [] 0 = .ok res := by
    rw [validateOrderItems_no_fault f s.products items 0 [] 0
      (fun i hi => by rw [Nat.zero_add]; exact hnone i (by omega))]
    exact hres
  have hn : f items.length = none := hnone _ (by omega)
  unfold CreateOrder
  rw [ShouldBindJSON_valid _ req hv]
  simp only [hitems, Option.getD_some, hval, dbCreate, hn]
  split
  · next rows e1 heq =>
    have := createOrderItems_error_at f _ _ items (items.length + 1) _ rows (some e1) j e heq hj
      (fun i hi => hnone _ (by omega)) hfail
    cases this
    rfl
  · next rows heq =>
    have := createOrderItems_error_at f _ _ items (items.length + 1) _ rows none j e heq hj
      (fun i hi => hnone _ (by omega)) hfail
    cases this

theorem CreateOrder_save_error (f : Faults) (user : User) (req : CreateOrderRequest)
    (items : List OrderItemRequest) (e : String) (s : Store)
    (hv : validateCreateOrderRequest req = []) (hitems : req.OrderItems = some items)
    (hvalid : ∀ it ∈ items, validItem s.products it = true)
    (hnone : ∀ k, k < 2 * items.length + 1 → f k = none)
    (hfail : f (2 * items.length + 1) = some e) :
    (CreateOrder f (some user) (.parsed req) s).1 =
      ⟨StatusInternalServerError, .error e⟩ := by
  obtain ⟨res, hres⟩ := validateOrderItems_succeeds s.products items 0 [] 0 hvalid
  have hval : validateOrderItems f s.products 0 items [] 0 = .ok res := by
    rw [validateOrderItems_no_fault f s.products items 0 [] 0
      (fun i hi => by rw [Nat.zero_add]; exact hnone i (by omega))]
    exact hres
  have hn : f items.length = none := hnone _ (by omega)
  unfold CreateOrder
  rw [ShouldBindJSON_valid _ req hv]
  simp only [hitems, Option.getD_some, hval, dbCreate, hn]
  split
  · next rows e1 heq =>
    have := createOrderItems_no_error f _ _ items (items.length + 1) _ rows (some e1) heq
      (fun i hi => hnone _ (by omega))
    cases this
  · next rows heq =>
    simp only [dbSave, hfail]

theorem CreateOrder_reload_error (f : Faults) (user : User) (req : CreateOrderRequest)
    (items : List OrderItemRequest) (e : String) (s : Store)
    (hv : validateCreateOrderRequest req = []) (hitems : req.OrderItems = some items)
    (hvalid : ∀ it ∈ items, validItem s.products it = true)
    (hnone : ∀ k, k < 2 * items.length + 2 → f k = none)
    (hfail : f (2 * items.length + 2) = some e) :
    (CreateOrder f (some user) (.parsed req) s).1 =
      ⟨StatusInternalServerError, .error e⟩ := by
  obtain ⟨res, hres⟩ := validateOrderItems_succeeds s.products items 0 [] 0 hvalid
  have hval : validateOrderItems f s.products 0 items [] 0 = .ok res := by
    rw [validateOrderItems_no_fault f s.products items 0 [] 0
      (fun i hi => by rw [Nat.zero_add]; exact hnone i (by omega))]
    exact hres
  have hn : f items.length = none := hnone _ (by omega)
  have hsave : f (2 * items.length + 1) = none := hnone _ (by omega)
  unfold CreateOrder
  rw [ShouldBindJSON_valid _ req hv]
  simp only [hitems, Option.getD_some, hval, dbCreate, hn]
  split
  · next rows e1 heq =>
    have := createOrderItems_no_error f _ _ items (items.length + 1) _ rows (some e1) heq
      (fun i hi => hnone _ (by omega))
    cases this
  · next rows heq =>
    split
    · next e1 heq2 =>
      have := dbSave_error_fault heq2
      rw [hsave] at this
      cases this
    · next orders3 heq2 =>
      simp only [dbFirst, hfail]

theorem UpdateOrderStatus_save_error (f : Faults) (user : User) (id : String)
    (orderID : Nat) (order : Order) (status e : String) (s : Store)
    (hadmin : user.Role = RoleAdmin) (hid : parseID id = some orderID) (h0 : f 0 = none)
    (hfind : findByID s.orders orderID = some order)
    (hst : status = OrderStatusPending ∨ status = OrderStatusCompleted ∨
      status = OrderStatusCancelled)
    (h1 : f 1 = some e) :
    UpdateOrderStatus f (some user) id (.parsed ⟨status⟩) s =
      (⟨StatusInternalServerError, .error e⟩, s) := by
  have hadm : (!user.IsAdmin) = false := by simp [User.IsAdmin, hadmin]
  have hne : status ≠ "" := by
    rcases hst with h | h | h <;> rw [h] <;> decide
  have hv : validateUpdateOrderStatusRequest ⟨status⟩ = [] := by
    simp [validateUpdateOrderStatusRequest, requiredString, hne]
  have hok : (status != OrderStatusPending && status != OrderStatusCompleted
      && status != OrderStatusCancelled) = false := by
    rcases hst with h | h | h <;> rw [h] <;> decide
  unfold UpdateOrderStatus dbFirst dbSave
  rw [ShouldBindJSON_valid _ _ hv]
  simp only [hid, hadm, Bool.false_eq_true, if_false, h0, hfind, hok, h1]

theorem ListOrders_count_generic (f1 f2 : Faults) (authUser : Option User) (user_id : String)
    (page pageSize : Option String) (s : Store) (h0 : f1 0 = f2 0)
    (h1 : (f1 1).isSome = (f2 1).isSome) :
    ListOrders f1 authUser user_id page pageSize s =
      ListOrders f2 authUser user_id page pageSize s := by
  unfold ListOrders
  rw [h0]
  rcases isSome_cases h1 with ⟨b1, b2⟩ | ⟨d1, d2, b1, b2⟩
  · rw [b1, b2]
  · rw [b1, b2]

theorem ListProducts_count_generic (f1 f2 : Faults) (page pageSize : Option String)
    (s : Store) (h0 : f1 0 = f2 0) (h1 : (f1 1).isSome = (f2 1).isSome) :
    ListProducts f1 page pageSize s = ListProducts f2 page pageSize s := by
  unfold ListProducts
  rw [h0]
  rcases isSome_cases h1 with ⟨b1, b2⟩ | ⟨d1, d2, b1, b2⟩
  · rw [b1, b2]
  · rw [b1, b2]

theorem LoadAuthUserMiddleware_generic (jwtParse : JwtParse) (f1 f2 : Faults) (s : Store)
    (c : Context) (h0 : (f1 0).isSome = (f2 0).isSome) :
    LoadAuthUserMiddleware jwtParse f1 s c = LoadAuthUserMiddleware jwtParse f2 s c := by
  unfold LoadAuthUserMiddleware GetAuthenticatedUser dbFirst
  rcases isSome_cases h0 with ⟨b1, b2⟩ | ⟨d1, d2, b1, b2⟩
  · rw [b1, b2]
  · rw [b1, b2]

theorem registerUser_duplicate (x : Externals) (f : Faults)
    (email firstName lastName password role msg hashed e : String) (s : Store)
    (hh : x.GenerateFromPassword password = some hashed) (h0 : f 0 = some e)
    (hdup : stringsContains e
      "duplicate key value violates unique constraint \"uni_users_email\"" = true) :
    registerUser x f email firstName lastName password role msg s =
      (⟨StatusBadRequest, .error "User with this email already exists."⟩, s) := by
  unfold registerUser dbCreateUser
  simp only [hh, h0, hdup, if_true]

/-- C26 does not hold: when the insert of the order fails in `CreateOrder`, or the query
of `ListProducts`, the 500 body is the text of the persistence error, so two errors at the
same call give two different bodies. -/
theorem persistence_error_text_reaches_client :
    (CreateOrder (failAt 1 "dial tcp 10.0.0.5:5432: connect: connection refused")
      (some sampleCustomer) (.parsed sampleOrderRequest) sampleStore).1 =
      ⟨StatusInternalServerError,
        .error "dial tcp 10.0.0.5:5432: connect: connection refused"⟩ ∧
    (CreateOrder (failAt 1 "pq: password authentication failed for user \"shop\"")
      (some sampleCustomer) (.parsed sampleOrderRequest) sampleStore).1 =
      ⟨StatusInternalServerError,
        .error "pq: password authentication failed for user \"shop\""⟩ ∧
    (CreateOrder (failAt 1 "dial tcp 10.0.0.5:5432: connect: connection refused")
      (some sampleCustomer) (.parsed sampleOrderRequest) sampleStore).1.body ≠
    (CreateOrder (failAt 1 "pq: password authentication failed for user \"shop\"")
      (some sampleCustomer) (.parsed sampleOrderRequest) sampleStore).1.body ∧
    (ListProducts (failAt 0 "dial tcp 10.0.0.5:5432: connect: connection refused")
      none none sampleStore).1 =
      ⟨StatusInternalServerError,
        .error "dial tcp 10.0.0.5:5432: connect: connection refused"⟩ ∧
    (ListProducts (failAt 0 "pq: password authentication failed for user \"shop\"")
      none none sampleStore).1 =
      ⟨StatusInternalServerError,
        .error "pq: password authentication failed for user \"shop\""⟩ := by
  decide!

/-- C26 (as amended): two persistence errors at the same call give the same response in
`CreateAddress`, `ListAddresses`, `LoginUser` and the middleware, at the update call of
`UpdateProduct`, at the count queries of `ListOrders` and `ListProducts` (whose error is
dropped), and in the product lookups of `CreateOrder` (400 with the product identifier);
the 500 written for a binding error that is not a validation error is generic as well.  At
every other persistence call the 500 body carries the text of the error: as it is in
`ListProducts` and `ListOrders` (the row query), `GetProductByID`, at the insert of the
order, at each insert of an order item, at the save and at the final read of
`CreateOrder`, at the row lookups of `CancelOrder`, `UpdateOrderStatus`, `UpdateProduct`,
`PatchProduct` and `DeleteProduct`, at the save of `CancelOrder` and of
`UpdateOrderStatus`, at the update of `PatchProduct` and at the insert of the registration
handlers; after a fixed text in `CreateProduct` and at the delete of `DeleteProduct`.  The
texts the handlers recognise are answered otherwise: `record not found` at a row lookup
with 404, a duplicate email at registration with 400. -/
theorem error_text_generic_only_in_some_handlers (x : Externals) (f f1 f2 : Faults)
    (s : Store) (e : String) (hsame : ∀ k, (f1 k).isSome = (f2 k).isSome) :
    (∀ authUser body, CreateAddress f1 authUser body s = CreateAddress f2 authUser body s) ∧
    (∀ authUser, ListAddresses f1 authUser s = ListAddresses f2 authUser s) ∧
    (∀ now body, LoginUser x f1 now body s = LoginUser x f2 now body s) ∧
    (∀ authUser id body, f1 0 = f2 0 →
      UpdateProduct f1 authUser id body s = UpdateProduct f2 authUser id body s) ∧
    (∀ items k products total,
      validateOrderItems f1 s.products k items products total =
        validateOrderItems f2 s.products k items products total) ∧
    (∀ msg1 msg2, handleValidationErrors (.other msg1) = handleValidationErrors (.other msg2)) ∧
    (∀ page pageSize p sz, parsePositive page "1" = some p →
      parsePositive pageSize "10" = some sz → f 0 = some e →
      ListProducts f page pageSize s = (⟨StatusInternalServerError, .error e⟩, s)) ∧
    (∀ (user : User) user_id page pageSize userID p sz, parseID user_id = some userID →
      parsePositive page "1" = some p → parsePositive pageSize "10" = some sz →
      (!user.IsAdmin && user.ID != userID) = false → f 0 = some e →
      ListOrders f (some user) user_id page pageSize s =
        (⟨StatusInternalServerError, .error e⟩, s)) ∧
    (∀ id productID, parseID id = some productID → f 0 = some e →
      e ≠ "record not found" →
      GetProductByID f id s = (⟨StatusInternalServerError, .error e⟩, s)) ∧
    (∀ (user : User) (req : CreateOrderRequest) (items : List OrderItemRequest),
      validateCreateOrderRequest req = [] → req.OrderItems = some items →
      (∀ it ∈ items, validItem s.products it = true) →
      (∀ k, k < items.length → f k = none) → f items.length = some e →
      CreateOrder f (some user) (.parsed req) s =
        (⟨StatusInternalServerError, .error e⟩, s)) ∧
    (∀ (user : User) id orderID, parseID id = some orderID → f 0 = some e →
      e ≠ "record not found" →
      CancelOrder f (some user) id s = (⟨StatusInternalServerError, .error e⟩, s)) ∧
    (∀ (user : User) id orderID (order : Order), parseID id = some orderID → f 0 = none →
      findByID s.orders orderID = some order → order.UserID = user.ID →
      order.Status = OrderStatusPending → f 1 = some e →
      CancelOrder f (some user) id s = (⟨StatusInternalServerError, .error e⟩, s)) ∧
    (∀ (user : User) id orderID body, user.Role = RoleAdmin → parseID id = some orderID →
      f 0 = some e → e ≠ "record not found" →
      UpdateOrderStatus f (some user) id body s =
        (⟨StatusInternalServerError, .error e⟩, s)) ∧
    (∀ (user : User) id productID body, user.Role = RoleAdmin →
      parseID id = some productID → f 0 = some e → e ≠ "record not found" →
      UpdateProduct f (some user) id body s = (⟨StatusInternalServerError, .error e⟩, s)) ∧
    (∀ (user : User) id productID body, user.Role = RoleAdmin →
      parseID id = some productID → f 0 = some e → e ≠ "record not found" →
      PatchProduct f (some user) id body s = (⟨StatusInternalServerError, .error e⟩, s)) ∧
    (∀ (user : User) id productID (product : Product) (req : PatchProductRequest),
      user.Role = RoleAdmin → parseID id = some productID → f 0 = none →
      findByID s.products productID = some product →
      validatePatchProductRequest req = [] → f 1 = some e →
      PatchProduct f (some user) id (.parsed req) s =
        (⟨StatusInternalServerError, .error e⟩, s)) ∧
    (∀ (user : User) id productID, user.Role = RoleAdmin →
      parseID id = some productID → f 0 = some e → e ≠ "record not found" →
      DeleteProduct f (some user) id s = (⟨StatusInternalServerError, .error e⟩, s)) ∧
    (∀ (user : User) id productID (product : Product), user.Role = RoleAdmin →
      parseID id = some productID → f 0 = none →
      findByID s.products productID = some product → f 1 = some e →
      DeleteProduct f (some user) id s =
        (⟨StatusInternalServerError, .error ("Failed to delete product: " ++ e)⟩, s)) ∧
    (∀ (user : User) (req : CreateProductRequest), user.Role = RoleAdmin →
      validateCreateProductRequest req = [] → f 0 = some e →
      CreateProduct f (some user) (.parsed req) s =
        (⟨StatusInternalServerError, .error ("Failed to create product: " ++ e)⟩, s)) ∧
    (∀ (req : CustomerRegistrationRequest) (hashed : String),
      validateCustomerRegistrationRequest x req = [] →
      req.Password = req.PasswordConfirm → x.GenerateFromPassword req.Password = some hashed →
      f 0 = some e →
      stringsContains e
        "duplicate key value violates unique constraint \"uni_users_email\"" = false →
      RegisterCustomer x f (.parsed req) s = (⟨StatusInternalServerError, .error e⟩, s)) ∧
    (∀ (req : AdminRegistrationRequest) (hashed : String),
      validateAdminRegistrationRequest x req = [] →
      req.Password = req.PasswordConfirm → req.SecretKey = ADMIN_SECRET_KEY →
      x.GenerateFromPassword req.Password = some hashed → f 0 = some e →
      stringsContains e
        "duplicate key value violates unique constraint \"uni_users_email\"" = false →
      RegisterAdmin x f (.parsed req) s = (⟨StatusInternalServerError, .error e⟩, s)) ∧
    (∀ authUser user_id page pageSize, f1 0 = f2 0 →
      ListOrders f1 authUser user_id page pageSize s =
        ListOrders f2 authUser user_id page pageSize s) ∧
    (∀ page pageSize, f1 0 = f2 0 →
      ListProducts f1 page pageSize s = ListProducts f2 page pageSize s) ∧
    (∀ jwtParse c,
      LoadAuthUserMiddleware jwtParse f1 s c = LoadAuthUserMiddleware jwtParse f2 s c) ∧
    (∀ (user : User) (req : CreateOrderRequest) (items : List OrderItemRequest) (j : Nat),
      validateCreateOrderRequest req = [] → req.OrderItems = some items →
      (∀ it ∈ items, validItem s.products it = true) → j < items.length →
      (∀ k, k < items.length + 1 + j → f k = none) → f (items.length + 1 + j) = some e →
      (CreateOrder f (some user) (.parsed req) s).1 =
        ⟨StatusInternalServerError, .error e⟩) ∧
    (∀ (user : User) (req : CreateOrderRequest) (items : List OrderItemRequest),
      validateCreateOrderRequest req = [] → req.OrderItems = some items →
      (∀ it ∈ items, validItem s.products it = true) →
      (∀ k, k < 2 * items.length + 1 → f k = none) → f (2 * items.length + 1) = some e →
      (CreateOrder f (some user) (.parsed req) s).1 =
        ⟨StatusInternalServerError, .error e⟩) ∧
    (∀ (user : User) (req : CreateOrderRequest) (items : List OrderItemRequest),
      validateCreateOrderRequest req = [] → req.OrderItems = some items →
      (∀ it ∈ items, validItem s.products it = true) →
      (∀ k, k < 2 * items.length + 2 → f k = none) → f (2 * items.length + 2) = some e →
      (CreateOrder f (some user) (.parsed req) s).1 =
        ⟨StatusInternalServerError, .error e⟩) ∧
    (∀ (user : User) id orderID (order : Order) (status : String),
      user.Role = RoleAdmin → parseID id = some orderID → f 0 = none →
      findByID s.orders orderID = some order →
      (status = OrderStatusPending ∨ status = OrderStatusCompleted ∨
        status = OrderStatusCancelled) → f 1 = some e →
      UpdateOrderStatus f (some user) id (.parsed ⟨status⟩) s =
        (⟨StatusInternalServerError, .error e⟩, s)) ∧
    (∀ what : String, firstErrorResponse what "record not found" =
      ⟨StatusNotFound, .error (what ++ " not found")⟩) ∧
    (∀ (email firstName lastName password role msg hashed : String),
      x.GenerateFromPassword password = some hashed → f 0 = some e →
      stringsContains e
        "duplicate key value violates unique constraint \"uni_users_email\"" = true →
      registerUser x f email firstName lastName password role msg s =
        (⟨StatusBadRequest, .error "User with this email already exists."⟩, s)) := by
  refine ⟨?_, ?_, ?_, ?_, ?_, ?_, ?_, ?_, ?_, ?_, ?_, ?_, ?_, ?_, ?_, ?_, ?_, ?_, ?_, ?_, ?_,
    ?_, ?_, ?_, ?_, ?_, ?_, ?_, ?_, ?_⟩
  · exact fun authUser body => CreateAddress_generic f1 f2 authUser body s (hsame 0)
  · exact fun authUser => ListAddresses_generic f1 f2 authUser s (hsame 0)
  · exact fun now body => LoginUser_generic x f1 f2 now body s (hsame 0) (hsame 1)
  · exact fun authUser id body h0 => UpdateProduct_generic f1 f2 authUser id body s h0 (hsame 1)
  · exact fun items k products total =>
      validateOrderItems_generic f1 f2 s.products hsame items k products total
  · exact fun msg1 msg2 => rfl
  · exact fun page pageSize p sz hp hsz h0 =>
      ListProducts_find_error f page pageSize p sz e s hp hsz h0
  · exact fun user user_id page pageSize userID p sz hid hp hsz hallow h0 =>
      ListOrders_find_error f user user_id page pageSize userID p sz e s hid hp hsz hallow h0
  · exact fun id productID hid h0 hne => GetProductByID_first_error f id productID e s hid h0 hne
  · exact fun user req items hv hitems hvalid hlook hn =>
      CreateOrder_insert_error f user req items e s hv hitems hvalid hlook hn
  · exact fun user id orderID hid h0 hne => CancelOrder_first_error f user id orderID e s hid h0 hne
  · exact fun user id orderID order hid h0 hfind hown hst h1 =>
      CancelOrder_save_error f user id orderID order e s hid h0 hfind hown hst h1
  · exact fun user id orderID body hadmin hid h0 hne =>
      UpdateOrderStatus_first_error f user id orderID body e s hadmin hid h0 hne
  · exact fun user id productID body hadmin hid h0 hne =>
      UpdateProduct_first_error f user id productID body e s hadmin hid h0 hne
  · exact fun user id productID body hadmin hid h0 hne =>
      PatchProduct_first_error f user id productID body e s hadmin hid h0 hne
  · exact fun user id productID product req hadmin hid h0 hfind hv h1 =>
      PatchProduct_updates_error f user id productID product req e s hadmin hid h0 hfind hv h1
  · exact fun user id productID hadmin hid h0 hne =>
      DeleteProduct_first_error f user id productID e s hadmin hid h0 hne
  · exact fun user id productID product hadmin hid h0 hfind h1 =>
      DeleteProduct_delete_error f user id productID product e s hadmin hid h0 hfind h1
  · exact fun user req hadmin hv h0 => CreateProduct_create_error f user req e s hadmin hv h0
  · intro req hashed hv hpw hh h0 hdup
    have hb : (req.Password != req.PasswordConfirm) = false := by simp [hpw]
    unfold RegisterCustomer
    rw [ShouldBindJSON_valid _ req hv]
    simp only [hb, Bool.false_eq_true, if_false]
    exact registerUser_create_error x f _ _ _ _ _ _ hashed e s hh h0 hdup
  · intro req hashed hv hpw hkey hh h0 hdup
    have hb : (req.Password != req.PasswordConfirm) = false := by simp [hpw]
    have hk : (req.SecretKey != ADMIN_SECRET_KEY) = false := by simp [hkey]
    unfold RegisterAdmin
    rw [ShouldBindJSON_valid _ req hv]
    simp only [hb, hk, Bool.false_eq_true, if_false]
    exact registerUser_create_error x f _ _ _ _ _ _ hashed e s hh h0 hdup
  · exact fun authUser user_id page pageSize h0 =>
      ListOrders_count_generic f1 f2 authUser user_id page pageSize s h0 (hsame 1)
  · exact fun page pageSize h0 => ListProducts_count_generic f1 f2 page pageSize s h0 (hsame 1)
  · exact fun jwtParse c => LoadAuthUserMiddleware_generic jwtParse f1 f2 s c (hsame 0)
  · exact fun user req items j hv hitems hvalid hj hnone hfail =>
      CreateOrder_item_insert_error f user req items j e s hv hitems hvalid hj hnone hfail
  · exact fun user req items hv hitems hvalid hnone hfail =>
      CreateOrder_save_error f user req items e s hv hitems hvalid hnone hfail
  · exact fun user req items hv hitems hvalid hnone hfail =>
      CreateOrder_reload_error f user req items e s hv hitems hvalid hnone hfail
  · exact fun user id orderID order status hadmin hid h0 hfind hst h1 =>
      UpdateOrderStatus_save_error f user id orderID order status e s hadmin hid h0 hfind hst h1
  · intro what
    rfl
  · exact fun email firstName lastName password role msg hashed hh h0 hdup =>
      registerUser_duplicate x f email firstName lastName password role msg hashed e s hh h0 hdup

/-- C26 (as amended), on a failed insert of an address, a failed query of the products
and a failed insert of the order item of the request of `TestCreateOrder`. -/
theorem error_text_generic_only_in_some_handlers_witness :
    (∀ k, (failAt 0 "connection refused" k).isSome = (failAt 0 "too many clients" k).isSome) ∧
    CreateAddress (failAt 0 "connection refused") (some sampleCustomer)
      (.parsed ⟨"John", "Doe", "CityA", "CountryA", "12345", "Street 1"⟩) sampleStore =
    CreateAddress (failAt 0 "too many clients") (some sampleCustomer)
      (.parsed ⟨"John", "Doe", "CityA", "CountryA", "12345", "Street 1"⟩) sampleStore ∧
    ListProducts (failAt 0 "connection refused") none none sampleStore =
      (⟨StatusInternalServerError, .error "connection refused"⟩, sampleStore) ∧
    (∀ k, k < 2 → failAt 2 "connection refused" k = none) ∧
    (CreateOrder (failAt 2 "connection refused") (some sampleCustomer)
      (.parsed sampleOrderRequest) sampleStore).1 =
      ⟨StatusInternalServerError, .error "connection refused"⟩ :=
  ⟨fun k => by unfold failAt; split <;> rfl,
    (error_text_generic_only_in_some_handlers sampleExternals (failAt 0 "connection refused")
      (failAt 0 "connection refused") (failAt 0 "too many clients") sampleStore
      "connection refused" (fun k => by unfold failAt; split <;> rfl)).1
      (some sampleCustomer) (.parsed ⟨"John", "Doe", "CityA", "CountryA", "12345", "Street 1"⟩),
    (error_text_generic_only_in_some_handlers sampleExternals (failAt 0 "connection refused")
      (failAt 0 "connection refused") (failAt 0 "too many clients") sampleStore
      "connection refused" (fun k => by unfold failAt; split <;> rfl)).2.2.2.2.2.2.1
      none none 1 10 (by decide) (by decide) (by decide),
    fun k hk => by unfold failAt; rw [if_neg (by omega)],
    (error_text_generic_only_in_some_handlers sampleExternals (failAt 2 "connection refused")
      (failAt 0 "connection refused") (failAt 0 "too many clients") sampleStore
      "connection refused" (fun k => by unfold failAt; split <;> rfl)).2.2.2.2.2.2.2.2.2.2.2.2.2.2.2.2.2.2.2.2.2.2.2.2.1
      sampleCustomer sampleOrderRequest [⟨1, 2⟩] 0 (by decide) rfl (by decide) (by decide)
      (fun k hk => by unfold failAt; rw [if_neg (by simp at hk; omega)]) (by decide)⟩

end Ecommerce
